import Mathlib

/-!
# Front-panel controller: embedding of `frontpanel.cpp`

Machine integers are natural numbers or integers. Where the source computes
a value that can leave the range of its C type the wrap-around is written
out (`uint8_t` modulo `2^8`, `uint32_t` modulo `2^32`, `int8_t` into
`[-128, 127]`); masks and narrowing casts are kept as in the source. A
value that is only read from a variable is taken to be in the range of its
type.

The simulator is an external collaborator: its answers during one loop
iteration are an input (`Simulator`), the calls made to it are recorded in
program order (`Session.requests`).
-/

namespace FrontPanel

/-! ## Edge detector (`struct Edge`) -/

/-- Edge detector: holds only the previously observed value of a signal. -/
structure Edge where
  previous : Bool
  deriving DecidableEq, Repr

/-- Constructor `Edge(): previous{false}`. -/
def Edge.fresh : Edge := { previous := false }

/-- Method `Edge::rising`: the returned flag and the detector afterwards. -/
def Edge.rising (e : Edge) (current : Bool) : Bool × Edge :=
  let result := current && !e.previous
  (result, { previous := current })

/-- Method `Edge::falling`: the returned flag and the detector afterwards. -/
def Edge.falling (e : Edge) (current : Bool) : Bool × Edge :=
  let result := !current && e.previous
  (result, { previous := current })

/-- Calls `rising` once per element of the input sequence, in order, and
collects the returned flags. -/
def Edge.rising_calls : Edge → List Bool → List Bool
  | _, [] => []
  | e, c :: cs => (e.rising c).1 :: Edge.rising_calls (e.rising c).2 cs

/-- The input preceding index `i` of a sequence, with `false` before the
first element. -/
def preceding_input (s : List Bool) (i : Nat) : Bool :=
  if i = 0 then false else s.getD (i - 1) false

/-- Number of false-to-true transitions of a sequence, a leading `true`
counting as a transition from the implicit initial `false`. -/
def transitions_up (s : List Bool) : Nat :=
  ((List.range s.length).filter
    (fun i => s.getD i false && !preceding_input s i)).length

/-! ## Rotary encoder (`struct RotaryEncoder`) -/

/-- Wrap-around of a value stored into an `int8_t`. -/
def wrap_int8 (x : Int) : Int := (x + 128) % 256 - 128

/-- Wrap-around of a value stored into a `uint8_t`. -/
def wrap_uint8 (x : Nat) : Nat := x % 256

/-- Constant `RotaryEncoder::SENSITIVITY`. -/
def SENSITIVITY : Int := 4

/-- Quadrature decoder state: `states` is the modulus, `last_state` the
previous two-bit input, `accumulated_deltas` an `int8_t`, `position` a
`uint8_t`. -/
structure RotaryEncoder where
  states : Nat
  last_state : Nat
  accumulated_deltas : Int
  position : Nat
  deriving DecidableEq, Repr

/-- Constructor `RotaryEncoder(uint8_t states)`. -/
def RotaryEncoder.fresh (states : Nat) : RotaryEncoder :=
  { states := states, last_state := 0, accumulated_deltas := 0, position := 0 }

/-- The local `state = (a ? 2 : 0) | (b ? 1 : 0)` of `add_delta`. -/
def quadrature_state (a b : Bool) : Nat :=
  (if a then 2 else 0) ||| (if b then 1 else 0)

/-- The local `delta` of `add_delta`: the if/else-if chain over the pair
(previous state, new state). -/
def step_delta (last_state state : Nat) : Int :=
  if last_state = 0 ∧ state = 1 then 1
  else if last_state = 1 ∧ state = 3 then 1
  else if last_state = 3 ∧ state = 2 then 1
  else if last_state = 2 ∧ state = 0 then 1
  else if last_state = 0 ∧ state = 2 then -1
  else if last_state = 2 ∧ state = 3 then -1
  else if last_state = 3 ∧ state = 1 then -1
  else if last_state = 1 ∧ state = 0 then -1
  else 0

/-- Method `RotaryEncoder::add_delta`. The two threshold tests run one
after the other on the accumulator as left by the previous statement; the
final `position %= states` has no defined result in C for `states = 0`,
where this definition follows Lean's `n % 0 = n`. -/
def RotaryEncoder.add_delta (e : RotaryEncoder) (a b : Bool) : RotaryEncoder :=
  let state := quadrature_state a b
  let delta := step_delta e.last_state state
  let acc0 := wrap_int8 (e.accumulated_deltas + delta)
  let up := decide (acc0 > SENSITIVITY)
  let acc1 := if up then 0 else acc0
  let pos1 := if up then wrap_uint8 (e.position + 1) else e.position
  let down := decide (acc1 < -SENSITIVITY)
  let acc2 := if down then 0 else acc1
  let pos2 := if down then wrap_uint8 (pos1 + 255) else pos1
  { states := e.states, last_state := state, accumulated_deltas := acc2,
    position := pos2 % e.states }

/-- The clockwise quarter-step inputs `(a, b)` in the order 01, 11, 10, 00. -/
def clockwise_input (i : Nat) : Bool × Bool :=
  match i % 4 with
  | 0 => (false, true)
  | 1 => (true, true)
  | 2 => (true, false)
  | _ => (false, false)

/-- Feeds the first `n` clockwise quarter-steps 01, 11, 10, 00, 01, ... to
an encoder through `add_delta`. -/
def feed_clockwise (e : RotaryEncoder) : Nat → RotaryEncoder
  | 0 => e
  | n + 1 =>
    (feed_clockwise e n).add_delta (clockwise_input n).1 (clockwise_input n).2

/-! ## Panel state (`struct PanelState`) -/

/-- The shared panel snapshot. `address` and `switch_state` are `uint32_t`,
`data` is `uint16_t`, the rotary fields are `uint8_t`. -/
structure PanelState where
  address : Nat
  data : Nat
  flag_addr22 : Bool
  flag_addr18 : Bool
  flag_addr16 : Bool
  flag_data : Bool
  flag_kernel : Bool
  flag_super : Bool
  flag_user : Bool
  flag_master : Bool
  flag_pause : Bool
  flag_run : Bool
  flag_addr_err : Bool
  flag_par_err : Bool
  flag_par_low : Bool
  flag_par_high : Bool
  r1_user_d : Nat
  r1_super_d : Nat
  r1_kernel_d : Nat
  r1_cons_phy : Nat
  r1_user_i : Nat
  r1_super_i : Nat
  r1_kernel_i : Nat
  r1_prog_phy : Nat
  r2_data_paths : Nat
  r2_bus_reg : Nat
  r2_mu_adr_fpp_cpu : Nat
  r2_display_register : Nat
  switch_state : Nat
  flag_test : Bool
  flag_load_addr : Bool
  flag_exam : Bool
  flag_dep : Bool
  flag_cont : Bool
  flag_enable_halt : Bool
  flag_sinst_sbus_cycle : Bool
  flag_start : Bool
  r1_button : Bool
  r2_button : Bool
  r1_position : Nat
  r2_position : Nat
  deriving DecidableEq, Repr

/-- The initial value `static PanelState panel = {0}`. -/
def PanelState.zero : PanelState :=
  { address := 0, data := 0,
    flag_addr22 := false, flag_addr18 := false, flag_addr16 := false,
    flag_data := false, flag_kernel := false, flag_super := false,
    flag_user := false, flag_master := false, flag_pause := false,
    flag_run := false, flag_addr_err := false, flag_par_err := false,
    flag_par_low := false, flag_par_high := false,
    r1_user_d := 0, r1_super_d := 0, r1_kernel_d := 0, r1_cons_phy := 0,
    r1_user_i := 0, r1_super_i := 0, r1_kernel_i := 0, r1_prog_phy := 0,
    r2_data_paths := 0, r2_bus_reg := 0, r2_mu_adr_fpp_cpu := 0,
    r2_display_register := 0,
    switch_state := 0,
    flag_test := false, flag_load_addr := false, flag_exam := false,
    flag_dep := false, flag_cont := false, flag_enable_halt := false,
    flag_sinst_sbus_cycle := false, flag_start := false,
    r1_button := false, r2_button := false,
    r1_position := 0, r2_position := 0 }

/-! ## Switch matrix scan and decode -/

/-- The raw matrix `bool switches[3][12]`. -/
abbrev SwitchMatrix := Fin 3 → Fin 12 → Bool

/-- The levels `col_values[col]` returned by `cols->pins_get_all` while
switch row `switch_row` is driven low (`true` is a high line). -/
abbrev ColumnReadings := Fin 3 → Fin 12 → Bool

/-- Array read `switches[row][col]`; every read in the source is in range. -/
def cell (switches : SwitchMatrix) (row col : Nat) : Bool :=
  if h : row < 3 ∧ col < 12 then switches ⟨row, h.1⟩ ⟨col, h.2⟩ else false

/-- Function `read_state_switches`, as a function of the column levels each
successful read returns: `switches[switch_row][col] = !col_values[col]`.
The line writes, mode changes and delays around the reads are not part of
this definition. -/
def read_state_switches (col_values : ColumnReadings) : SwitchMatrix :=
  fun switch_row col => !col_values switch_row col

/-- Function `decode_state_switches`. The two loops only ever set bits
0..21, so the `uint32_t` accumulator cannot overflow. -/
def decode_state_switches (switches : SwitchMatrix) (panel_state : PanelState) :
    PanelState :=
  let row0 := (List.range 12).foldl
    (fun acc col => if cell switches 0 col then acc ||| (1 <<< col) else acc) 0
  let row1 := (List.range 10).foldl
    (fun acc col => if cell switches 1 col then acc ||| (1 <<< (12 + col)) else acc)
    row0
  { panel_state with
    switch_state := row1
    flag_test := !cell switches 2 0
    flag_load_addr := !cell switches 2 1
    flag_exam := !cell switches 2 2
    flag_dep := !cell switches 2 3
    flag_cont := !cell switches 2 4
    flag_enable_halt := !cell switches 2 5
    flag_sinst_sbus_cycle := !cell switches 2 6
    flag_start := !cell switches 2 7 }

/-- A column-level pattern for the three row scans in which only row 2
matters: rows 0 and 1 read all high, row 2 reads `row2`. -/
def readings_with_row2 (row2 : Fin 12 → Bool) : ColumnReadings :=
  fun switch_row col => if switch_row = 2 then row2 col else true

/-- Row-2 column levels with column 0 low and every other column high. -/
def row2_only_col0_low : Fin 12 → Bool := fun col => decide (col ≠ 0)

/-! ## Simulator helpers -/

/-- The mask `(1u << 22) - 1`. -/
def MASK22 : Nat := (1 <<< 22) - 1

/-- Wrap-around of a `uint32_t` result. -/
def wrap_uint32 (x : Nat) : Nat := x % 2 ^ 32

/-- Function `pc_inc`. -/
def pc_inc (pc22 : Nat) : Nat := wrap_uint32 (pc22 + 1) &&& MASK22

/-- Function `compute_ksu_from_psw`, with the global `reg_psw` passed in. -/
def compute_ksu_from_psw (reg_psw : Nat) (panel_state : PanelState) : PanelState :=
  let cleared := { panel_state with
    flag_kernel := false, flag_super := false, flag_user := false }
  if reg_psw = 0 then cleared
  else
    let mode := (reg_psw >>> 14) &&& 3
    if mode = 0 then { cleared with flag_kernel := true }
    else if mode = 1 then { cleared with flag_super := true }
    else if mode = 3 then { cleared with flag_user := true }
    else cleared

/-- Function `select_display_address`. -/
def select_display_address (r1_pos pc console_address : Nat) : Nat :=
  match r1_pos with
  | 0 | 1 | 2 | 4 | 5 | 6 => pc
  | 3 => console_address
  | 7 => pc &&& MASK22
  | _ => pc

/-- Function `select_display_register_data`, with the globals `reg_pc` and
`reg_r` passed in. -/
def select_display_register_data (reg_pc : Nat) (reg_r : Fin 8 → Nat)
    (switch_state : Nat) : Nat :=
  let index := switch_state &&& 7
  if index = 7 then reg_pc &&& 65535
  else reg_r (Fin.ofNat index)

/-! ## Session state and the simulator collaborator -/

/-- What the simulator answers to the calls made during one loop iteration:
`running` is `sim_panel_get_state(...) == Run`; `mem_examine addr` is the
word stored through the `value` pointer when `sim_panel_mem_examine`
returns 0 and `none` when it fails; `mem_deposit addr value` and
`set_register_value pc` tell whether the call returns 0. -/
structure Simulator where
  running : Bool
  mem_examine : Nat → Option Nat
  mem_deposit : Nat → Nat → Bool
  set_register_value : Nat → Bool

/-- A call made to the simulator. `set_pc v` is
`sim_panel_set_register_value(simh_panel, "PC", buffer)` with `buffer` the
decimal text of `v`. -/
inductive SimRequest where
  | mem_examine (address : Nat)
  | mem_deposit (address value : Nat)
  | exec_step
  | exec_halt
  | exec_run
  | set_pc (value : Nat)
  deriving DecidableEq, Repr

/-- The globals of `frontpanel.cpp` and the locals of `run_session` that
live across loop iterations, together with `requests`, the simulator calls
made so far in program order. -/
structure Session where
  panel : PanelState
  reg_pc : Nat
  reg_ir : Nat
  reg_psw : Nat
  reg_r : Fin 8 → Nat
  bits_pc : Fin 22 → Int
  registers_updated : Bool
  edge_load : Edge
  edge_exam : Edge
  edge_dep : Edge
  edge_step : Edge
  edge_cont : Edge
  edge_enable_halt : Edge
  edge_start : Edge
  edge_r1_button : Edge
  edge_r2_button : Edge
  edge_test : Edge
  r1_encoder : RotaryEncoder
  r2_encoder : RotaryEncoder
  console_address : Nat
  prev_console_address : Nat
  use_data_latched : Bool
  data_latched : Nat
  prev_data_latched : Nat
  requests : List SimRequest

/-- The session state on entry to the main loop of `run_session`, for a
given decoded panel: fresh detectors and encoders, zeroed registers and
console variables, `registers_updated` forced to true. -/
def Session.start (panel : PanelState) : Session :=
  { panel := panel,
    reg_pc := 0, reg_ir := 0, reg_psw := 0,
    reg_r := fun _ => 0, bits_pc := fun _ => 0,
    registers_updated := true,
    edge_load := Edge.fresh, edge_exam := Edge.fresh, edge_dep := Edge.fresh,
    edge_step := Edge.fresh, edge_cont := Edge.fresh,
    edge_enable_halt := Edge.fresh, edge_start := Edge.fresh,
    edge_r1_button := Edge.fresh, edge_r2_button := Edge.fresh,
    edge_test := Edge.fresh,
    r1_encoder := RotaryEncoder.fresh 8, r2_encoder := RotaryEncoder.fresh 4,
    console_address := 0, prev_console_address := 0,
    use_data_latched := false, data_latched := 0, prev_data_latched := 0,
    requests := [] }

/-! ## The snapshot step: body of `if(registers_updated)` in `run_session` -/

/-- LOAD ADDR block. The detector is only called when the simulator is not
running (`&&` short-circuits). -/
def load_block (simulator_running : Bool) (s : Session) : Session :=
  if simulator_running then s
  else
    let r := s.edge_load.falling s.panel.flag_load_addr
    let s1 := { s with edge_load := r.2 }
    if r.1 then
      { s1 with
        prev_console_address := s1.console_address
        console_address := s1.panel.switch_state &&& MASK22
        use_data_latched := false }
    else s1

/-- EXAM block. -/
def exam_block (sim : Simulator) (simulator_running : Bool) (s : Session) : Session :=
  if simulator_running then s
  else
    let r := s.edge_exam.falling s.panel.flag_exam
    let s1 := { s with edge_exam := r.2 }
    if r.1 then
      let s2 := { s1 with
        requests := s1.requests ++ [SimRequest.mem_examine s1.console_address] }
      match sim.mem_examine s2.console_address with
      | some value =>
        { s2 with
          prev_data_latched := s2.data_latched
          data_latched := value
          use_data_latched := true
          prev_console_address := s2.console_address
          console_address := pc_inc s2.console_address }
      | none => s2
    else s1

/-- DEP block. -/
def dep_block (sim : Simulator) (simulator_running : Bool) (s : Session) : Session :=
  if simulator_running then s
  else
    let r := s.edge_dep.falling s.panel.flag_dep
    let s1 := { s with edge_dep := r.2 }
    if r.1 then
      let value := s1.panel.switch_state &&& 65535
      let s2 := { s1 with
        requests := s1.requests ++ [SimRequest.mem_deposit s1.console_address value] }
      if sim.mem_deposit s2.console_address value then
        { s2 with
          prev_data_latched := s2.data_latched
          data_latched := value
          use_data_latched := true
          prev_console_address := s2.console_address
          console_address := pc_inc s2.console_address }
      else s2
    else s1

/-- CONT block: both arms of the inner `if` only differ in the log line. -/
def cont_block (s : Session) : Session :=
  let r := s.edge_cont.falling s.panel.flag_cont
  let s1 := { s with edge_cont := r.2 }
  if r.1 then { s1 with requests := s1.requests ++ [SimRequest.exec_step] }
  else s1

/-- ENABLE/HALT block. -/
def enable_halt_block (simulator_running : Bool) (s : Session) : Session :=
  if simulator_running then
    let r := s.edge_enable_halt.falling s.panel.flag_enable_halt
    let s1 := { s with edge_enable_halt := r.2 }
    if r.1 then { s1 with requests := s1.requests ++ [SimRequest.exec_halt] }
    else s1
  else
    let r := s.edge_enable_halt.rising s.panel.flag_enable_halt
    let s1 := { s with edge_enable_halt := r.2 }
    if r.1 then
      { s1 with
        requests := s1.requests ++ [SimRequest.exec_run]
        use_data_latched := false }
    else s1

/-- START block: returns the local `pc` together with the session. -/
def start_block (sim : Simulator) (pc : Nat) (s : Session) : Nat × Session :=
  let r := s.edge_start.falling s.panel.flag_start
  let s1 := { s with edge_start := r.2 }
  if r.1 then
    let s2 := { s1 with
      requests := s1.requests ++ [SimRequest.set_pc s1.console_address] }
    if sim.set_register_value s2.console_address then
      (s2.console_address,
        { s2 with
          reg_pc := s2.console_address
          requests := s2.requests ++ [SimRequest.exec_run] })
    else (pc, s2)
  else (pc, s1)

/-- The parity loop `for(i = 0; i < n; i++) parity ^= (bits >> i) & 1`,
starting from `parity = 0`. -/
def parity_loop (bits n : Nat) : Nat :=
  (List.range n).foldl (fun parity i => parity ^^^ ((bits >>> i) &&& 1)) 0

/-- The status-lamp, address, data and parity updates that close the
snapshot step; returns the session and the local `use_blinkenlights`. -/
def display_block (simulator_running : Bool) (pc : Nat) (s : Session) :
    Session × Bool :=
  let p0 := compute_ksu_from_psw s.reg_psw s.panel
  let p1 := { p0 with flag_run := simulator_running }
  let p2 := { p1 with
    address :=
      if !simulator_running then s.console_address
      else select_display_address p1.r1_position pc s.console_address }
  let use_blinkenlights :=
    if !simulator_running then false else decide (p1.r1_position ≠ 3)
  let p3 := { p2 with
    data :=
      if p2.r2_position = 3 then
        select_display_register_data s.reg_pc s.reg_r p2.switch_state
      else if s.use_data_latched then s.data_latched
      else if !simulator_running then p2.switch_state &&& 65535
      else p2.data }
  let addr16 := decide (pc < 1 <<< 16)
  let addr18 := !addr16 && decide (pc < 1 <<< 18)
  let addr22 := !addr18 && decide (pc ≥ 1 <<< 18)
  let p4 := { p3 with
    flag_addr16 := addr16, flag_addr18 := addr18, flag_addr22 := addr22,
    flag_data := false, flag_master := false, flag_pause := false,
    flag_addr_err := false, flag_par_err := false }
  let data_low := p4.data &&& 255
  let data_high := (p4.data >>> 8) &&& 255
  let parity_low := if use_blinkenlights then 0 else parity_loop data_low 16
  let parity_high := if use_blinkenlights then 0 else parity_loop data_high 6
  let p5 := { p4 with
    flag_par_low := decide (parity_low = 1)
    flag_par_high := decide (parity_high = 1) }
  ({ s with panel := p5 }, use_blinkenlights)

/-- The whole body of `if(registers_updated)`: clears the flag, samples the
PC and the run state once, runs the six console blocks in source order and
then the display updates. -/
def process_snapshot (sim : Simulator) (s : Session) : Session × Bool :=
  let s0 := { s with registers_updated := false }
  let pc := s0.reg_pc &&& MASK22
  let simulator_running := sim.running
  let s1 := load_block simulator_running s0
  let s2 := exam_block sim simulator_running s1
  let s3 := dep_block sim simulator_running s2
  let s4 := cont_block s3
  let s5 := enable_halt_block simulator_running s4
  let r := start_block sim pc s5
  display_block simulator_running r.1 r.2

/-- A simulator that is halted and accepts every command, every examine
returning the word `value`. -/
def Simulator.halted_ok (value : Nat) : Simulator :=
  { running := false
    mem_examine := fun _ => some value
    mem_deposit := fun _ _ => true
    set_register_value := fun _ => true }

/-- A simulator that is halted and fails every command. -/
def Simulator.halted_failing : Simulator :=
  { running := false
    mem_examine := fun _ => none
    mem_deposit := fun _ _ => false
    set_register_value := fun _ => false }

/-- A simulator that is running and accepts every command. -/
def Simulator.running_ok : Simulator :=
  { running := true
    mem_examine := fun _ => some 0
    mem_deposit := fun _ _ => true
    set_register_value := fun _ => true }

/-- A panel whose eight control flags are all in the released state
(`true`), with the given switch register. -/
def PanelState.released (switch_state : Nat) : PanelState :=
  { PanelState.zero with
    switch_state := switch_state
    flag_test := true, flag_load_addr := true, flag_exam := true,
    flag_dep := true, flag_cont := true, flag_enable_halt := true,
    flag_sinst_sbus_cycle := true, flag_start := true }

/-- A session in which every console detector last saw its flag released
(`previous = true`), at the given console address. -/
def Session.idle (panel : PanelState) (console_address : Nat) : Session :=
  { Session.start panel with
    edge_load := { previous := true }, edge_exam := { previous := true },
    edge_dep := { previous := true }, edge_cont := { previous := true },
    edge_enable_halt := { previous := true }, edge_start := { previous := true },
    console_address := console_address }

/-- An idle halted session at console address 0100 (octal) in which the
EXAM flag has just gone low. -/
def exam_pressed_session : Session :=
  Session.idle { PanelState.released 0 with flag_exam := false } 64

/-- An idle halted session at console address 0100 (octal), switch register
0x2ABCD, in which the DEP flag has just gone low. -/
def dep_pressed_session : Session :=
  Session.idle { PanelState.released 175053 with flag_dep := false } 64

/-- An idle halted session at console address 0100 (octal) that owns the
data latch, switch register 01234 (octal), in which the LOAD ADDR flag has
just gone low. -/
def load_pressed_session : Session :=
  { Session.idle { PanelState.released 668 with flag_load_addr := false } 64 with
    use_data_latched := true, data_latched := 7 }

/-! ## LED encoder (`encode_state_lights`) -/

/-- The grid `bool leds[6][12]`. -/
abbrev LedGrid := Fin 6 → Fin 12 → Bool

/-- Array write `leds[row][col] = value`. -/
def set_led (leds : LedGrid) (row col : Nat) (value : Bool) : LedGrid :=
  fun r c => if r.val = row ∧ c.val = col then value else leds r c

/-- Array read `leds[row][col]`. -/
def led (leds : LedGrid) (row col : Nat) : Bool :=
  if h : row < 6 ∧ col < 12 then leds ⟨row, h.1⟩ ⟨col, h.2⟩ else false

/-- Array read `blinkenlight_array[i]` on the 22-entry buffer `bits_pc`. -/
def sample (blinkenlight_array : Fin 22 → Int) (i : Nat) : Int :=
  if h : i < 22 then blinkenlight_array ⟨i, h⟩ else 0

/-- Conversion of an integer expression to `bool`: nonzero is true. -/
def to_bool (x : Nat) : Bool := decide (x ≠ 0)

/-- Function `encode_state_lights`. The grid is an in/out parameter; the
buffer pointer is `none` for `nullptr`. -/
def encode_state_lights (panel_state : PanelState) (leds : LedGrid)
    (blinkenlight_array : Option (Fin 22 → Int)) : LedGrid :=
  let leds := (List.range 6).foldl
    (fun leds led_row =>
      (List.range 12).foldl (fun leds col => set_led leds led_row col false) leds)
    leds
  let leds := (List.range 12).foldl
    (fun leds col => set_led leds 0 col
      (match blinkenlight_array with
        | some arr => decide (sample arr col > 50)
        | none => to_bool ((panel_state.address >>> col) &&& 1)))
    leds
  let leds := (List.range 10).foldl
    (fun leds col => set_led leds 1 col
      (match blinkenlight_array with
        | some arr => decide (sample arr (12 + col) > 50)
        | none => to_bool ((panel_state.address >>> (12 + col)) &&& 1)))
    leds
  let leds := set_led leds 2 0 panel_state.flag_addr22
  let leds := set_led leds 2 1 panel_state.flag_addr18
  let leds := set_led leds 2 2 panel_state.flag_addr16
  let leds := set_led leds 2 3 panel_state.flag_data
  let leds := set_led leds 2 4 panel_state.flag_kernel
  let leds := set_led leds 2 5 panel_state.flag_super
  let leds := set_led leds 2 6 panel_state.flag_user
  let leds := set_led leds 2 7 panel_state.flag_master
  let leds := set_led leds 2 8 panel_state.flag_pause
  let leds := set_led leds 2 9 panel_state.flag_run
  let leds := set_led leds 2 10 panel_state.flag_addr_err
  let leds := set_led leds 2 11 panel_state.flag_par_err
  let leds := (List.range 12).foldl
    (fun leds col => set_led leds 3 col (to_bool ((panel_state.data >>> col) &&& 1)))
    leds
  let leds := set_led leds 4 0 (to_bool ((panel_state.data >>> 12) &&& 1))
  let leds := set_led leds 4 1 (to_bool ((panel_state.data >>> 13) &&& 1))
  let leds := set_led leds 4 2 (to_bool ((panel_state.data >>> 14) &&& 1))
  let leds := set_led leds 4 3 (to_bool ((panel_state.data >>> 15) &&& 1))
  let leds := set_led leds 4 4 panel_state.flag_par_low
  let leds := set_led leds 4 5 panel_state.flag_par_high
  let leds := if panel_state.r1_position = 0 then set_led leds 4 6 true else leds
  let leds := if panel_state.r1_position = 1 then set_led leds 4 7 true else leds
  let leds := if panel_state.r1_position = 2 then set_led leds 4 8 true else leds
  let leds := if panel_state.r1_position = 3 then set_led leds 4 9 true else leds
  let leds := if panel_state.r1_position = 4 then set_led leds 5 6 true else leds
  let leds := if panel_state.r1_position = 5 then set_led leds 5 7 true else leds
  let leds := if panel_state.r1_position = 6 then set_led leds 5 8 true else leds
  let leds := if panel_state.r1_position = 7 then set_led leds 5 9 true else leds
  let leds := if panel_state.r2_position = 0 then set_led leds 4 10 true else leds
  let leds := if panel_state.r2_position = 1 then set_led leds 4 11 true else leds
  let leds := if panel_state.r2_position = 2 then set_led leds 5 10 true else leds
  let leds := if panel_state.r2_position = 3 then set_led leds 5 11 true else leds
  leds

/-- The cell that indicates R1 position `p`: row 4 column `6 + p` for `p`
in 0..3, row 5 column `2 + p` for `p` in 4..7. -/
def r1_cell (p : Nat) : Nat × Nat := if p < 4 then (4, 6 + p) else (5, 2 + p)

/-- The cell that indicates R2 position `q`: row 4 column `10 + q` for `q`
in 0..1, row 5 column `8 + q` for `q` in 2..3. -/
def r2_cell (q : Nat) : Nat × Nat := if q < 2 then (4, 10 + q) else (5, 8 + q)

/-- A grid with every LED lit, as a possible prior content of `leds`. -/
def all_lit : LedGrid := fun _ _ => true

/-- A panel on which all three CPU-mode flags are lit. -/
def all_modes_lit : PanelState :=
  { PanelState.zero with flag_kernel := true, flag_super := true, flag_user := true }

/-- The session on reaching the ENABLE/HALT block of a snapshot step: the
flag is cleared and the LOAD ADDR, EXAM, DEP and CONT blocks have run. -/
def before_enable_halt (sim : Simulator) (s : Session) : Session :=
  cont_block (dep_block sim sim.running (exam_block sim sim.running
    (load_block sim.running { s with registers_updated := false })))

/-- The session on reaching the START block of a snapshot step. -/
def before_start (sim : Simulator) (s : Session) : Session :=
  enable_halt_block sim.running (before_enable_halt sim s)

/-- The local `pc` and the session after the six console blocks of a
snapshot step, on reaching the display updates. -/
def console_actions (sim : Simulator) (s : Session) : Nat × Session :=
  start_block sim (s.reg_pc &&& MASK22) (before_start sim s)

/-- An idle running session whose PC register holds 0x12345 with a stray
bit 22 set, the address rotary at USER_D. -/
def running_session_pc : Session :=
  { Session.idle (PanelState.released 0) 64 with reg_pc := 4268869 }

/-- XOR of the `n` bits of `x` from bit `lo` upward, the parity the spec
asks of a bit field. -/
def xor_of_bits (x lo n : Nat) : Bool :=
  (List.range n).foldl (fun acc i => xor acc (x.testBit (lo + i))) false

/-- A halted idle session at R2 position 0 that owns the data latch with
the word 0x2B07 latched and 0x00FF on the data lamps. -/
def latched_session : Session :=
  { Session.idle { PanelState.released 5 with data := 255 } 64 with
    use_data_latched := true, data_latched := 11015 }

/-- A halted idle session at console address 0100 (octal) that owns the
data latch, in which the START flag has just gone low. -/
def start_pressed_latched_session : Session :=
  { Session.idle { PanelState.released 0 with flag_start := false } 64 with
    reg_pc := 512, use_data_latched := true, data_latched := 7 }

/-- A halted session that owns the data latch, in which the ENABLE/HALT
flag has just gone high. -/
def enable_raised_session : Session :=
  { Session.idle (PanelState.released 0) 64 with
    edge_enable_halt := { previous := false }
    use_data_latched := true, data_latched := 7 }

/-- An idle session in which the ENABLE/HALT flag has just gone low. -/
def halt_lowered_session : Session :=
  Session.idle { PanelState.released 0 with flag_enable_halt := false } 64

/-- Feeds a sequence of `(a, b)` inputs to an encoder, one `add_delta` call
per element, in order. -/
def feed_inputs (e : RotaryEncoder) : List (Bool × Bool) → RotaryEncoder
  | [] => e
  | ab :: rest => feed_inputs (e.add_delta ab.1 ab.2) rest

/-! ## LED driver (`write_state_lights`) -/

/-- The levels driven on the six LED row lines and the twelve column lines
(`true` is high). -/
structure Lines where
  led_rows : Fin 6 → Bool
  cols : Fin 12 → Bool

/-- A write to the LED row group or the column group, every write taken to
succeed: `led_rows->pins_set_all(flags)`, `led_rows->pin_set(index, flag)`
and `cols->pins_set_all(flags)`. -/
inductive LineWrite where
  | led_rows_set_all (flags : Fin 6 → Bool)
  | led_rows_set (index : Nat) (flag : Bool)
  | cols_set_all (flags : Fin 12 → Bool)

/-- The line levels after a write. -/
def LineWrite.apply (w : LineWrite) (l : Lines) : Lines :=
  match w with
  | LineWrite.led_rows_set_all flags => { l with led_rows := flags }
  | LineWrite.led_rows_set index flag =>
    { l with led_rows := fun r => if r.val = index then flag else l.led_rows r }
  | LineWrite.cols_set_all flags => { l with cols := flags }

/-- Function `write_state_lights`, as the writes it makes in program order;
the two delays between them are not part of this definition. -/
def write_state_lights (leds : LedGrid) : List LineWrite :=
  [LineWrite.led_rows_set_all (fun _ => false)] ++
  ((List.range 6).map (fun led_row =>
    [LineWrite.cols_set_all (fun col => !led leds led_row col.val),
      LineWrite.led_rows_set led_row true,
      LineWrite.led_rows_set led_row false])).flatten ++
  [LineWrite.cols_set_all (fun _ => true)]

/-- The line levels after each write of a sequence, in order, starting from
the levels `l`. -/
def line_states : Lines → List LineWrite → List Lines
  | _, [] => []
  | l, w :: ws => w.apply l :: line_states (w.apply l) ws

/-- The LED rows that are high, in increasing order. -/
def high_rows (l : Lines) : List Nat :=
  (List.range 6).filter (fun r => if h : r < 6 then l.led_rows ⟨r, h⟩ else false)

/-- The rows switched on by a sequence of writes, in program order. -/
def energized (writes : List LineWrite) : List Nat :=
  writes.filterMap (fun w =>
    match w with
    | LineWrite.led_rows_set index true => some index
    | _ => none)

/-- Line levels with every row and every column high. -/
def Lines.all_high : Lines := { led_rows := fun _ => true, cols := fun _ => true }

/-! ## The main loop of `run_session` -/

/-- What the simulator has written into the registered buffers when it
fires the display callback. -/
structure Registers where
  pc : Nat
  ir : Nat
  psw : Nat
  r : Fin 8 → Nat
  bits_pc : Fin 22 → Int

/-- A register snapshot arriving: the buffers hold the new values and
`display_callback` sets `registers_updated`. -/
def deliver_snapshot (regs : Registers) (s : Session) : Session :=
  { s with
    reg_pc := regs.pc, reg_ir := regs.ir, reg_psw := regs.psw, reg_r := regs.r,
    bits_pc := regs.bits_pc, registers_updated := true }

/-- Function `decode_state_rotary_switches`: the panel and the two encoders
afterwards. -/
def decode_state_rotary_switches (switches : SwitchMatrix) (panel_state : PanelState)
    (r1_encoder r2_encoder : RotaryEncoder) :
    PanelState × RotaryEncoder × RotaryEncoder :=
  let p1 := { panel_state with r1_button := cell switches 1 10 }
  let r1 := r1_encoder.add_delta (cell switches 2 8) (cell switches 2 9)
  let p2 := { p1 with r1_position := r1.position }
  let p3 := { p2 with r2_button := cell switches 1 11 }
  let r2 := r2_encoder.add_delta (cell switches 2 10) (cell switches 2 11)
  let p4 := { p3 with r2_position := r2.position }
  (p4, r1, r2)

/-- The enumeration `SessionResult`. -/
inductive SessionResult where
  | Exit
  | RestartSession
  | ReloadConfigRestartSession
  deriving DecidableEq, Repr

/-- What one pass through the loop body receives from outside: a register
snapshot if one arrived since the previous pass, the column levels of the
three row scans, the simulator's answers, and the prior content of the
local `leds` array. -/
structure IterationInput where
  snapshot : Option Registers
  col_values : ColumnReadings
  sim : Simulator
  leds : LedGrid

/-- Outcome of one pass through the loop body: the session afterwards, the
session result when the pass left the loop by `break`, and the LED line
writes of the pass (none when it left the loop). -/
structure IterationOutcome where
  session : Session
  result : Option SessionResult
  writes : List LineWrite

/-- Whether a pass through the loop body finds `registers_updated` set. -/
def snapshot_pending (inp : IterationInput) (s : Session) : Bool :=
  inp.snapshot.isSome || s.registers_updated

/-- The body of `while(program_running)` in `run_session`. A snapshot is
taken to arrive between passes, never in the middle of one. -/
def loop_iteration (inp : IterationInput) (s : Session) : IterationOutcome :=
  let s0 := match inp.snapshot with
    | some regs => deliver_snapshot regs s
    | none => s
  let switches := read_state_switches inp.col_values
  let p1 := decode_state_switches switches s0.panel
  let d := decode_state_rotary_switches switches p1 s0.r1_encoder s0.r2_encoder
  let s1 := { s0 with panel := d.1, r1_encoder := d.2.1, r2_encoder := d.2.2 }
  let b1 := s1.edge_r1_button.rising s1.panel.r1_button
  let s2 := { s1 with edge_r1_button := b1.2 }
  if b1.1 then
    { session := s2, result := some SessionResult.ReloadConfigRestartSession,
      writes := [] }
  else
    let b2 := s2.edge_r2_button.rising s2.panel.r2_button
    let s3 := { s2 with edge_r2_button := b2.2 }
    if b2.1 then
      { session := s3, result := some SessionResult.RestartSession, writes := [] }
    else
      let t := s3.edge_test.rising s3.panel.flag_test
      let s4 := { s3 with edge_test := t.2 }
      let r := if s4.registers_updated then process_snapshot inp.sim s4 else (s4, false)
      let leds := encode_state_lights r.1.panel inp.leds
        (if r.2 then some r.1.bits_pc else none)
      { session := r.1, result := none, writes := write_state_lights leds }

/-- The loop of `run_session` over a finite sequence of passes: stops at
the first pass that leaves by `break`, and returns the session together
with the result of that pass, if any. -/
def run_iterations : List IterationInput → Session → Session × Option SessionResult
  | [], s => (s, none)
  | inp :: rest, s =>
    match (loop_iteration inp s).result with
    | some r => ((loop_iteration inp s).session, some r)
    | none => run_iterations rest (loop_iteration inp s).session

/-- The session on reaching the `registers_updated` test in a pass that
does not leave the loop: snapshot delivered, panel and encoders decoded,
the two button detectors and the TEST detector called. -/
def scanned (inp : IterationInput) (s : Session) : Session :=
  let s0 := match inp.snapshot with
    | some regs => deliver_snapshot regs s
    | none => s
  let switches := read_state_switches inp.col_values
  let p1 := decode_state_switches switches s0.panel
  let d := decode_state_rotary_switches switches p1 s0.r1_encoder s0.r2_encoder
  let s1 := { s0 with panel := d.1, r1_encoder := d.2.1, r2_encoder := d.2.2 }
  { s1 with
    edge_r1_button := (s1.edge_r1_button.rising s1.panel.r1_button).2
    edge_r2_button := (s1.edge_r2_button.rising s1.panel.r2_button).2
    edge_test := (s1.edge_test.rising s1.panel.flag_test).2 }

/-- A pass in which rows 0 and 1 read all high, row 2 reads `row2`, and a
snapshot arrives or not. -/
def pass_with_row2 (snapshot : Option Registers) (row2 : Fin 12 → Bool)
    (sim : Simulator) : IterationInput :=
  { snapshot := snapshot, col_values := readings_with_row2 row2, sim := sim,
    leds := all_lit }

/-- Row-2 column levels with the LOAD ADDR column low and every other
column high. -/
def row2_load_low : Fin 12 → Bool := fun col => decide (col ≠ 1)


/-- An idle session with no snapshot pending. -/
def idle_no_snapshot : Session :=
  { Session.idle (PanelState.released 0) 64 with registers_updated := false }

/-- A register snapshot with PC 01000 (octal) and everything else zero. -/
def Registers.sample : Registers :=
  { pc := 512, ir := 0, psw := 0, r := fun _ => 0, bits_pc := fun _ => 0 }

/-- A register snapshot whose raw PC has all 32 bits set. -/
def Registers.wide_pc : Registers :=
  { pc := 4294967295, ir := 0, psw := 0, r := fun _ => 0, bits_pc := fun _ => 0 }

/-- Row-2 column levels with every column high: nothing pressed. -/
def row2_all_high : Fin 12 → Bool := fun _ => true

/-- Whether a request is a memory examine. -/
def SimRequest.is_examine : SimRequest → Bool
  | SimRequest.mem_examine _ => true
  | _ => false

/-- Whether a request is a memory deposit. -/
def SimRequest.is_deposit : SimRequest → Bool
  | SimRequest.mem_deposit _ _ => true
  | _ => false

/-- The log `new` is the log `old` followed by requests that all satisfy
`allowed`. -/
def extends_with (allowed : SimRequest → Bool) (old new : List SimRequest) : Prop :=
  ∃ extra, new = old ++ extra ∧ ∀ q ∈ extra, allowed q = true


/-- Row-2 column levels while EXAM is held down and ENABLE/HALT stays in
the halt position: columns 2 and 5 low, every other column high. -/
def row2_exam_held : Fin 12 → Bool := fun col => decide (col ≠ 2 ∧ col ≠ 5)

/-- The session on reaching the EXAM block of a snapshot step. -/
def after_load (sim : Simulator) (s : Session) : Session :=
  load_block sim.running { s with registers_updated := false }

/-- The session on reaching the CONT block of a snapshot step. -/
def after_dep (sim : Simulator) (s : Session) : Session :=
  dep_block sim sim.running (exam_block sim sim.running (after_load sim s))


/-- Two passes, each delivering a snapshot to a halted simulator that would
accept every command, with EXAM held down and ENABLE/HALT low. -/
def exam_held_passes : List IterationInput :=
  [pass_with_row2 (some Registers.sample) row2_exam_held (Simulator.halted_ok 5),
    pass_with_row2 (some Registers.sample) row2_exam_held (Simulator.halted_ok 5)]

/-- Whether a flag that holds `level` and then takes the values `levels` in
order never goes from true to false. -/
def never_falls : Bool → List Bool → Bool
  | _, [] => true
  | level, next :: rest => (!level || next) && never_falls next rest

/-- Whether a flag that holds `level` and then takes the values `levels` in
order never goes from false to true. -/
def never_rises : Bool → List Bool → Bool
  | _, [] => true
  | level, next :: rest => (level || !next) && never_rises next rest

/-- The levels read on column `col` while row 2 is scanned, one per pass. -/
def row2_levels (col : Fin 12) (inputs : List IterationInput) : List Bool :=
  inputs.map (fun inp => inp.col_values 2 col)

/-- Row-2 column levels with only the EXAM column low: EXAM held down, every
other switch at rest, ENABLE/HALT included. -/
def row2_only_exam_low : Fin 12 → Bool := fun col => decide (col ≠ 2)

/-- Row-2 column levels with the LOAD ADDR and EXAM columns low. -/
def row2_load_and_exam_low : Fin 12 → Bool := fun col => decide (col ≠ 1 ∧ col ≠ 2)

/-- Row-2 column levels with the EXAM and DEP columns low. -/
def row2_exam_and_dep_low : Fin 12 → Bool := fun col => decide (col ≠ 2 ∧ col ≠ 3)

/-- Two passes, each delivering a snapshot to a halted simulator that would
accept every command, with EXAM held down and every other switch at rest. -/
def exam_held_at_rest_passes : List IterationInput :=
  [pass_with_row2 (some Registers.sample) row2_only_exam_low (Simulator.halted_ok 5),
    pass_with_row2 (some Registers.sample) row2_only_exam_low (Simulator.halted_ok 5)]

/-- A pass delivering a snapshot to a halted simulator that accepts every
command, with EXAM still held down and LOAD ADDR pressed. -/
def load_pressed_exam_held_pass : IterationInput :=
  pass_with_row2 (some Registers.sample) row2_load_and_exam_low (Simulator.halted_ok 5)

/-- A pass delivering a snapshot to a halted simulator that accepts every
command, with EXAM still held down and DEP pressed. -/
def dep_pressed_exam_held_pass : IterationInput :=
  pass_with_row2 (some Registers.sample) row2_exam_and_dep_low (Simulator.halted_ok 5)

/-! ## Configuration (`configuration.cpp`) -/

/-- The struct `ConfigurationEntry`; strings are lists of characters. -/
structure ConfigurationEntry where
  switch_code : Nat
  directory : List Char
  configuration_file : List Char
  boot_device : List Char
  deriving DecidableEq, Repr

/-- The class `Configuration`. -/
structure Configuration where
  entries : List ConfigurationEntry
  configuration_path : List Char
  initialized : Bool
  deriving DecidableEq, Repr

/-- Constructor `Configuration(configuration_path)`. -/
def Configuration.create (configuration_path : List Char) : Configuration :=
  { entries := [], configuration_path := configuration_path, initialized := false }

/-- The library test `std::isspace` in the C locale: space and the control
characters 9..13. -/
def isspace (c : Char) : Bool := c.toNat = 32 || (9 ≤ c.toNat && c.toNat ≤ 13)

/-- The call `std::getline(stream, field, ',')` on the rest of a line:
fails when nothing is left, otherwise yields the characters before the
first comma and the rest after it. -/
def getline_comma (stream : List Char) : Option (List Char × List Char) :=
  if stream.isEmpty then none
  else
    some (stream.takeWhile (fun c => c != ','),
      (stream.dropWhile (fun c => c != ',')).drop 1)

/-- Value of a run of octal digits, most significant first. -/
def octal_value (digits : List Char) : Nat :=
  digits.foldl (fun acc c => 8 * acc + (c.toNat - 48)) 0

/-- The call `sscanf(text, "%o", &code) != 1` as an optional value: leading
white space is skipped, one sign is accepted, and at least one octal digit
must follow; the value is stored in a `uint32_t` (C leaves the result open
when it does not fit; it is reduced modulo `2^32` here). -/
def scan_octal (text : List Char) : Option Nat :=
  let t := text.dropWhile isspace
  let negative := t.head? = some '-'
  let t1 := if t.head? = some '-' ∨ t.head? = some '+' then t.drop 1 else t
  let digits := t1.takeWhile (fun c => 48 ≤ c.toNat && c.toNat ≤ 55)
  if digits.isEmpty then none
  else
    let v := octal_value digits % 2 ^ 32
    some (if negative then (2 ^ 32 - v) % 2 ^ 32 else v)

/-- The lambda `trim` of `Configuration::init`. -/
def trim (text : List Char) : List Char :=
  ((text.dropWhile isspace).reverse.dropWhile isspace).reverse

/-- The body of the line loop of `Configuration::init`: `none` when the
line is skipped by a `continue`, the entry that is pushed otherwise. -/
def parse_line (line : List Char) : Option ConfigurationEntry :=
  if line.isEmpty ∨ line.head? = some '#' ∨ line.head? = some ';' then none
  else
    match getline_comma line with
    | none => none
    | some (switch_code_str, rest1) =>
      match scan_octal switch_code_str with
      | none => none
      | some switch_code =>
        match getline_comma rest1 with
        | none => none
        | some (directory, rest2) =>
          match getline_comma rest2 with
          | none => none
          | some (configuration_file, rest3) =>
            match getline_comma rest3 with
            | none => none
            | some (boot_device, _) =>
              some { switch_code := switch_code, directory := trim directory,
                     configuration_file := trim configuration_file,
                     boot_device := trim boot_device }

/-- Method `Configuration::init`. The file at `configuration_path` is an
input: `none` when it cannot be opened, its lines otherwise. Returns the
result and the object afterwards. -/
def Configuration.init (file : Option (List (List Char))) (cfg : Configuration) :
    Bool × Configuration :=
  if cfg.initialized then (true, cfg)
  else
    let cfg1 := { cfg with entries := [] }
    match file with
    | none => (false, cfg1)
    | some lines =>
      let cfg2 := { cfg1 with
        entries := lines.foldl
          (fun entries line =>
            match parse_line line with
            | some entry => entries ++ [entry]
            | none => entries)
          cfg1.entries }
      if cfg2.entries.isEmpty then (false, cfg2)
      else (true, { cfg2 with initialized := true })

/-- Method `Configuration::reload`. -/
def Configuration.reload (file : Option (List (List Char))) (cfg : Configuration) :
    Bool × Configuration :=
  Configuration.init file { cfg with initialized := false }

/-- Method `Configuration::find_entry`; `none` is `nullptr`. -/
def Configuration.find_entry (cfg : Configuration) (switch_code : Nat) :
    Option ConfigurationEntry :=
  if !cfg.initialized then none
  else cfg.entries.find? (fun entry => entry.switch_code == switch_code)

/-- A configuration file with the single line `0001,/boot1, sys.ini ,RL0`. -/
def one_entry_file : Option (List (List Char)) :=
  some [("0001,/boot1, sys.ini ,RL0").toList]

/-- A configuration file that holds a comment line and nothing else. -/
def comment_only_file : Option (List (List Char)) :=
  some [("# no entries").toList]

/-- The configuration object after a first `init` on `one_entry_file`. -/
def loaded_configuration : Configuration :=
  (Configuration.init one_entry_file (Configuration.create ("panel.conf").toList)).2

/-! ## Edge detector -/

/-- C4: for every stored value `p` and every input `c`, `rising` returns
`c && !p`, `falling` returns `!c && p`, and after either call the stored
previous value is `c`. -/
theorem edge_rising_falling_contract (p c : Bool) :
    ((Edge.mk p).rising c).1 = (c && !p) ∧
    ((Edge.mk p).falling c).1 = (!c && p) ∧
    ((Edge.mk p).rising c).2.previous = c ∧
    ((Edge.mk p).falling c).2.previous = c := by
  simp [Edge.rising, Edge.falling]

/-- The flags returned by a run of `rising` calls are as many as the inputs. -/
theorem rising_calls_length (e : Edge) (s : List Bool) :
    (e.rising_calls s).length = s.length := by
  induction s generalizing e with
  | nil => rfl
  | cons c cs ih => simp [Edge.rising_calls, ih]

/-- Flag returned by call `i` of a run of `rising` calls, for any starting
detector: the input at `i` and not the input before it, the stored value
standing in for the input before the first. -/
theorem rising_calls_getD (e : Edge) (s : List Bool) (i : Nat) (hi : i < s.length) :
    (e.rising_calls s).getD i false =
      (s.getD i false && !(if i = 0 then e.previous else s.getD (i - 1) false)) := by
  induction s generalizing e i with
  | nil => simp at hi
  | cons c cs ih =>
    cases i with
    | zero => simp [Edge.rising_calls, Edge.rising]
    | succ j =>
      have hj : j < cs.length := by simpa using hi
      simp only [Edge.rising_calls, List.getD_cons_succ, Nat.add_sub_cancel]
      rw [ih _ j hj]
      cases j with
      | zero => simp [Edge.rising]
      | succ k => simp

/-- A list of flags that agrees index by index with a predicate on
`0..n-1` has as many `true` entries as the predicate has solutions. -/
theorem count_true_eq_filter_range (l : List Bool) (f : Nat → Bool)
    (h : ∀ i, i < l.length → l.getD i false = f i) :
    l.count true = ((List.range l.length).filter f).length := by
  have hl : l = (List.range l.length).map f := by
    apply List.ext_getElem
    · simp
    · intro i h1 h2
      have := h i h1
      rw [List.getD_eq_getElem _ _ h1] at this
      simp [this]
  conv_lhs => rw [hl]
  rw [List.count, List.countP_map, List.countP_eq_length_filter]
  congr 1
  apply List.filter_congr
  intro x _
  simp

/-- C5: feeding any finite boolean sequence `s` call by call to `rising` on
a fresh detector, call `i` returns true exactly when `s[i]` is true and
`s[i-1]` is false (with `s[-1] = false`); the number of true results is the
number of false-to-true transitions of `s`; and a call whose input equals
the input of the call before it returns false. -/
theorem edge_rising_fires_once_per_transition (s : List Bool) :
    (∀ i, i < s.length →
      (Edge.fresh.rising_calls s).getD i false =
        (s.getD i false && !preceding_input s i)) ∧
    (Edge.fresh.rising_calls s).count true = transitions_up s ∧
    (∀ i, 0 < i → i < s.length → s.getD i false = s.getD (i - 1) false →
      (Edge.fresh.rising_calls s).getD i false = false) := by
  have key : ∀ i, i < s.length →
      (Edge.fresh.rising_calls s).getD i false =
        (s.getD i false && !preceding_input s i) := by
    intro i hi
    rw [rising_calls_getD _ _ _ hi]
    simp [preceding_input, Edge.fresh]
  refine ⟨key, ?_, ?_⟩
  · have := count_true_eq_filter_range (Edge.fresh.rising_calls s)
      (fun i => s.getD i false && !preceding_input s i)
      (by intro i hi; rw [rising_calls_length] at hi; exact key i hi)
    rw [this, rising_calls_length, transitions_up]
  · intro i h0 hi heq
    rw [key i hi]
    have hne : i ≠ 0 := by omega
    rw [preceding_input, if_neg hne, heq]
    cases s.getD (i - 1) false <;> rfl

/-- C5 at the sequence false, true, true, false, true: the calls return
false, true, false, false, true; two results are true; the sustained true
at index 2 does not fire. -/
theorem edge_rising_fires_once_per_transition_witness :
    (Edge.fresh.rising_calls [false, true, true, false, true]).getD 1 false = true ∧
    (Edge.fresh.rising_calls [false, true, true, false, true]).count true = 2 ∧
    (Edge.fresh.rising_calls [false, true, true, false, true]).getD 2 false = false :=
  ⟨((edge_rising_fires_once_per_transition [false, true, true, false, true]).1 1
      (by decide)).trans (by decide),
    (edge_rising_fires_once_per_transition
      [false, true, true, false, true]).2.1.trans (by decide),
    (edge_rising_fires_once_per_transition [false, true, true, false, true]).2.2 2
      (by decide) (by decide) (by decide)⟩

/-! ## Rotary encoder -/

/-- The step value is always -1, 0 or +1. -/
theorem step_delta_bounds (last_state state : Nat) :
    -1 ≤ step_delta last_state state ∧ step_delta last_state state ≤ 1 := by
  unfold step_delta
  split_ifs <;> constructor <;> decide

/-- A value within the `int8_t` range is stored unchanged. -/
theorem wrap_int8_of_range (x : Int) (h1 : -128 ≤ x) (h2 : x ≤ 127) :
    wrap_int8 x = x := by
  unfold wrap_int8
  omega

/-- The transition table of the step value over the sixteen pairs. -/
theorem step_delta_table : ∀ ls, ls < 4 → ∀ a b : Bool,
    (step_delta ls (quadrature_state a b) = 1 ↔
      (ls, quadrature_state a b) ∈ [(0, 1), (1, 3), (3, 2), (2, 0)]) ∧
    (step_delta ls (quadrature_state a b) = -1 ↔
      (ls, quadrature_state a b) ∈ [(0, 2), (2, 3), (3, 1), (1, 0)]) ∧
    (step_delta ls (quadrature_state a b) = 0 ↔
      (ls, quadrature_state a b) ∈
        [(0, 0), (1, 1), (2, 2), (3, 3), (0, 3), (3, 0), (1, 2), (2, 1)]) := by
  decide

/-- With the accumulator at 0 no threshold is reached and the accumulator
afterwards is the step value. -/
theorem add_delta_from_zero (e : RotaryEncoder) (a b : Bool) :
    ({ e with accumulated_deltas := 0 }.add_delta a b).accumulated_deltas =
      step_delta e.last_state (quadrature_state a b) := by
  obtain ⟨h1, h2⟩ := step_delta_bounds e.last_state (quadrature_state a b)
  have hw := wrap_int8_of_range (step_delta e.last_state (quadrature_state a b))
    (by omega) (by omega)
  have hup : ¬ 4 < step_delta e.last_state (quadrature_state a b) := by omega
  have hdown : ¬ step_delta e.last_state (quadrature_state a b) < -4 := by omega
  simp [RotaryEncoder.add_delta, SENSITIVITY, hw, hup, hdown]

/-- C8: for every previous two-bit state and every input `(a, b)`, with
`state = (a<<1)|b`, the step value is +1 exactly on 00->01, 01->11, 11->10,
10->00, is -1 exactly on 00->10, 10->11, 11->01, 01->00, and is 0 exactly
on the four repeats and the four two-bit jumps; it is what `add_delta` adds
to an accumulator at 0, and `last_state` becomes the new state. -/
theorem add_delta_step_table (e : RotaryEncoder) (a b : Bool)
    (h : e.last_state < 4) :
    quadrature_state a b = 2 * a.toNat + b.toNat ∧
    (step_delta e.last_state (quadrature_state a b) = 1 ↔
      (e.last_state, quadrature_state a b) ∈ [(0, 1), (1, 3), (3, 2), (2, 0)]) ∧
    (step_delta e.last_state (quadrature_state a b) = -1 ↔
      (e.last_state, quadrature_state a b) ∈ [(0, 2), (2, 3), (3, 1), (1, 0)]) ∧
    (step_delta e.last_state (quadrature_state a b) = 0 ↔
      (e.last_state, quadrature_state a b) ∈
        [(0, 0), (1, 1), (2, 2), (3, 3), (0, 3), (3, 0), (1, 2), (2, 1)]) ∧
    ({ e with accumulated_deltas := 0 }.add_delta a b).accumulated_deltas =
      step_delta e.last_state (quadrature_state a b) ∧
    (e.add_delta a b).last_state = quadrature_state a b := by
  refine ⟨by cases a <;> cases b <;> rfl, ?_, ?_, ?_, ?_, rfl⟩
  · exact (step_delta_table e.last_state h a b).1
  · exact (step_delta_table e.last_state h a b).2.1
  · exact (step_delta_table e.last_state h a b).2.2
  · exact add_delta_from_zero e a b

/-- C8 at previous state 01 and input 11: a clockwise step, value +1. -/
theorem add_delta_step_table_witness :
    step_delta 1 (quadrature_state true true) = 1 ∧
    ((RotaryEncoder.mk 8 1 0 0).add_delta true true).last_state = 3 :=
  ⟨(add_delta_step_table (RotaryEncoder.mk 8 1 0 0) true true (by decide)).2.1.mpr
      (by decide),
    (add_delta_step_table (RotaryEncoder.mk 8 1 0 0) true true (by decide)).2.2.2.2.2.trans
      (by decide)⟩

/-- C7: for an encoder with modulus 8 or 4, `position < states` and the
accumulator within -4..4, and any input with step value `delta`: if the sum
exceeds 4 the position becomes `(position + 1) mod states` and the
accumulator 0; if the sum is below -4 the position becomes
`(position - 1) mod states` (0 wraps to `states - 1`) and the accumulator 0;
otherwise the position is unchanged and the accumulator is the sum. -/
theorem add_delta_threshold (e : RotaryEncoder) (a b : Bool)
    (hstates : e.states = 8 ∨ e.states = 4) (hpos : e.position < e.states)
    (hlo : -4 ≤ e.accumulated_deltas) (hhi : e.accumulated_deltas ≤ 4) :
    (e.accumulated_deltas + step_delta e.last_state (quadrature_state a b) > 4 →
      (e.add_delta a b).position = (e.position + 1) % e.states ∧
      (e.add_delta a b).accumulated_deltas = 0) ∧
    (e.accumulated_deltas + step_delta e.last_state (quadrature_state a b) < -4 →
      ((e.add_delta a b).position : Int) = ((e.position : Int) - 1) % e.states ∧
      (e.position = 0 → (e.add_delta a b).position = e.states - 1) ∧
      (e.add_delta a b).accumulated_deltas = 0) ∧
    (¬ e.accumulated_deltas + step_delta e.last_state (quadrature_state a b) > 4 →
      ¬ e.accumulated_deltas + step_delta e.last_state (quadrature_state a b) < -4 →
      (e.add_delta a b).position = e.position ∧
      (e.add_delta a b).accumulated_deltas =
        e.accumulated_deltas + step_delta e.last_state (quadrature_state a b)) := by
  obtain ⟨states, ls, acc, pos⟩ := e
  simp only at hstates hpos hlo hhi ⊢
  obtain ⟨h1, h2⟩ := step_delta_bounds ls (quadrature_state a b)
  simp only [RotaryEncoder.add_delta, SENSITIVITY, wrap_uint8]
  generalize step_delta ls (quadrature_state a b) = d at h1 h2 ⊢
  have hw := wrap_int8_of_range (acc + d) (by omega) (by omega)
  rw [hw]
  have hzero : decide ((0 : Int) < -4) = false := by decide
  refine ⟨?_, ?_, ?_⟩
  · intro hgt
    have hup : decide (acc + d > 4) = true := decide_eq_true hgt
    simp only [hup, hzero, ↓reduceIte, Bool.false_eq_true, and_true]
    rcases hstates with rfl | rfl <;> omega
  · intro hlt
    have hup : decide (acc + d > 4) = false := decide_eq_false (by omega)
    have hdown : decide (acc + d < -4) = true := decide_eq_true hlt
    simp only [hup, hdown, ↓reduceIte, Bool.false_eq_true, and_true]
    rcases hstates with rfl | rfl <;> refine ⟨?_, ?_⟩ <;> omega
  · intro hn1 hn2
    have hup : decide (acc + d > 4) = false := decide_eq_false hn1
    have hdown : decide (acc + d < -4) = false := decide_eq_false hn2
    simp only [hup, hdown, ↓reduceIte, Bool.false_eq_true, and_true]
    exact Nat.mod_eq_of_lt hpos

/-- C7 at modulus 8, position 7, accumulator 4 and a clockwise step
00->01: the position wraps to 0 and the accumulator is reset. -/
theorem add_delta_threshold_witness :
    ((RotaryEncoder.mk 8 0 4 7).add_delta false true).position = 0 ∧
    ((RotaryEncoder.mk 8 0 4 7).add_delta false true).accumulated_deltas = 0 :=
  ((add_delta_threshold (RotaryEncoder.mk 8 0 4 7) false true (Or.inl rfl)
      (by decide) (by decide) (by decide)).1 (by decide)).imp
    (fun h => h.trans (by decide)) id

/-- The two-bit state reached after `n` clockwise quarter-steps. -/
theorem clockwise_state (n : Nat) :
    quadrature_state (clockwise_input n).1 (clockwise_input n).2 =
      if n % 4 = 0 then 1 else if n % 4 = 1 then 3 else if n % 4 = 2 then 2 else 0 := by
  have h : n % 4 < 4 := Nat.mod_lt _ (by decide)
  unfold clockwise_input
  interval_cases n % 4 <;> rfl

/-- The whole encoder state after `n` clockwise quarter-steps from a fresh
encoder of modulus 8 or 4: the accumulator counts modulo 5 and the position
is the number of completed runs of five, modulo the modulus. -/
theorem feed_clockwise_state (states : Nat) (hstates : states = 8 ∨ states = 4)
    (n : Nat) :
    feed_clockwise (RotaryEncoder.fresh states) n =
      { states := states
        last_state :=
          if n % 4 = 0 then 0 else if n % 4 = 1 then 1
          else if n % 4 = 2 then 3 else 2
        accumulated_deltas := ((n % 5 : Nat) : Int)
        position := (n / 5) % states } := by
  induction n with
  | zero => rcases hstates with rfl | rfl <;> rfl
  | succ n ih =>
    rw [feed_clockwise, ih]
    have hst := clockwise_state n
    have h4 : n % 4 < 4 := Nat.mod_lt _ (by decide)
    have h5 : n % 5 < 5 := Nat.mod_lt _ (by decide)
    have hdelta : step_delta
        (if n % 4 = 0 then 0 else if n % 4 = 1 then 1 else if n % 4 = 2 then 3 else 2)
        (quadrature_state (clockwise_input n).1 (clockwise_input n).2) = 1 := by
      rw [hst]
      interval_cases n % 4 <;> rfl
    have hw := wrap_int8_of_range (((n % 5 : Nat) : Int) + 1) (by omega) (by omega)
    have hzero : decide ((0 : Int) < -4) = false := by decide
    have hlast : (if (n + 1) % 4 = 0 then 0 else if (n + 1) % 4 = 1 then 1
          else if (n + 1) % 4 = 2 then 3 else 2) =
        quadrature_state (clockwise_input n).1 (clockwise_input n).2 := by
      rw [hst]
      have : (n + 1) % 4 = (n % 4 + 1) % 4 := by omega
      rw [this]
      interval_cases n % 4 <;> rfl
    simp only [RotaryEncoder.add_delta, hdelta, hw, SENSITIVITY, wrap_uint8, hlast]
    by_cases hc : n % 5 = 4
    · have hup : decide (((n % 5 : Nat) : Int) + 1 > 4) = true :=
        decide_eq_true (by omega)
      simp only [hup, hzero, ↓reduceIte, Bool.false_eq_true]
      have e1 : (n + 1) % 5 = 0 := by omega
      have e2 : (n + 1) / 5 = n / 5 + 1 := by omega
      rw [e1, e2]
      congr 1
      rcases hstates with rfl | rfl <;> omega
    · have hup : decide (((n % 5 : Nat) : Int) + 1 > 4) = false :=
        decide_eq_false (by omega)
      have hdown : decide (((n % 5 : Nat) : Int) + 1 < -4) = false :=
        decide_eq_false (by omega)
      simp only [hup, hdown, ↓reduceIte, Bool.false_eq_true]
      have e1 : (n + 1) % 5 = n % 5 + 1 := by omega
      have e2 : (n + 1) / 5 = n / 5 := by omega
      rw [e1, e2]
      rw [Nat.mod_mod]
      congr 1

/-- C6 fails as stated: after 4 clockwise quarter-steps on a fresh encoder
of modulus 8 the position is still 0, not 1, so "after 4k calls the
position is k mod states" is false at k = 1. -/
theorem four_quarter_steps_do_not_advance :
    (feed_clockwise (RotaryEncoder.fresh 8) (4 * 1)).position = 0 ∧
    ¬ (∀ states, states = 8 ∨ states = 4 → ∀ k,
        (feed_clockwise (RotaryEncoder.fresh states) (4 * k)).position = k % states) := by
  refine ⟨by decide, fun h => ?_⟩
  have := h 8 (Or.inl rfl) 1
  revert this
  decide

/-- C6 as amended: on a fresh encoder of modulus 8 or 4 fed consecutive
clockwise quarter-steps, the position advances by exactly 1 (mod the
modulus) per 5 quarter-steps: after `5 * k` calls the position is
`k mod states` and the accumulator is back at 0. -/
theorem five_quarter_steps_advance_once (states : Nat)
    (hstates : states = 8 ∨ states = 4) (k : Nat) :
    (feed_clockwise (RotaryEncoder.fresh states) (5 * k)).position = k % states ∧
    (feed_clockwise (RotaryEncoder.fresh states) (5 * k)).accumulated_deltas = 0 := by
  rw [feed_clockwise_state states hstates]
  have e1 : 5 * k / 5 = k := by omega
  have e2 : 5 * k % 5 = 0 := by omega
  rw [e1, e2]
  exact ⟨rfl, rfl⟩

/-- C6 as amended, at modulus 4 and k = 5: after 25 clockwise quarter-steps
the position is 5 mod 4 = 1. -/
theorem five_quarter_steps_advance_once_witness :
    (feed_clockwise (RotaryEncoder.fresh 4) (5 * 5)).position = 1 :=
  (five_quarter_steps_advance_once 4 (Or.inr rfl) 5).1.trans (by decide)

/-! ## Switch decoder -/

/-- Bits of the accumulator after one of the two decode loops: a bit is set
when it was set before or some visited column is pressed and maps to it. -/
theorem testBit_decode_loop (f : Nat → Bool) (g : Nat → Nat) (cols : List Nat)
    (init k : Nat) :
    (cols.foldl (fun acc col => if f col then acc ||| (1 <<< g col) else acc)
        init).testBit k = true ↔
      init.testBit k = true ∨ ∃ col ∈ cols, f col = true ∧ g col = k := by
  induction cols generalizing init with
  | nil => simp
  | cons c cs ih =>
    rw [List.foldl_cons, ih]
    by_cases hf : f c = true
    · simp only [hf, if_true, Nat.testBit_lor, Nat.one_shiftLeft, Nat.testBit_two_pow,
        Bool.or_eq_true, decide_eq_true_eq, List.mem_cons, exists_eq_or_imp, true_and]
      tauto
    · simp only [hf, if_false, List.mem_cons, exists_eq_or_imp, false_and, false_or,
        Bool.false_eq_true]

/-- Bits of the decoded switch register in terms of the raw matrix. -/
theorem decode_switch_state_testBit (m : SwitchMatrix) (p : PanelState) (k : Nat) :
    (decode_state_switches m p).switch_state.testBit k = true ↔
      (k < 12 ∧ cell m 0 k = true) ∨ (12 ≤ k ∧ k < 22 ∧ cell m 1 (k - 12) = true) := by
  have h0 := fun init => testBit_decode_loop (fun col => cell m 0 col) (fun col => col)
    (List.range 12) init k
  have h1 := fun init => testBit_decode_loop (fun col => cell m 1 col)
    (fun col => 12 + col) (List.range 10) init k
  simp only [decode_state_switches]
  rw [h1, h0]
  simp only [Nat.zero_testBit, Bool.false_eq_true, false_or, List.mem_range]
  constructor
  · rintro (⟨col, hcol, hc, rfl⟩ | ⟨col, hcol, hc, rfl⟩)
    · exact Or.inl ⟨hcol, hc⟩
    · refine Or.inr ⟨by omega, by omega, ?_⟩
      rw [Nat.add_sub_cancel_left]
      exact hc
  · rintro (⟨hk, hc⟩ | ⟨hk1, hk2, hc⟩)
    · exact Or.inl ⟨k, hk, hc, rfl⟩
    · exact Or.inr ⟨k - 12, by omega, hc, by omega⟩

/-- The decoded switch register fits in 22 bits. -/
theorem decode_switch_state_lt (m : SwitchMatrix) (p : PanelState) :
    (decode_state_switches m p).switch_state < 2 ^ 22 := by
  apply Nat.lt_pow_two_of_testBit
  intro i hi
  cases h : (decode_state_switches m p).switch_state.testBit i with
  | false => rfl
  | true =>
    rw [decode_switch_state_testBit] at h
    omega

/-- C9: for every raw matrix `m` and every prior panel state, after
`decode_state_switches` bit `k` of `switch_state` is `m[0][k]` for
`k` in 0..11 and `m[1][k-12]` for `k` in 12..21, every bit from 22 up is
zero, and the value is the same for any other prior panel state and any
matrix that agrees with `m` on row 0 and on columns 0..9 of row 1. -/
theorem decode_switch_register (m : SwitchMatrix) (p : PanelState) :
    (∀ k : Fin 12, (decode_state_switches m p).switch_state.testBit k = m 0 k) ∧
    (∀ k : Fin 10, (decode_state_switches m p).switch_state.testBit (12 + k) =
      m 1 (Fin.castLE (by decide) k)) ∧
    (∀ k, 22 ≤ k → (decode_state_switches m p).switch_state.testBit k = false) ∧
    (∀ (m2 : SwitchMatrix) (p2 : PanelState),
      (∀ c, m2 0 c = m 0 c) → (∀ c : Fin 12, c.val < 10 → m2 1 c = m 1 c) →
      (decode_state_switches m2 p2).switch_state =
        (decode_state_switches m p).switch_state) := by
  refine ⟨?_, ?_, ?_, ?_⟩
  · intro k
    rw [Bool.eq_iff_iff, decode_switch_state_testBit]
    have hk := k.isLt
    have hc : cell m 0 k = m 0 k := by simp [cell, hk]
    rw [hc]
    constructor
    · rintro (⟨_, h⟩ | ⟨h, _⟩)
      · exact h
      · omega
    · exact fun h => Or.inl ⟨hk, h⟩
  · intro k
    rw [Bool.eq_iff_iff, decode_switch_state_testBit]
    have hk := k.isLt
    have hc : cell m 1 (12 + k - 12) = m 1 (Fin.castLE (by decide) k) := by
      have hlt : (k : Nat) < 12 := by omega
      simp [cell, hlt, Fin.castLE]
    rw [hc]
    constructor
    · rintro (⟨h, _⟩ | ⟨_, _, h⟩)
      · omega
      · exact h
    · exact fun h => Or.inr ⟨by omega, by omega, h⟩
  · intro k hk
    cases h : (decode_state_switches m p).switch_state.testBit k with
    | false => rfl
    | true =>
      rw [decode_switch_state_testBit] at h
      omega
  · intro m2 p2 h0 h1
    apply Nat.eq_of_testBit_eq
    intro k
    rw [Bool.eq_iff_iff, decode_switch_state_testBit, decode_switch_state_testBit]
    have e0 : k < 12 → cell m2 0 k = cell m 0 k := by
      intro hk
      simp [cell, hk, h0]
    have e1 : 12 ≤ k → k < 22 → cell m2 1 (k - 12) = cell m 1 (k - 12) := by
      intro hk1 hk2
      have hlt : k - 12 < 12 := by omega
      simp only [cell, hlt, and_self, Nat.one_lt_ofNat, dite_true]
      exact h1 ⟨k - 12, hlt⟩ (by simp; omega)
    constructor
    · rintro (⟨hk, h⟩ | ⟨hk1, hk2, h⟩)
      · exact Or.inl ⟨hk, (e0 hk) ▸ h⟩
      · exact Or.inr ⟨hk1, hk2, (e1 hk1 hk2) ▸ h⟩
    · rintro (⟨hk, h⟩ | ⟨hk1, hk2, h⟩)
      · exact Or.inl ⟨hk, (e0 hk).symm ▸ h⟩
      · exact Or.inr ⟨hk1, hk2, (e1 hk1 hk2).symm ▸ h⟩

/-- C9 on the all-pressed matrix and the all-released matrix differing
only in row 2: the register is the same, and bit 22 of it is zero. -/
theorem decode_switch_register_witness :
    (decode_state_switches (fun _ _ => true) PanelState.zero).switch_state.testBit 22
      = false ∧
    (decode_state_switches (fun r _ => decide (r ≠ 2)) (PanelState.released 5)).switch_state =
      (decode_state_switches (fun _ _ => true) PanelState.zero).switch_state :=
  ⟨(decode_switch_register (fun _ _ => true) PanelState.zero).2.2.1 22 (by decide),
    (decode_switch_register (fun _ _ => true) PanelState.zero).2.2.2
      (fun r _ => decide (r ≠ 2)) (PanelState.released 5)
      (fun _ => rfl) (fun _ _ => rfl)⟩

/-- Each row-2 control flag is the level read on its column: the scanner
records `!level` and the decoder negates again. -/
theorem decode_flags_eq_levels (col_values : ColumnReadings) (p : PanelState) :
    (decode_state_switches (read_state_switches col_values) p).flag_test
      = col_values 2 0 ∧
    (decode_state_switches (read_state_switches col_values) p).flag_load_addr
      = col_values 2 1 ∧
    (decode_state_switches (read_state_switches col_values) p).flag_exam
      = col_values 2 2 ∧
    (decode_state_switches (read_state_switches col_values) p).flag_dep
      = col_values 2 3 ∧
    (decode_state_switches (read_state_switches col_values) p).flag_cont
      = col_values 2 4 ∧
    (decode_state_switches (read_state_switches col_values) p).flag_enable_halt
      = col_values 2 5 ∧
    (decode_state_switches (read_state_switches col_values) p).flag_sinst_sbus_cycle
      = col_values 2 6 ∧
    (decode_state_switches (read_state_switches col_values) p).flag_start
      = col_values 2 7 := by
  simp [decode_state_switches, read_state_switches, cell]

/-- C10 fails as stated: with row-2 column 0 read low (cell `[2][0]`
recorded as pressed) and every other row-2 column read high,
`decode_state_switches` gives `flag_test = false` and the seven other
control flags true, the opposite of the claimed pattern. -/
theorem pressed_test_switch_decodes_false :
    read_state_switches (readings_with_row2 row2_only_col0_low) 2 0 = true ∧
    (decode_state_switches (read_state_switches (readings_with_row2 row2_only_col0_low))
      PanelState.zero).flag_test = false ∧
    (decode_state_switches (read_state_switches (readings_with_row2 row2_only_col0_low))
      PanelState.zero).flag_load_addr = true ∧
    (decode_state_switches (read_state_switches (readings_with_row2 row2_only_col0_low))
      PanelState.zero).flag_exam = true ∧
    (decode_state_switches (read_state_switches (readings_with_row2 row2_only_col0_low))
      PanelState.zero).flag_dep = true ∧
    (decode_state_switches (read_state_switches (readings_with_row2 row2_only_col0_low))
      PanelState.zero).flag_cont = true ∧
    (decode_state_switches (read_state_switches (readings_with_row2 row2_only_col0_low))
      PanelState.zero).flag_enable_halt = true ∧
    (decode_state_switches (read_state_switches (readings_with_row2 row2_only_col0_low))
      PanelState.zero).flag_sinst_sbus_cycle = true ∧
    (decode_state_switches (read_state_switches (readings_with_row2 row2_only_col0_low))
      PanelState.zero).flag_start = true := by
  decide

/-- C10 as amended: when the row-2 scan reads column 0 low and every other
row-2 column high, whatever rows 0 and 1 read and whatever the prior panel
state, `decode_state_switches` yields `flag_test = false` and the seven
other row-2 control flags true. -/
theorem decode_row2_flags_follow_levels (col_values : ColumnReadings) (p : PanelState)
    (h0 : col_values 2 0 = false)
    (h : ∀ c : Fin 12, c ≠ 0 → col_values 2 c = true) :
    (decode_state_switches (read_state_switches col_values) p).flag_test = false ∧
    (decode_state_switches (read_state_switches col_values) p).flag_load_addr = true ∧
    (decode_state_switches (read_state_switches col_values) p).flag_exam = true ∧
    (decode_state_switches (read_state_switches col_values) p).flag_dep = true ∧
    (decode_state_switches (read_state_switches col_values) p).flag_cont = true ∧
    (decode_state_switches (read_state_switches col_values) p).flag_enable_halt = true ∧
    (decode_state_switches (read_state_switches col_values) p).flag_sinst_sbus_cycle
      = true ∧
    (decode_state_switches (read_state_switches col_values) p).flag_start = true := by
  obtain ⟨e0, e1, e2, e3, e4, e5, e6, e7⟩ := decode_flags_eq_levels col_values p
  rw [e0, e1, e2, e3, e4, e5, e6, e7]
  exact ⟨h0, h 1 (by decide), h 2 (by decide), h 3 (by decide), h 4 (by decide),
    h 5 (by decide), h 6 (by decide), h 7 (by decide)⟩

/-- C10 as amended, at the scan with row-2 column 0 low and every other
line high, decoded into a panel whose flags were all released. -/
theorem decode_row2_flags_follow_levels_witness :
    (decode_state_switches (read_state_switches (readings_with_row2 row2_only_col0_low))
      (PanelState.released 0)).flag_test = false ∧
    (decode_state_switches (read_state_switches (readings_with_row2 row2_only_col0_low))
      (PanelState.released 0)).flag_load_addr = true :=
  ⟨(decode_row2_flags_follow_levels (readings_with_row2 row2_only_col0_low)
      (PanelState.released 0) (by decide) (by decide)).1,
    (decode_row2_flags_follow_levels (readings_with_row2 row2_only_col0_low)
      (PanelState.released 0) (by decide) (by decide)).2.1⟩

/-! ## Frame lemmas for the blocks of the snapshot step -/

/-- The LOAD ADDR block only touches its detector, the console address and latch ownership. -/
@[simp]
theorem load_block_frame (r : Bool) (s : Session) :
    (load_block r s).panel = s.panel ∧
    (load_block r s).reg_pc = s.reg_pc ∧
    (load_block r s).reg_psw = s.reg_psw ∧
    (load_block r s).reg_r = s.reg_r ∧
    (load_block r s).edge_exam = s.edge_exam ∧
    (load_block r s).edge_dep = s.edge_dep ∧
    (load_block r s).edge_cont = s.edge_cont ∧
    (load_block r s).edge_enable_halt = s.edge_enable_halt ∧
    (load_block r s).edge_start = s.edge_start ∧
    (load_block r s).data_latched = s.data_latched ∧
    (load_block r s).requests = s.requests := by
  unfold load_block
  dsimp only
  repeat' (first | rfl | constructor | split)

/-- The EXAM block only touches its detector, the console address, the data latch and the request log. -/
@[simp]
theorem exam_block_frame (sim : Simulator) (r : Bool) (s : Session) :
    (exam_block sim r s).panel = s.panel ∧
    (exam_block sim r s).reg_pc = s.reg_pc ∧
    (exam_block sim r s).reg_psw = s.reg_psw ∧
    (exam_block sim r s).reg_r = s.reg_r ∧
    (exam_block sim r s).edge_load = s.edge_load ∧
    (exam_block sim r s).edge_dep = s.edge_dep ∧
    (exam_block sim r s).edge_cont = s.edge_cont ∧
    (exam_block sim r s).edge_enable_halt = s.edge_enable_halt ∧
    (exam_block sim r s).edge_start = s.edge_start := by
  unfold exam_block
  dsimp only
  repeat' (first | rfl | constructor | split)

/-- The DEP block only touches its detector, the console address, the data latch and the request log. -/
@[simp]
theorem dep_block_frame (sim : Simulator) (r : Bool) (s : Session) :
    (dep_block sim r s).panel = s.panel ∧
    (dep_block sim r s).reg_pc = s.reg_pc ∧
    (dep_block sim r s).reg_psw = s.reg_psw ∧
    (dep_block sim r s).reg_r = s.reg_r ∧
    (dep_block sim r s).edge_load = s.edge_load ∧
    (dep_block sim r s).edge_exam = s.edge_exam ∧
    (dep_block sim r s).edge_cont = s.edge_cont ∧
    (dep_block sim r s).edge_enable_halt = s.edge_enable_halt ∧
    (dep_block sim r s).edge_start = s.edge_start := by
  unfold dep_block
  dsimp only
  repeat' (first | rfl | constructor | split)

/-- The CONT block only touches its detector and the request log. -/
@[simp]
theorem cont_block_frame (s : Session) :
    (cont_block s).panel = s.panel ∧
    (cont_block s).reg_pc = s.reg_pc ∧
    (cont_block s).reg_psw = s.reg_psw ∧
    (cont_block s).reg_r = s.reg_r ∧
    (cont_block s).edge_load = s.edge_load ∧
    (cont_block s).edge_exam = s.edge_exam ∧
    (cont_block s).edge_dep = s.edge_dep ∧
    (cont_block s).edge_enable_halt = s.edge_enable_halt ∧
    (cont_block s).edge_start = s.edge_start ∧
    (cont_block s).console_address = s.console_address ∧
    (cont_block s).data_latched = s.data_latched ∧
    (cont_block s).use_data_latched = s.use_data_latched := by
  unfold cont_block
  dsimp only
  repeat' (first | rfl | constructor | split)

/-- The ENABLE/HALT block only touches its detector, latch ownership and the request log. -/
@[simp]
theorem enable_halt_block_frame (r : Bool) (s : Session) :
    (enable_halt_block r s).panel = s.panel ∧
    (enable_halt_block r s).reg_pc = s.reg_pc ∧
    (enable_halt_block r s).reg_psw = s.reg_psw ∧
    (enable_halt_block r s).reg_r = s.reg_r ∧
    (enable_halt_block r s).edge_load = s.edge_load ∧
    (enable_halt_block r s).edge_exam = s.edge_exam ∧
    (enable_halt_block r s).edge_dep = s.edge_dep ∧
    (enable_halt_block r s).edge_cont = s.edge_cont ∧
    (enable_halt_block r s).edge_start = s.edge_start ∧
    (enable_halt_block r s).console_address = s.console_address ∧
    (enable_halt_block r s).data_latched = s.data_latched := by
  unfold enable_halt_block
  dsimp only
  repeat' (first | rfl | constructor | split)

/-- The START block only touches its detector, the PC copy and the request log. -/
@[simp]
theorem start_block_frame (sim : Simulator) (pc : Nat) (s : Session) :
    (start_block sim pc s).2.panel = s.panel ∧
    (start_block sim pc s).2.reg_psw = s.reg_psw ∧
    (start_block sim pc s).2.reg_r = s.reg_r ∧
    (start_block sim pc s).2.edge_load = s.edge_load ∧
    (start_block sim pc s).2.edge_exam = s.edge_exam ∧
    (start_block sim pc s).2.edge_dep = s.edge_dep ∧
    (start_block sim pc s).2.edge_cont = s.edge_cont ∧
    (start_block sim pc s).2.edge_enable_halt = s.edge_enable_halt ∧
    (start_block sim pc s).2.console_address = s.console_address ∧
    (start_block sim pc s).2.data_latched = s.data_latched ∧
    (start_block sim pc s).2.use_data_latched = s.use_data_latched := by
  unfold start_block
  dsimp only
  repeat' (first | rfl | constructor | split)

/-- The display updates only touch the panel. -/
@[simp]
theorem display_block_frame (r : Bool) (pc : Nat) (s : Session) :
    (display_block r pc s).1.reg_pc = s.reg_pc ∧
    (display_block r pc s).1.reg_psw = s.reg_psw ∧
    (display_block r pc s).1.reg_r = s.reg_r ∧
    (display_block r pc s).1.edge_load = s.edge_load ∧
    (display_block r pc s).1.edge_exam = s.edge_exam ∧
    (display_block r pc s).1.edge_dep = s.edge_dep ∧
    (display_block r pc s).1.edge_cont = s.edge_cont ∧
    (display_block r pc s).1.edge_enable_halt = s.edge_enable_halt ∧
    (display_block r pc s).1.edge_start = s.edge_start ∧
    (display_block r pc s).1.console_address = s.console_address ∧
    (display_block r pc s).1.data_latched = s.data_latched ∧
    (display_block r pc s).1.use_data_latched = s.use_data_latched ∧
    (display_block r pc s).1.requests = s.requests := by
  unfold display_block
  dsimp only
  repeat' (first | rfl | constructor)

/-- While the simulator runs, the LOAD ADDR, EXAM and DEP blocks do nothing
at all: their detectors are not even called. -/
theorem halted_only_blocks_skip (sim : Simulator) (s : Session) :
    load_block true s = s ∧ exam_block sim true s = s ∧ dep_block sim true s = s :=
  ⟨rfl, rfl, rfl⟩

/-- Effect of the LOAD ADDR block on a falling edge while halted. -/
theorem load_block_on_edge (s : Session)
    (hprev : s.edge_load.previous = true) (hflag : s.panel.flag_load_addr = false) :
    (load_block false s).console_address = s.panel.switch_state &&& MASK22 ∧
    (load_block false s).use_data_latched = false := by
  simp [load_block, Edge.falling, hprev, hflag]

/-- Without a falling edge the EXAM block leaves the console variables and
the request log alone. -/
theorem exam_block_no_edge (sim : Simulator) (r : Bool) (s : Session)
    (h : s.edge_exam.previous = s.panel.flag_exam) :
    (exam_block sim r s).console_address = s.console_address ∧
    (exam_block sim r s).data_latched = s.data_latched ∧
    (exam_block sim r s).use_data_latched = s.use_data_latched ∧
    (exam_block sim r s).requests = s.requests := by
  cases r <;> simp [exam_block, Edge.falling, h]

/-- Without a falling edge the DEP block leaves the console variables and
the request log alone. -/
theorem dep_block_no_edge (sim : Simulator) (r : Bool) (s : Session)
    (h : s.edge_dep.previous = s.panel.flag_dep) :
    (dep_block sim r s).console_address = s.console_address ∧
    (dep_block sim r s).data_latched = s.data_latched ∧
    (dep_block sim r s).use_data_latched = s.use_data_latched ∧
    (dep_block sim r s).requests = s.requests := by
  cases r <;> simp [dep_block, Edge.falling, h]

/-- The ENABLE/HALT block never sets latch ownership, and leaves it alone
while the simulator runs. -/
theorem enable_halt_block_latch (r : Bool) (s : Session) :
    (s.use_data_latched = false → (enable_halt_block r s).use_data_latched = false) ∧
    (r = true → (enable_halt_block r s).use_data_latched = s.use_data_latched) := by
  constructor
  · intro h
    unfold enable_halt_block
    dsimp only
    repeat' (first | rfl | exact h | split)
  · intro h
    subst h
    simp only [enable_halt_block, if_true]
    split <;> rfl

/-! ## Console actions of the snapshot step -/

/-- The 22-bit mask as a power of two. -/
theorem MASK22_eq : MASK22 = 2 ^ 22 - 1 := by decide

/-- Masking with `MASK22` is reduction modulo `2^22`. -/
theorem and_MASK22 (x : Nat) : x &&& MASK22 = x % 2 ^ 22 := by
  rw [MASK22_eq, Nat.and_pow_two_sub_one_eq_mod]

/-- Function `pc_inc` is the successor modulo `2^22`, for every argument. -/
theorem pc_inc_eq (c : Nat) : pc_inc c = (c + 1) % 2 ^ 22 := by
  rw [pc_inc, and_MASK22, wrap_uint32]
  exact Nat.mod_mod_of_dvd _ (by decide)

/-- A detector whose stored value equals the current flag reports no
falling edge. -/
theorem falling_of_no_edge (e : Edge) (c : Bool) (h : e.previous = c) :
    (e.falling c).1 = false := by
  simp [Edge.falling, h]

/-- A detector whose stored value equals the current flag reports no
rising edge. -/
theorem rising_of_no_edge (e : Edge) (c : Bool) (h : e.previous = c) :
    (e.rising c).1 = false := by
  simp [Edge.rising, h]

/-- C1: in a snapshot step with the simulator halted, a falling edge on
EXAM and no edge on LOAD ADDR, DEP, CONT, ENABLE/HALT or START, one examine
of `console_address` is requested; if it succeeds with word `v` then
afterwards `data_latched = v`, `use_data_latched = true` and
`console_address` is the old value plus one modulo `2^22`; if it fails,
`console_address`, `data_latched` and `use_data_latched` are unchanged. -/
theorem examine_step (sim : Simulator) (s : Session)
    (hhalt : sim.running = false)
    (hprev : s.edge_exam.previous = true) (hflag : s.panel.flag_exam = false)
    (hload : s.edge_load.previous = s.panel.flag_load_addr)
    (hdep : s.edge_dep.previous = s.panel.flag_dep)
    (hcont : s.edge_cont.previous = s.panel.flag_cont)
    (henable : s.edge_enable_halt.previous = s.panel.flag_enable_halt)
    (hstart : s.edge_start.previous = s.panel.flag_start) :
    (process_snapshot sim s).1.requests =
      s.requests ++ [SimRequest.mem_examine s.console_address] ∧
    (∀ v, sim.mem_examine s.console_address = some v →
      (process_snapshot sim s).1.data_latched = v ∧
      (process_snapshot sim s).1.use_data_latched = true ∧
      (process_snapshot sim s).1.console_address = (s.console_address + 1) % 2 ^ 22) ∧
    (sim.mem_examine s.console_address = none →
      (process_snapshot sim s).1.console_address = s.console_address ∧
      (process_snapshot sim s).1.data_latched = s.data_latched ∧
      (process_snapshot sim s).1.use_data_latched = s.use_data_latched) := by
  have e1 := falling_of_no_edge _ _ hload
  have e2 := falling_of_no_edge _ _ hdep
  have e3 := falling_of_no_edge _ _ hcont
  have e4 := rising_of_no_edge _ _ henable
  have e5 := falling_of_no_edge _ _ hstart
  have e6 : (s.edge_exam.falling s.panel.flag_exam).1 = true := by
    simp [Edge.falling, hprev, hflag]
  refine ⟨?_, ?_, ?_⟩
  · cases hm : sim.mem_examine s.console_address <;>
      simp [process_snapshot, display_block, start_block, enable_halt_block, cont_block,
        dep_block, exam_block, load_block, hhalt, e1, e2, e3, e4, e5, e6, hm]
  · intro v hm
    simp [process_snapshot, display_block, start_block, enable_halt_block, cont_block,
      dep_block, exam_block, load_block, hhalt, e1, e2, e3, e4, e5, e6, hm, pc_inc_eq]
  · intro hm
    simp [process_snapshot, display_block, start_block, enable_halt_block, cont_block,
      dep_block, exam_block, load_block, hhalt, e1, e2, e3, e4, e5, e6, hm]

/-- C1 at console address 0100 (octal): a successful examine returning
01234 (octal) latches it and advances the address to 0101; a failed examine
changes nothing. -/
theorem examine_step_witness :
    ((process_snapshot (Simulator.halted_ok 668) exam_pressed_session).1.data_latched = 668 ∧
      (process_snapshot (Simulator.halted_ok 668) exam_pressed_session).1.use_data_latched
        = true ∧
      (process_snapshot (Simulator.halted_ok 668) exam_pressed_session).1.console_address
        = 65) ∧
    (process_snapshot Simulator.halted_failing exam_pressed_session).1.console_address = 64 :=
  ⟨((examine_step (Simulator.halted_ok 668) exam_pressed_session rfl rfl rfl rfl rfl rfl
      rfl rfl).2.1 668 rfl).imp id (fun h => h.imp id (fun h2 => h2.trans (by decide))),
    ((examine_step Simulator.halted_failing exam_pressed_session rfl rfl rfl rfl rfl rfl
      rfl rfl).2.2 rfl).1.trans (by decide)⟩

/-- Masking with `0xFFFF` is reduction modulo `2^16`. -/
theorem and_65535 (x : Nat) : x &&& 65535 = x % 2 ^ 16 :=
  Nat.and_pow_two_sub_one_eq_mod x 16

/-- C2: in a snapshot step with the simulator halted, a falling edge on DEP
and no edge on LOAD ADDR, EXAM, CONT, ENABLE/HALT or START, one deposit of
the low 16 bits of `switch_state` at `console_address` is requested; if it
succeeds then afterwards `data_latched = switch_state mod 2^16`,
`use_data_latched = true` and `console_address` is the old value plus one
modulo `2^22`; if it fails the three are unchanged. -/
theorem deposit_step (sim : Simulator) (s : Session)
    (hhalt : sim.running = false)
    (hprev : s.edge_dep.previous = true) (hflag : s.panel.flag_dep = false)
    (hload : s.edge_load.previous = s.panel.flag_load_addr)
    (hexam : s.edge_exam.previous = s.panel.flag_exam)
    (hcont : s.edge_cont.previous = s.panel.flag_cont)
    (henable : s.edge_enable_halt.previous = s.panel.flag_enable_halt)
    (hstart : s.edge_start.previous = s.panel.flag_start) :
    (process_snapshot sim s).1.requests =
      s.requests ++
        [SimRequest.mem_deposit s.console_address (s.panel.switch_state % 2 ^ 16)] ∧
    (sim.mem_deposit s.console_address (s.panel.switch_state % 2 ^ 16) = true →
      (process_snapshot sim s).1.data_latched = s.panel.switch_state % 2 ^ 16 ∧
      (process_snapshot sim s).1.use_data_latched = true ∧
      (process_snapshot sim s).1.console_address = (s.console_address + 1) % 2 ^ 22) ∧
    (sim.mem_deposit s.console_address (s.panel.switch_state % 2 ^ 16) = false →
      (process_snapshot sim s).1.console_address = s.console_address ∧
      (process_snapshot sim s).1.data_latched = s.data_latched ∧
      (process_snapshot sim s).1.use_data_latched = s.use_data_latched) := by
  have e1 := falling_of_no_edge _ _ hload
  have e2 := falling_of_no_edge _ _ hexam
  have e3 := falling_of_no_edge _ _ hcont
  have e4 := rising_of_no_edge _ _ henable
  have e5 := falling_of_no_edge _ _ hstart
  have e6 : (s.edge_dep.falling s.panel.flag_dep).1 = true := by
    simp [Edge.falling, hprev, hflag]
  have h16 : (2 : Nat) ^ 16 = 65536 := by norm_num
  rw [h16]
  refine ⟨?_, ?_, ?_⟩
  · cases hm : sim.mem_deposit s.console_address (s.panel.switch_state % 65536) <;>
      simp [process_snapshot, display_block, start_block, enable_halt_block, cont_block,
        dep_block, exam_block, load_block, hhalt, e1, e2, e3, e4, e5, e6, hm, and_65535]
  · intro hm
    simp [process_snapshot, display_block, start_block, enable_halt_block, cont_block,
      dep_block, exam_block, load_block, hhalt, e1, e2, e3, e4, e5, e6, hm, and_65535,
      pc_inc_eq]
  · intro hm
    simp [process_snapshot, display_block, start_block, enable_halt_block, cont_block,
      dep_block, exam_block, load_block, hhalt, e1, e2, e3, e4, e5, e6, hm, and_65535]

/-- C2 at console address 0100 (octal) and switch register 0x2ABCD: the
deposit request carries 0xABCD; on success 0xABCD is latched and the
address becomes 0101; on failure the address stays. -/
theorem deposit_step_witness :
    (process_snapshot (Simulator.halted_ok 0) dep_pressed_session).1.requests =
      [SimRequest.mem_deposit 64 43981] ∧
    ((process_snapshot (Simulator.halted_ok 0) dep_pressed_session).1.data_latched = 43981 ∧
      (process_snapshot (Simulator.halted_ok 0) dep_pressed_session).1.use_data_latched
        = true ∧
      (process_snapshot (Simulator.halted_ok 0) dep_pressed_session).1.console_address
        = 65) ∧
    (process_snapshot Simulator.halted_failing dep_pressed_session).1.console_address = 64 :=
  ⟨(deposit_step (Simulator.halted_ok 0) dep_pressed_session rfl rfl rfl rfl rfl rfl
      rfl rfl).1.trans (by decide),
    ((deposit_step (Simulator.halted_ok 0) dep_pressed_session rfl rfl rfl rfl rfl rfl
      rfl rfl).2.1 rfl).imp (fun h => h.trans (by decide))
      (fun h => h.imp id (fun h2 => h2.trans (by decide))),
    ((deposit_step Simulator.halted_failing dep_pressed_session rfl rfl rfl rfl rfl rfl
      rfl rfl).2.2 rfl).1.trans (by decide)⟩

/-- C3: in a snapshot step with the simulator halted, a falling edge on
LOAD ADDR and no edge on EXAM or DEP, afterwards `console_address` is the
switch register masked to 22 bits (the switch register itself when it fits
in 22 bits), `use_data_latched` is false and `data_latched` is unchanged;
in a step with the simulator running, `console_address` and
`use_data_latched` are unchanged whatever the switches do. -/
theorem load_address_step (sim : Simulator) (s : Session) :
    (sim.running = false →
      s.edge_load.previous = true → s.panel.flag_load_addr = false →
      s.edge_exam.previous = s.panel.flag_exam →
      s.edge_dep.previous = s.panel.flag_dep →
      (process_snapshot sim s).1.console_address = s.panel.switch_state % 2 ^ 22 ∧
      (s.panel.switch_state < 2 ^ 22 →
        (process_snapshot sim s).1.console_address = s.panel.switch_state) ∧
      (process_snapshot sim s).1.use_data_latched = false ∧
      (process_snapshot sim s).1.data_latched = s.data_latched) ∧
    (sim.running = true →
      (process_snapshot sim s).1.console_address = s.console_address ∧
      (process_snapshot sim s).1.use_data_latched = s.use_data_latched) := by
  constructor
  · intro hhalt hprev hflag hexam hdep
    obtain ⟨l1, l2⟩ := load_block_on_edge { s with registers_updated := false } hprev hflag
    have hx := exam_block_no_edge sim false
      (load_block false { s with registers_updated := false }) (by simpa using hexam)
    have hd := dep_block_no_edge sim false
      (exam_block sim false (load_block false { s with registers_updated := false }))
      (by simpa using hdep)
    have hc : (process_snapshot sim s).1.console_address = s.panel.switch_state % 2 ^ 22 := by
      simp only [process_snapshot, hhalt, display_block_frame, start_block_frame,
        enable_halt_block_frame, cont_block_frame]
      rw [hd.1, hx.1, l1, and_MASK22]
    refine ⟨hc, fun hlt => hc.trans (Nat.mod_eq_of_lt hlt), ?_, ?_⟩
    · simp only [process_snapshot, hhalt, display_block_frame, start_block_frame]
      apply (enable_halt_block_latch _ _).1
      simp only [cont_block_frame]
      rw [hd.2.2.1, hx.2.2.1, l2]
    · simp only [process_snapshot, hhalt, display_block_frame, start_block_frame,
        enable_halt_block_frame, cont_block_frame]
      rw [hd.2.1, hx.2.1]
      simp only [load_block_frame]
  · intro hrun
    obtain ⟨k1, k2, k3⟩ := halted_only_blocks_skip sim { s with registers_updated := false }
    constructor
    · simp only [process_snapshot, hrun, display_block_frame, start_block_frame,
        enable_halt_block_frame, cont_block_frame, k1, k2, k3]
    · simp only [process_snapshot, hrun, display_block_frame, start_block_frame, k1, k2, k3]
      rw [(enable_halt_block_latch true _).2 rfl]
      simp only [cont_block_frame]

/-- C3 at a halted session owning the data latch, switch register 01234
(octal): the console address becomes 01234, latch ownership is dropped and
the latched word stays; with the simulator running nothing moves. -/
theorem load_address_step_witness :
    ((process_snapshot (Simulator.halted_ok 0) load_pressed_session).1.console_address
        = 668 ∧
      (process_snapshot (Simulator.halted_ok 0) load_pressed_session).1.use_data_latched
        = false ∧
      (process_snapshot (Simulator.halted_ok 0) load_pressed_session).1.data_latched = 7) ∧
    ((process_snapshot Simulator.running_ok load_pressed_session).1.console_address = 64 ∧
      (process_snapshot Simulator.running_ok load_pressed_session).1.use_data_latched
        = true) :=
  ⟨⟨((load_address_step (Simulator.halted_ok 0) load_pressed_session).1
        rfl rfl rfl rfl rfl).2.1 (by decide),
      ((load_address_step (Simulator.halted_ok 0) load_pressed_session).1
        rfl rfl rfl rfl rfl).2.2.1,
      ((load_address_step (Simulator.halted_ok 0) load_pressed_session).1
        rfl rfl rfl rfl rfl).2.2.2.trans (by decide)⟩,
    ((load_address_step Simulator.running_ok load_pressed_session).2 rfl).imp
      (fun h => h.trans (by decide)) (fun h => h.trans (by decide))⟩

/-! ## LED encoder -/

/-- Cell of a grid after a run of writes `leds[row][col] = f col` over a
list of columns. -/
theorem foldl_set_led_apply (row : Nat) (f : Nat → Bool) (cols : List Nat)
    (init : LedGrid) (r : Fin 6) (c : Fin 12) :
    (cols.foldl (fun leds col => set_led leds row col (f col)) init) r c =
      if r.val = row ∧ c.val ∈ cols then f c.val else init r c := by
  induction cols generalizing init with
  | nil => simp
  | cons col cols ih =>
    rw [List.foldl_cons, ih]
    by_cases hr : r.val = row
    · by_cases hmem : c.val ∈ cols
      · simp [hr, hmem]
      · by_cases hc : c.val = col
        · simp [hr, hmem, hc, set_led]
        · simp [hr, hmem, hc, set_led]
    · simp [hr, set_led]

/-- The clearing loops leave every cell of the grid dark. -/
theorem clear_loops_apply (rows : List Nat) (init : LedGrid) (r : Fin 6) (c : Fin 12) :
    (rows.foldl
      (fun leds led_row =>
        (List.range 12).foldl (fun leds col => set_led leds led_row col false) leds)
      init) r c = if r.val ∈ rows then false else init r c := by
  induction rows generalizing init with
  | nil => simp
  | cons row rows ih =>
    rw [List.foldl_cons, ih, foldl_set_led_apply]
    have hc : c.val ∈ List.range 12 := List.mem_range.mpr c.isLt
    by_cases hmem : r.val ∈ rows
    · simp [hmem]
    · by_cases hr : r.val = row
      · simp [hmem, hr, hc]
      · simp [hmem, hr]

/-- A conditional write, read back at a cell. -/
theorem ite_set_led_apply (cond : Prop) [Decidable cond] (leds : LedGrid)
    (row col : Nat) (r : Fin 6) (c : Fin 12) :
    (if cond then set_led leds row col true else leds) r c =
      if cond ∧ r.val = row ∧ c.val = col then true else leds r c := by
  by_cases h : cond <;> simp [h, set_led]

/-- An unconditional write, read back at a cell. -/
theorem set_led_apply (leds : LedGrid) (row col : Nat) (value : Bool)
    (r : Fin 6) (c : Fin 12) :
    set_led leds row col value r c =
      if r.val = row ∧ c.val = col then value else leds r c := rfl

/-- The twelve rotary indicator cells of the encoded grid: each is lit
exactly when its encoder is at the position the cell stands for. -/
theorem encode_rotary_cells (p : PanelState) (leds : LedGrid)
    (buf : Option (Fin 22 → Int)) :
    (encode_state_lights p leds buf 4 6 = decide (p.r1_position = 0) ∧
      encode_state_lights p leds buf 4 7 = decide (p.r1_position = 1) ∧
      encode_state_lights p leds buf 4 8 = decide (p.r1_position = 2) ∧
      encode_state_lights p leds buf 4 9 = decide (p.r1_position = 3) ∧
      encode_state_lights p leds buf 5 6 = decide (p.r1_position = 4) ∧
      encode_state_lights p leds buf 5 7 = decide (p.r1_position = 5) ∧
      encode_state_lights p leds buf 5 8 = decide (p.r1_position = 6) ∧
      encode_state_lights p leds buf 5 9 = decide (p.r1_position = 7)) ∧
    (encode_state_lights p leds buf 4 10 = decide (p.r2_position = 0) ∧
      encode_state_lights p leds buf 4 11 = decide (p.r2_position = 1) ∧
      encode_state_lights p leds buf 5 10 = decide (p.r2_position = 2) ∧
      encode_state_lights p leds buf 5 11 = decide (p.r2_position = 3)) := by
  have r4 : ((4 : Fin 6) : Nat) = 4 := rfl
  have r5 : ((5 : Fin 6) : Nat) = 5 := rfl
  have c6 : ((6 : Fin 12) : Nat) = 6 := rfl
  have c7 : ((7 : Fin 12) : Nat) = 7 := rfl
  have c8 : ((8 : Fin 12) : Nat) = 8 := rfl
  have c9 : ((9 : Fin 12) : Nat) = 9 := rfl
  have c10 : ((10 : Fin 12) : Nat) = 10 := rfl
  have c11 : ((11 : Fin 12) : Nat) = 11 := rfl
  simp only [encode_state_lights, ite_set_led_apply, set_led_apply,
    foldl_set_led_apply, clear_loops_apply, List.mem_range, r4, r5, c6, c7, c8, c9,
    c10, c11]
  refine ⟨⟨?_, ?_, ?_, ?_, ?_, ?_, ?_, ?_⟩, ?_, ?_, ?_, ?_⟩ <;> simp

/-- The indicator cell of R1 position `q` is lit exactly at that position. -/
theorem r1_cell_lit (p : PanelState) (leds : LedGrid) (buf : Option (Fin 22 → Int))
    (q : Nat) (hq : q < 8) :
    led (encode_state_lights p leds buf) (r1_cell q).1 (r1_cell q).2 =
      decide (p.r1_position = q) := by
  obtain ⟨⟨h0, h1, h2, h3, h4, h5, h6, h7⟩, _⟩ := encode_rotary_cells p leds buf
  interval_cases q
  · exact h0
  · exact h1
  · exact h2
  · exact h3
  · exact h4
  · exact h5
  · exact h6
  · exact h7

/-- The indicator cell of R2 position `q` is lit exactly at that position. -/
theorem r2_cell_lit (p : PanelState) (leds : LedGrid) (buf : Option (Fin 22 → Int))
    (q : Nat) (hq : q < 4) :
    led (encode_state_lights p leds buf) (r2_cell q).1 (r2_cell q).2 =
      decide (p.r2_position = q) := by
  obtain ⟨_, h0, h1, h2, h3⟩ := encode_rotary_cells p leds buf
  interval_cases q
  · exact h0
  · exact h1
  · exact h2
  · exact h3

/-- Among the first `n` positions exactly one equals a given position below
`n`. -/
theorem one_position_matches (n pos : Nat) (h : pos < n) :
    ((List.range n).filter (fun q => decide (pos = q))).length = 1 := by
  have : (List.range n).filter (fun q => decide (pos = q)) = [pos] := by
    induction n with
    | zero => omega
    | succ m ih =>
      rw [List.range_succ, List.filter_append]
      by_cases hm : pos = m
      · subst hm
        have hnone : (List.range pos).filter (fun q => decide (pos = q)) = [] := by
          rw [List.filter_eq_nil_iff]
          intro a ha
          have := List.mem_range.mp ha
          simp
          omega
        simp [hnone]
      · have hlt : pos < m := by omega
        simp [ih hlt, hm]
  rw [this]
  rfl

/-- C12: for every panel state with `r1_position` in 0..7, of the eight
cells `leds[4][6..9]`, `leds[5][6..9]` exactly one is lit, the one at row 4
column `6 + p` for `p` in 0..3 and row 5 column `2 + p` for `p` in 4..7;
for `r2_position` in 0..3, of the four cells `leds[4][10..11]`,
`leds[5][10..11]` exactly one is lit, at row 4 column `10 + q` for `q` in
0..1 and row 5 column `8 + q` for `q` in 2..3. -/
theorem rotary_indicators_one_hot (p : PanelState) (leds : LedGrid)
    (buf : Option (Fin 22 → Int)) :
    (p.r1_position < 8 →
      (∀ q, q < 8 →
        (led (encode_state_lights p leds buf) (r1_cell q).1 (r1_cell q).2 = true ↔
          q = p.r1_position)) ∧
      ((List.range 8).filter (fun q =>
        led (encode_state_lights p leds buf) (r1_cell q).1 (r1_cell q).2)).length = 1) ∧
    (p.r2_position < 4 →
      (∀ q, q < 4 →
        (led (encode_state_lights p leds buf) (r2_cell q).1 (r2_cell q).2 = true ↔
          q = p.r2_position)) ∧
      ((List.range 4).filter (fun q =>
        led (encode_state_lights p leds buf) (r2_cell q).1 (r2_cell q).2)).length = 1) := by
  constructor
  · intro h
    constructor
    · intro q hq
      rw [r1_cell_lit p leds buf q hq, decide_eq_true_eq]
      exact eq_comm
    · rw [← one_position_matches 8 p.r1_position h]
      congr 1
      apply List.filter_congr
      intro q hq
      exact r1_cell_lit p leds buf q (List.mem_range.mp hq)
  · intro h
    constructor
    · intro q hq
      rw [r2_cell_lit p leds buf q hq, decide_eq_true_eq]
      exact eq_comm
    · rw [← one_position_matches 4 p.r2_position h]
      congr 1
      apply List.filter_congr
      intro q hq
      exact r2_cell_lit p leds buf q (List.mem_range.mp hq)

/-- C12 at R1 position 5 and R2 position 2, encoded over a grid that had
every LED lit: the R1 indicator is `leds[5][7]`, the R2 indicator is
`leds[5][10]`, and `leds[4][6]` is dark. -/
theorem rotary_indicators_one_hot_witness :
    (led (encode_state_lights { PanelState.zero with r1_position := 5, r2_position := 2 }
        all_lit none) 5 7 = true ∧
      led (encode_state_lights { PanelState.zero with r1_position := 5, r2_position := 2 }
        all_lit none) 4 6 = false) ∧
    led (encode_state_lights { PanelState.zero with r1_position := 5, r2_position := 2 }
      all_lit none) 5 10 = true :=
  ⟨⟨(((rotary_indicators_one_hot
        { PanelState.zero with r1_position := 5, r2_position := 2 } all_lit none).1
        (by decide)).1 5 (by decide)).mpr rfl,
      Bool.eq_false_iff.mpr (fun hlit =>
        absurd ((((rotary_indicators_one_hot
          { PanelState.zero with r1_position := 5, r2_position := 2 } all_lit none).1
          (by decide)).1 0 (by decide)).mp hlit) (by decide))⟩,
    (((rotary_indicators_one_hot
      { PanelState.zero with r1_position := 5, r2_position := 2 } all_lit none).2
      (by decide)).1 2 (by decide)).mpr rfl⟩

/-! ## Status derived from the register snapshot -/

/-- The mode field `(reg_psw >> 14) & 0x3` as arithmetic. -/
theorem psw_mode_eq (psw : Nat) : (psw >>> 14) &&& 3 = psw / 2 ^ 14 % 4 := by
  rw [Nat.shiftRight_eq_div_pow]
  exact Nat.and_pow_two_sub_one_eq_mod _ 2

/-- C14: `compute_ksu_from_psw` sets the three mode flags from the PSW
alone, whatever they were before: all false for PSW = 0; otherwise, with
`mode` the bits 14-15 of PSW, kernel exactly for mode 0, super exactly for
mode 1, user exactly for mode 3 (so all false for mode 2). No two of the
flags are ever true together, and PSW = 0xC000 gives user only. -/
theorem ksu_from_psw (psw : Nat) (p : PanelState) :
    (psw = 0 →
      (compute_ksu_from_psw psw p).flag_kernel = false ∧
      (compute_ksu_from_psw psw p).flag_super = false ∧
      (compute_ksu_from_psw psw p).flag_user = false) ∧
    (psw ≠ 0 →
      (compute_ksu_from_psw psw p).flag_kernel = decide (psw / 2 ^ 14 % 4 = 0) ∧
      (compute_ksu_from_psw psw p).flag_super = decide (psw / 2 ^ 14 % 4 = 1) ∧
      (compute_ksu_from_psw psw p).flag_user = decide (psw / 2 ^ 14 % 4 = 3)) ∧
    (((compute_ksu_from_psw psw p).flag_kernel &&
        (compute_ksu_from_psw psw p).flag_super) = false ∧
      ((compute_ksu_from_psw psw p).flag_kernel &&
        (compute_ksu_from_psw psw p).flag_user) = false ∧
      ((compute_ksu_from_psw psw p).flag_super &&
        (compute_ksu_from_psw psw p).flag_user) = false) ∧
    ((compute_ksu_from_psw 49152 p).flag_user = true ∧
      (compute_ksu_from_psw 49152 p).flag_kernel = false ∧
      (compute_ksu_from_psw 49152 p).flag_super = false) := by
  have hm := psw_mode_eq psw
  have hlt : psw / 2 ^ 14 % 4 < 4 := Nat.mod_lt _ (by decide)
  refine ⟨?_, ?_, ?_, ?_⟩
  · intro h0
    simp [compute_ksu_from_psw, h0]
  · intro hne
    simp only [compute_ksu_from_psw, hm, if_neg hne]
    generalize psw / 2 ^ 14 % 4 = mode at hlt
    interval_cases mode <;> simp
  · simp only [compute_ksu_from_psw, hm]
    generalize psw / 2 ^ 14 % 4 = mode at hlt
    by_cases h0 : psw = 0
    · simp [h0]
    · rw [if_neg h0]
      interval_cases mode <;> simp
  · simp [compute_ksu_from_psw]

/-- C14 on a panel with all three mode flags lit: PSW = 0 clears them and
PSW = 0x4000 (mode 1) leaves super only. -/
theorem ksu_from_psw_witness :
    (compute_ksu_from_psw 0 all_modes_lit).flag_kernel = false ∧
    ((compute_ksu_from_psw 16384 all_modes_lit).flag_kernel = false ∧
      (compute_ksu_from_psw 16384 all_modes_lit).flag_super = true ∧
      (compute_ksu_from_psw 16384 all_modes_lit).flag_user = false) :=
  ⟨((ksu_from_psw 0 all_modes_lit).1 rfl).1,
    ((ksu_from_psw 16384 all_modes_lit).2.1 (by decide)).imp (fun h => h.trans (by decide))
      (fun h => h.imp (fun h1 => h1.trans (by decide)) (fun h2 => h2.trans (by decide)))⟩

/-- The snapshot step is the display updates applied to the outcome of the
console blocks. -/
theorem process_snapshot_eq (sim : Simulator) (s : Session) :
    process_snapshot sim s =
      display_block sim.running (console_actions sim s).1 (console_actions sim s).2 :=
  rfl

/-- The console blocks leave the panel and the register snapshot other
than the PC copy alone. -/
theorem console_actions_frame (sim : Simulator) (s : Session) :
    (console_actions sim s).2.panel = s.panel ∧
    (console_actions sim s).2.reg_psw = s.reg_psw ∧
    (console_actions sim s).2.reg_r = s.reg_r ∧
    (before_start sim s).panel = s.panel ∧
    (before_start sim s).reg_pc = s.reg_pc ∧
    (before_start sim s).edge_start = s.edge_start ∧
    (before_enable_halt sim s).panel = s.panel ∧
    (before_enable_halt sim s).edge_enable_halt = s.edge_enable_halt := by
  simp only [console_actions, before_start, before_enable_halt, start_block_frame,
    enable_halt_block_frame, cont_block_frame, dep_block_frame, exam_block_frame,
    load_block_frame, and_self]

/-- The display updates and the START block leave the console variables
alone: after the step they are as on reaching the START block. -/
theorem process_snapshot_console (sim : Simulator) (s : Session) :
    (process_snapshot sim s).1.console_address = (before_start sim s).console_address ∧
    (process_snapshot sim s).1.use_data_latched = (before_start sim s).use_data_latched ∧
    (process_snapshot sim s).1.data_latched = (before_start sim s).data_latched ∧
    (process_snapshot sim s).1.reg_pc = (console_actions sim s).2.reg_pc ∧
    (process_snapshot sim s).1.reg_r = s.reg_r ∧
    (process_snapshot sim s).1.requests = (console_actions sim s).2.requests := by
  simp only [process_snapshot_eq, display_block_frame, console_actions, start_block_frame,
    before_start, before_enable_halt, enable_halt_block_frame, cont_block_frame,
    dep_block_frame, exam_block_frame, load_block_frame, and_self]

/-- The mode flags are the only panel fields `compute_ksu_from_psw` writes. -/
theorem compute_ksu_frame (psw : Nat) (p : PanelState) :
    (compute_ksu_from_psw psw p).r1_position = p.r1_position ∧
    (compute_ksu_from_psw psw p).r2_position = p.r2_position ∧
    (compute_ksu_from_psw psw p).switch_state = p.switch_state ∧
    (compute_ksu_from_psw psw p).data = p.data ∧
    (compute_ksu_from_psw psw p).address = p.address := by
  unfold compute_ksu_from_psw
  dsimp only
  repeat' (first | rfl | constructor | split)

/-- The panel fields and the blinkenlight flag produced by the display
updates, in terms of the session and the local `pc` reaching them. -/
theorem display_block_fields (r : Bool) (pc : Nat) (s : Session) :
    (display_block r pc s).1.panel.address =
      (if !r then s.console_address
        else select_display_address s.panel.r1_position pc s.console_address) ∧
    (display_block r pc s).1.panel.data =
      (if s.panel.r2_position = 3 then
          select_display_register_data s.reg_pc s.reg_r s.panel.switch_state
        else if s.use_data_latched then s.data_latched
        else if !r then s.panel.switch_state &&& 65535
        else s.panel.data) ∧
    (display_block r pc s).1.panel.flag_addr16 = decide (pc < 2 ^ 16) ∧
    (display_block r pc s).1.panel.flag_addr18 =
      (!decide (pc < 2 ^ 16) && decide (pc < 2 ^ 18)) ∧
    (display_block r pc s).1.panel.flag_addr22 =
      (!(!decide (pc < 2 ^ 16) && decide (pc < 2 ^ 18)) && decide (pc ≥ 2 ^ 18)) ∧
    (display_block r pc s).2 = (r && decide (s.panel.r1_position ≠ 3)) ∧
    (display_block r pc s).1.panel.flag_par_low =
      decide ((if (display_block r pc s).2 then 0
        else parity_loop ((display_block r pc s).1.panel.data &&& 255) 16) = 1) ∧
    (display_block r pc s).1.panel.flag_par_high =
      decide ((if (display_block r pc s).2 then 0
        else parity_loop (((display_block r pc s).1.panel.data >>> 8) &&& 255) 6) = 1) := by
  obtain ⟨k1, k2, k3, k4, _⟩ := compute_ksu_frame s.reg_psw s.panel
  simp only [display_block, k1, k2, k3, k4]
  refine ⟨trivial, trivial, rfl, rfl, rfl, ?_, trivial, trivial⟩
  cases r <;> simp

/-- Outcome of the START block: the local `pc`, the PC copy and the request
log, by whether the detector fires and the set-register call succeeds. -/
theorem start_block_outcome (sim : Simulator) (pc : Nat) (s : Session) :
    (start_block sim pc s).1 =
      (if (s.edge_start.falling s.panel.flag_start).1 = true ∧
          sim.set_register_value s.console_address = true
        then s.console_address else pc) ∧
    (start_block sim pc s).2.reg_pc =
      (if (s.edge_start.falling s.panel.flag_start).1 = true ∧
          sim.set_register_value s.console_address = true
        then s.console_address else s.reg_pc) ∧
    (start_block sim pc s).2.requests =
      s.requests ++
        (if (s.edge_start.falling s.panel.flag_start).1 = true then
          SimRequest.set_pc s.console_address ::
            (if sim.set_register_value s.console_address = true
              then [SimRequest.exec_run] else [])
        else []) := by
  unfold start_block
  dsimp only
  by_cases h1 : (s.edge_start.falling s.panel.flag_start).1 = true
  · by_cases h2 : sim.set_register_value s.console_address = true
    · simp [h1, h2]
    · simp [h1, h2]
  · simp [h1]

/-- The LOAD ADDR, EXAM and DEP blocks keep the console address below
`2^22`; the other blocks do not write it. -/
theorem before_start_console_lt (sim : Simulator) (s : Session)
    (h : s.console_address < 2 ^ 22) :
    (before_start sim s).console_address < 2 ^ 22 := by
  have hl : ∀ (r : Bool) (t : Session), t.console_address < 2 ^ 22 →
      (load_block r t).console_address < 2 ^ 22 := by
    intro r t ht
    unfold load_block
    dsimp only
    split
    · exact ht
    · split
      · rw [and_MASK22]
        exact Nat.mod_lt _ (by decide)
      · exact ht
  have hx : ∀ (r : Bool) (t : Session), t.console_address < 2 ^ 22 →
      (exam_block sim r t).console_address < 2 ^ 22 := by
    intro r t ht
    unfold exam_block
    dsimp only
    split
    · exact ht
    · split
      · split
        · rw [pc_inc_eq]
          exact Nat.mod_lt _ (by decide)
        · exact ht
      · exact ht
  have hd : ∀ (r : Bool) (t : Session), t.console_address < 2 ^ 22 →
      (dep_block sim r t).console_address < 2 ^ 22 := by
    intro r t ht
    unfold dep_block
    dsimp only
    split
    · exact ht
    · split
      · split
        · rw [pc_inc_eq]
          exact Nat.mod_lt _ (by decide)
        · exact ht
      · exact ht
  simp only [before_start, before_enable_halt, enable_halt_block_frame, cont_block_frame]
  exact hd _ _ (hx _ _ (hl _ _ h))

/-- The local `pc` on reaching the display updates is the PC copy, as the
step leaves it, masked to 22 bits, provided the console address entered the
step below `2^22`. -/
theorem console_actions_pc (sim : Simulator) (s : Session)
    (h : s.console_address < 2 ^ 22) :
    (console_actions sim s).1 = (process_snapshot sim s).1.reg_pc % 2 ^ 22 ∧
    (console_actions sim s).1 < 2 ^ 22 := by
  have hb := before_start_console_lt sim s h
  obtain ⟨o1, o2, _⟩ := start_block_outcome sim (s.reg_pc &&& MASK22) (before_start sim s)
  have hpc : (before_start sim s).reg_pc = s.reg_pc := (console_actions_frame sim s).2.2.2.2.1
  rw [(process_snapshot_console sim s).2.2.2.1]
  unfold console_actions
  rw [o1, o2, hpc, and_MASK22]
  split
  · exact ⟨(Nat.mod_eq_of_lt hb).symm, hb⟩
  · exact ⟨rfl, Nat.mod_lt _ (by decide)⟩

/-- The three range tests of the source on a value `pc`: which holds when,
and that exactly one holds. -/
theorem range_flags_arith (pc : Nat) :
    (decide (pc < 2 ^ 16) = true ↔ pc < 2 ^ 16) ∧
    ((!decide (pc < 2 ^ 16) && decide (pc < 2 ^ 18)) = true ↔
      2 ^ 16 ≤ pc ∧ pc < 2 ^ 18) ∧
    ((!(!decide (pc < 2 ^ 16) && decide (pc < 2 ^ 18)) && decide (pc ≥ 2 ^ 18)) = true ↔
      2 ^ 18 ≤ pc) ∧
    ((decide (pc < 2 ^ 16) && !(!decide (pc < 2 ^ 16) && decide (pc < 2 ^ 18)) &&
        !(!(!decide (pc < 2 ^ 16) && decide (pc < 2 ^ 18)) && decide (pc ≥ 2 ^ 18))) ||
      (!decide (pc < 2 ^ 16) && (!decide (pc < 2 ^ 16) && decide (pc < 2 ^ 18)) &&
        !(!(!decide (pc < 2 ^ 16) && decide (pc < 2 ^ 18)) && decide (pc ≥ 2 ^ 18))) ||
      (!decide (pc < 2 ^ 16) && !(!decide (pc < 2 ^ 16) && decide (pc < 2 ^ 18)) &&
        (!(!decide (pc < 2 ^ 16) && decide (pc < 2 ^ 18)) && decide (pc ≥ 2 ^ 18)))) =
      true := by
  rcases Nat.lt_or_ge pc (2 ^ 16) with a | a
  · have b : pc < 2 ^ 18 := by omega
    have c : ¬ pc ≥ 2 ^ 18 := by omega
    rw [decide_eq_true a, decide_eq_true b, decide_eq_false c]
    refine ⟨⟨fun _ => a, fun _ => rfl⟩, ?_, ?_, rfl⟩
    · constructor
      · intro h; cases h
      · intro h; omega
    · constructor
      · intro h; cases h
      · intro h; omega
  · have a2 : ¬ pc < 2 ^ 16 := by omega
    rcases Nat.lt_or_ge pc (2 ^ 18) with b | b
    · have c : ¬ pc ≥ 2 ^ 18 := by omega
      rw [decide_eq_false a2, decide_eq_true b, decide_eq_false c]
      refine ⟨?_, ?_, ?_, rfl⟩
      · constructor
        · intro h; cases h
        · intro h; omega
      · exact ⟨fun _ => ⟨a, b⟩, fun _ => rfl⟩
      · constructor
        · intro h; cases h
        · intro h; omega
    · have b2 : ¬ pc < 2 ^ 18 := by omega
      rw [decide_eq_false a2, decide_eq_false b2, decide_eq_true b]
      refine ⟨?_, ?_, ?_, rfl⟩
      · constructor
        · intro h; cases h
        · intro h; omega
      · constructor
        · intro h; cases h
        · intro h; omega
      · exact ⟨fun _ => b, fun _ => rfl⟩

/-- C13: after every processed snapshot step, with `pc` the PC value the
step used for the lamps, `flag_addr16` holds iff `pc < 2^16`, `flag_addr18`
iff `2^16 <= pc < 2^18`, `flag_addr22` iff `pc >= 2^18`, and exactly one of
the three is true; when the console address entered the step below `2^22`,
`pc` is the PC register copy masked to 22 bits and lies in `[0, 2^22)`. -/
theorem address_range_flags (sim : Simulator) (s : Session) :
    ((process_snapshot sim s).1.panel.flag_addr16 = true ↔
      (console_actions sim s).1 < 2 ^ 16) ∧
    ((process_snapshot sim s).1.panel.flag_addr18 = true ↔
      2 ^ 16 ≤ (console_actions sim s).1 ∧ (console_actions sim s).1 < 2 ^ 18) ∧
    ((process_snapshot sim s).1.panel.flag_addr22 = true ↔
      2 ^ 18 ≤ (console_actions sim s).1) ∧
    (((process_snapshot sim s).1.panel.flag_addr16 &&
        !(process_snapshot sim s).1.panel.flag_addr18 &&
        !(process_snapshot sim s).1.panel.flag_addr22) ||
      (!(process_snapshot sim s).1.panel.flag_addr16 &&
        (process_snapshot sim s).1.panel.flag_addr18 &&
        !(process_snapshot sim s).1.panel.flag_addr22) ||
      (!(process_snapshot sim s).1.panel.flag_addr16 &&
        !(process_snapshot sim s).1.panel.flag_addr18 &&
        (process_snapshot sim s).1.panel.flag_addr22)) = true ∧
    (s.console_address < 2 ^ 22 →
      (console_actions sim s).1 = (process_snapshot sim s).1.reg_pc % 2 ^ 22 ∧
      (console_actions sim s).1 < 2 ^ 22) := by
  obtain ⟨_, _, f16, f18, f22, _⟩ :=
    display_block_fields sim.running (console_actions sim s).1 (console_actions sim s).2
  rw [process_snapshot_eq, f16, f18, f22]
  obtain ⟨a1, a2, a3, a4⟩ := range_flags_arith (console_actions sim s).1
  exact ⟨a1, a2, a3, a4, console_actions_pc sim s⟩

/-- C13 on a running session whose PC register holds 0x12345 plus a stray
bit 22: the masked PC is 0x12345, between `2^16` and `2^18`, and
`flag_addr18` is the lamp that is lit. -/
theorem address_range_flags_witness :
    (process_snapshot Simulator.running_ok running_session_pc).1.panel.flag_addr18 = true ∧
    (console_actions Simulator.running_ok running_session_pc).1 = 74565 :=
  ⟨(address_range_flags Simulator.running_ok running_session_pc).2.1.mpr
      ⟨by decide, by decide⟩,
    ((address_range_flags Simulator.running_ok running_session_pc).2.2.2.2
      (by decide)).1.trans (by decide)⟩

/-- C15: after every processed snapshot step, if the simulator was halted
at the start of the step `panel.address` is the console address as the
step's console actions left it; if it was running, `panel.address` is the
console address for `r1_position = 3` and, for `r1_position` in
0, 1, 2, 4, 5, 6, 7, the PC copy masked to 22 bits (the console address
having entered the step below `2^22`), which without a START edge is the PC
register as the step found it, masked to 22 bits. -/
theorem displayed_address (sim : Simulator) (s : Session) :
    (sim.running = false →
      (process_snapshot sim s).1.panel.address =
        (process_snapshot sim s).1.console_address) ∧
    (sim.running = true → s.panel.r1_position = 3 →
      (process_snapshot sim s).1.panel.address =
        (process_snapshot sim s).1.console_address) ∧
    (sim.running = true → s.panel.r1_position ∈ [0, 1, 2, 4, 5, 6, 7] →
      s.console_address < 2 ^ 22 →
      (process_snapshot sim s).1.panel.address =
        (process_snapshot sim s).1.reg_pc % 2 ^ 22) ∧
    (sim.running = true → s.panel.r1_position ∈ [0, 1, 2, 4, 5, 6, 7] →
      s.edge_start.previous = s.panel.flag_start →
      (process_snapshot sim s).1.panel.address = s.reg_pc % 2 ^ 22) := by
  obtain ⟨fa, _⟩ :=
    display_block_fields sim.running (console_actions sim s).1 (console_actions sim s).2
  have hp : (console_actions sim s).2.panel = s.panel := (console_actions_frame sim s).1
  have hc : (process_snapshot sim s).1.console_address =
      (console_actions sim s).2.console_address := by
    rw [process_snapshot_eq]
    exact (display_block_frame _ _ _).2.2.2.2.2.2.2.2.2.1
  rw [hc]
  rw [process_snapshot_eq, fa, hp]
  refine ⟨?_, ?_, ?_, ?_⟩
  · intro hr
    simp [hr]
  · intro hr h3
    simp [hr, h3, select_display_address]
  · intro hr hmem hlt
    obtain ⟨e1, e2⟩ := console_actions_pc sim s hlt
    rw [process_snapshot_eq] at e1
    rw [← e1]
    have hmask : (console_actions sim s).1 &&& MASK22 = (console_actions sim s).1 := by
      rw [and_MASK22]
      exact Nat.mod_eq_of_lt e2
    simp only [List.mem_cons, List.mem_singleton, List.not_mem_nil, or_false] at hmem
    rcases hmem with h | h | h | h | h | h | h <;>
      simp [hr, h, select_display_address, hmask]
  · intro hr hmem hedge
    obtain ⟨o1, _⟩ := start_block_outcome sim (s.reg_pc &&& MASK22) (before_start sim s)
    obtain ⟨_, _, _, q1, _, q2, _⟩ := console_actions_frame sim s
    have hno : ¬ ((s.edge_start.falling s.panel.flag_start).1 = true ∧
        sim.set_register_value (before_start sim s).console_address = true) := by
      rw [falling_of_no_edge _ _ hedge]
      simp
    have hpc : (console_actions sim s).1 = s.reg_pc % 2 ^ 22 := by
      unfold console_actions
      rw [o1, q1, q2, if_neg hno, and_MASK22]
    rw [hpc]
    have hmask : s.reg_pc % 2 ^ 22 &&& MASK22 = s.reg_pc % 2 ^ 22 := by
      rw [and_MASK22]
      exact Nat.mod_mod _ _
    have hmask2 : s.reg_pc % 4194304 &&& MASK22 = s.reg_pc % 4194304 := hmask
    simp only [List.mem_cons, List.mem_singleton, List.not_mem_nil, or_false] at hmem
    rcases hmem with h | h | h | h | h | h | h <;>
      simp [hr, h, select_display_address, hmask2]

/-- C15 on a running session with PC register 0x12345 plus a stray bit 22:
at R1 position 0 the address lamps show 0x12345, at position 3 the console
address 0100 (octal); halted, the console address. -/
theorem displayed_address_witness :
    (process_snapshot Simulator.running_ok running_session_pc).1.panel.address = 74565 ∧
    (process_snapshot (Simulator.halted_ok 0) running_session_pc).1.panel.address = 64 :=
  ⟨((displayed_address Simulator.running_ok running_session_pc).2.2.1 rfl (by decide)
      (by decide)).trans (by decide),
    ((displayed_address (Simulator.halted_ok 0) running_session_pc).1 rfl).trans
      (by decide)⟩

/-- The register index `switch_state & 0x7` as arithmetic. -/
theorem and_7 (x : Nat) : x &&& 7 = x % 8 := Nat.and_pow_two_sub_one_eq_mod x 3

/-- C16: after every processed snapshot step `panel.data` is, in priority
order: (1) for `r2_position = 3`, the register picked by
`idx = switch_state mod 8`, the low 16 bits of the PC copy for `idx = 7`
and general register `idx` otherwise; (2) else the latched word when the
latch is owned; (3) else, halted, `switch_state mod 2^16`; (4) else the
value `panel.data` had before the step. -/
theorem displayed_data (sim : Simulator) (s : Session) :
    (process_snapshot sim s).1.panel.data =
      if s.panel.r2_position = 3 then
        (if s.panel.switch_state % 8 = 7 then (process_snapshot sim s).1.reg_pc % 2 ^ 16
          else (process_snapshot sim s).1.reg_r
            ⟨s.panel.switch_state % 8, Nat.mod_lt _ (by decide)⟩)
      else if (process_snapshot sim s).1.use_data_latched = true then
        (process_snapshot sim s).1.data_latched
      else if sim.running = false then s.panel.switch_state % 2 ^ 16
      else s.panel.data := by
  obtain ⟨_, fd, _⟩ :=
    display_block_fields sim.running (console_actions sim s).1 (console_actions sim s).2
  obtain ⟨hp, _, hr, _⟩ := console_actions_frame sim s
  have hfr := display_block_frame sim.running (console_actions sim s).1
    (console_actions sim s).2
  have h1 : (process_snapshot sim s).1.reg_pc = (console_actions sim s).2.reg_pc :=
    hfr.1
  have h2 : (process_snapshot sim s).1.reg_r = s.reg_r := by
    rw [process_snapshot_eq, hfr.2.2.1, hr]
  have h3 : (process_snapshot sim s).1.use_data_latched =
      (console_actions sim s).2.use_data_latched := hfr.2.2.2.2.2.2.2.2.2.2.2.1
  have h4 : (process_snapshot sim s).1.data_latched =
      (console_actions sim s).2.data_latched := hfr.2.2.2.2.2.2.2.2.2.2.1
  rw [h1, h2, h3, h4, process_snapshot_eq, fd, hp, hr]
  by_cases c1 : s.panel.r2_position = 3
  · rw [if_pos c1, if_pos c1]
    simp only [select_display_register_data, and_7, and_65535]
    by_cases c7 : s.panel.switch_state % 8 = 7
    · rw [if_pos c7, if_pos c7]
    · rw [if_neg c7, if_neg c7]
      congr 1
      apply Fin.ext
      simp [Fin.ofNat]
  · rw [if_neg c1, if_neg c1]
    by_cases c2 : (console_actions sim s).2.use_data_latched = true
    · rw [if_pos c2, if_pos c2]
    · rw [if_neg c2, if_neg c2]
      cases hrun : sim.running <;> simp [and_65535]

/-- One round of the parity loop on a 0/1 accumulator. -/
theorem parity_round (b : Bool) (bits i : Nat) :
    b.toNat ^^^ ((bits >>> i) &&& 1) = (xor b (bits.testBit i)).toNat := by
  have h : (bits >>> i) &&& 1 = (bits.testBit i).toNat := by
    rw [Nat.toNat_testBit, Nat.and_one_is_mod, Nat.shiftRight_eq_div_pow]
  rw [h]
  cases b <;> cases bits.testBit i <;> rfl

/-- The parity loop computes the XOR of the visited bits, as 0 or 1. -/
theorem parity_fold (bits : Nat) (l : List Nat) (b : Bool) :
    l.foldl (fun parity i => parity ^^^ ((bits >>> i) &&& 1)) b.toNat =
      (l.foldl (fun acc i => xor acc (bits.testBit (0 + i))) b).toNat := by
  induction l generalizing b with
  | nil => rfl
  | cons i l ih =>
    rw [List.foldl_cons, List.foldl_cons, parity_round, ih, Nat.zero_add]

/-- The parity loop over the first `n` bits, tested against 1, is the XOR
of those bits. -/
theorem parity_loop_eq (bits n : Nat) :
    decide (parity_loop bits n = 1) = xor_of_bits bits 0 n := by
  have h := parity_fold bits (List.range n) false
  simp only [Bool.toNat_false] at h
  rw [parity_loop, h, xor_of_bits]
  cases (List.range n).foldl (fun acc i => xor acc (bits.testBit (0 + i))) false <;> rfl

/-- Bits of a value masked with `0xFF`. -/
theorem testBit_and_255 (x i : Nat) :
    (x &&& 255).testBit i = (x.testBit i && decide (i < 8)) := by
  have h255 : (255 : Nat) = 2 ^ 8 - 1 := rfl
  rw [Nat.testBit_and, h255, Nat.testBit_two_pow_sub_one]

/-- Sixteen rounds over the low byte give the XOR of bits 0..7. -/
theorem xor_low_byte (data : Nat) :
    xor_of_bits (data &&& 255) 0 16 = xor_of_bits data 0 8 := by
  have h16 : List.range 16 = [0, 1, 2, 3, 4, 5, 6, 7, 8, 9, 10, 11, 12, 13, 14, 15] := by
    decide
  have h8 : List.range 8 = [0, 1, 2, 3, 4, 5, 6, 7] := by decide
  simp only [xor_of_bits, h16, h8, List.foldl_cons, List.foldl_nil, testBit_and_255,
    Nat.zero_add]
  simp

/-- Six rounds over the high byte give the XOR of bits 8..13. -/
theorem xor_high_byte (data : Nat) :
    xor_of_bits ((data >>> 8) &&& 255) 0 6 = xor_of_bits data 8 6 := by
  have h6 : List.range 6 = [0, 1, 2, 3, 4, 5] := by decide
  simp only [xor_of_bits, h6, List.foldl_cons, List.foldl_nil, testBit_and_255,
    Nat.testBit_shiftRight, Nat.zero_add]
  simp

/-- C17: a snapshot step uses blinkenlights exactly when the simulator is
running and `r1_position != 3`; when it does not, `flag_par_low` is the XOR
of bits 0-7 of `panel.data` and `flag_par_high` the XOR of bits 8-13; when
it does, both parity flags are false. -/
theorem parity_flags (sim : Simulator) (s : Session) :
    ((process_snapshot sim s).2 = true ↔
      sim.running = true ∧ s.panel.r1_position ≠ 3) ∧
    ((process_snapshot sim s).2 = false →
      (process_snapshot sim s).1.panel.flag_par_low =
        xor_of_bits (process_snapshot sim s).1.panel.data 0 8 ∧
      (process_snapshot sim s).1.panel.flag_par_high =
        xor_of_bits (process_snapshot sim s).1.panel.data 8 6) ∧
    ((process_snapshot sim s).2 = true →
      (process_snapshot sim s).1.panel.flag_par_low = false ∧
      (process_snapshot sim s).1.panel.flag_par_high = false) := by
  obtain ⟨_, _, _, _, _, fb, fl, fh⟩ :=
    display_block_fields sim.running (console_actions sim s).1 (console_actions sim s).2
  have hp : (console_actions sim s).2.panel = s.panel := (console_actions_frame sim s).1
  rw [process_snapshot_eq]
  refine ⟨?_, ?_, ?_⟩
  · rw [fb, hp]
    simp
  · intro hb
    rw [fl, fh, hb]
    simp only [Bool.false_eq_true, if_false]
    rw [parity_loop_eq, parity_loop_eq, xor_low_byte, xor_high_byte]
    exact ⟨rfl, rfl⟩
  · intro hb
    rw [fl, fh, hb]
    exact ⟨rfl, rfl⟩

/-- C17 on a halted session owning the latch with 0x2B07 latched: no
blinkenlights, bits 0-7 hold three ones (low parity set) and bits 8-13 hold
four ones (high parity clear); on a running session at R1 position 0 both
parity flags are false. -/
theorem parity_flags_witness :
    ((process_snapshot (Simulator.halted_ok 0) latched_session).1.panel.flag_par_low
        = true ∧
      (process_snapshot (Simulator.halted_ok 0) latched_session).1.panel.flag_par_high
        = false) ∧
    ((process_snapshot Simulator.running_ok latched_session).1.panel.flag_par_low = false ∧
      (process_snapshot Simulator.running_ok latched_session).1.panel.flag_par_high
        = false) :=
  ⟨((parity_flags (Simulator.halted_ok 0) latched_session).2.1 (by decide)).imp
      (fun h => h.trans (by decide)) (fun h => h.trans (by decide)),
    (parity_flags Simulator.running_ok latched_session).2.2 (by decide)⟩

/-! ## ENABLE/HALT and START -/

/-- Outcome of the ENABLE/HALT block: the requests it appends and what it
does to latch ownership, by run state and detector result. -/
theorem enable_halt_block_outcome (r : Bool) (t : Session) :
    (enable_halt_block r t).requests =
      t.requests ++
        (if r = true then
          (if (t.edge_enable_halt.falling t.panel.flag_enable_halt).1 = true
            then [SimRequest.exec_halt] else [])
        else
          (if (t.edge_enable_halt.rising t.panel.flag_enable_halt).1 = true
            then [SimRequest.exec_run] else [])) ∧
    (enable_halt_block r t).use_data_latched =
      (if r = false ∧ (t.edge_enable_halt.rising t.panel.flag_enable_halt).1 = true
        then false else t.use_data_latched) := by
  unfold enable_halt_block
  dsimp only
  cases r
  · by_cases h : (t.edge_enable_halt.rising t.panel.flag_enable_halt).1 = true <;>
      simp [h]
  · by_cases h : (t.edge_enable_halt.falling t.panel.flag_enable_halt).1 = true <;>
      simp [h]

/-- C19: in a processed snapshot step, with the simulator running and a
falling edge on `flag_enable_halt` the ENABLE/HALT logic issues one halt
request and nothing else; with the simulator halted and a rising edge it
issues one run request and `use_data_latched` is false after the step; in
every other case it issues no request and leaves `use_data_latched` as it
found it. -/
theorem enable_halt_logic (sim : Simulator) (s : Session) :
    (sim.running = true → s.edge_enable_halt.previous = true →
      s.panel.flag_enable_halt = false →
      (before_start sim s).requests =
        (before_enable_halt sim s).requests ++ [SimRequest.exec_halt] ∧
      (before_start sim s).use_data_latched =
        (before_enable_halt sim s).use_data_latched) ∧
    (sim.running = false → s.edge_enable_halt.previous = false →
      s.panel.flag_enable_halt = true →
      (before_start sim s).requests =
        (before_enable_halt sim s).requests ++ [SimRequest.exec_run] ∧
      (before_start sim s).use_data_latched = false ∧
      (process_snapshot sim s).1.use_data_latched = false) ∧
    (¬ (sim.running = true ∧ s.edge_enable_halt.previous = true ∧
          s.panel.flag_enable_halt = false) →
      ¬ (sim.running = false ∧ s.edge_enable_halt.previous = false ∧
          s.panel.flag_enable_halt = true) →
      (before_start sim s).requests = (before_enable_halt sim s).requests ∧
      (before_start sim s).use_data_latched =
        (before_enable_halt sim s).use_data_latched) := by
  obtain ⟨o1, o2⟩ := enable_halt_block_outcome sim.running (before_enable_halt sim s)
  obtain ⟨_, _, _, _, _, _, hp, he⟩ := console_actions_frame sim s
  have hl := (process_snapshot_console sim s).2.1
  rw [hl]
  unfold before_start
  rw [o1, o2, hp, he]
  refine ⟨?_, ?_, ?_⟩
  · intro hr hprev hflag
    simp [hr, Edge.falling, hprev, hflag]
  · intro hr hprev hflag
    simp [hr, Edge.rising, hprev, hflag]
  · intro n1 n2
    cases hr : sim.running <;> cases hprev : s.edge_enable_halt.previous <;>
      cases hflag : s.panel.flag_enable_halt <;>
      simp_all [Edge.falling, Edge.rising]

/-- C19 at a running session with ENABLE/HALT lowered (one halt request,
the step's only request) and at a halted latch-owning session with
ENABLE/HALT raised (one run request, latch ownership dropped). -/
theorem enable_halt_logic_witness :
    (before_start Simulator.running_ok halt_lowered_session).requests
      = [SimRequest.exec_halt] ∧
    ((before_start (Simulator.halted_ok 0) enable_raised_session).requests
        = [SimRequest.exec_run] ∧
      (process_snapshot (Simulator.halted_ok 0) enable_raised_session).1.use_data_latched
        = false) :=
  ⟨((enable_halt_logic Simulator.running_ok halt_lowered_session).1 rfl rfl rfl).1.trans
      (by decide),
    ⟨((enable_halt_logic (Simulator.halted_ok 0) enable_raised_session).2.1
        rfl rfl rfl).1.trans (by decide),
      ((enable_halt_logic (Simulator.halted_ok 0) enable_raised_session).2.1
        rfl rfl rfl).2.2⟩⟩

/-- C20: in a processed snapshot step with a falling edge on START, in any
run state, the controller requests that the PC be set to the console
address; when the request succeeds it then issues a run request and both
its local `pc` and its PC register copy become the console address; when it
fails nothing follows the set-register request and both PC copies stay as
they were. -/
theorem start_logic (sim : Simulator) (s : Session)
    (hprev : s.edge_start.previous = true) (hflag : s.panel.flag_start = false) :
    (sim.set_register_value (process_snapshot sim s).1.console_address = true →
      (process_snapshot sim s).1.requests =
        (before_start sim s).requests ++
          [SimRequest.set_pc (process_snapshot sim s).1.console_address,
            SimRequest.exec_run] ∧
      (process_snapshot sim s).1.reg_pc = (process_snapshot sim s).1.console_address ∧
      (console_actions sim s).1 = (process_snapshot sim s).1.console_address) ∧
    (sim.set_register_value (process_snapshot sim s).1.console_address = false →
      (process_snapshot sim s).1.requests =
        (before_start sim s).requests ++
          [SimRequest.set_pc (process_snapshot sim s).1.console_address] ∧
      (process_snapshot sim s).1.reg_pc = s.reg_pc ∧
      (console_actions sim s).1 = s.reg_pc % 2 ^ 22) := by
  obtain ⟨o1, o2, o3⟩ := start_block_outcome sim (s.reg_pc &&& MASK22) (before_start sim s)
  obtain ⟨_, _, _, hp, hpc, he, _⟩ := console_actions_frame sim s
  obtain ⟨c1, _, _, c4, _, c6⟩ := process_snapshot_console sim s
  have hedge : (s.edge_start.falling s.panel.flag_start).1 = true := by
    simp [Edge.falling, hprev, hflag]
  rw [c1, c4, c6]
  unfold console_actions
  rw [o1, o2, o3, hp, he, hpc, and_MASK22]
  constructor
  · intro hok
    simp [hedge, hok]
  · intro hfail
    simp [hedge, hfail]

/-- C20 at a halted session with PC copy 01000 (octal) and console address
0100 (octal): when the set-register request succeeds the log is set-PC then
run and the PC copy becomes 0100; when it fails the log is the set-PC
request alone and the PC copy stays 01000. -/
theorem start_logic_witness :
    ((process_snapshot (Simulator.halted_ok 0) start_pressed_latched_session).1.requests
        = [SimRequest.set_pc 64, SimRequest.exec_run] ∧
      (process_snapshot (Simulator.halted_ok 0) start_pressed_latched_session).1.reg_pc
        = 64) ∧
    ((process_snapshot Simulator.halted_failing start_pressed_latched_session).1.requests
        = [SimRequest.set_pc 64] ∧
      (process_snapshot Simulator.halted_failing start_pressed_latched_session).1.reg_pc
        = 512) :=
  ⟨⟨((start_logic (Simulator.halted_ok 0) start_pressed_latched_session rfl rfl).1
        rfl).1.trans (by decide),
      ((start_logic (Simulator.halted_ok 0) start_pressed_latched_session rfl rfl).1
        rfl).2.1.trans (by decide)⟩,
    ⟨((start_logic Simulator.halted_failing start_pressed_latched_session rfl rfl).2
        rfl).1.trans (by decide),
      ((start_logic Simulator.halted_failing start_pressed_latched_session rfl rfl).2
        rfl).2.1⟩⟩

/-- C18 fails on the START path: on a halted session that owns the data
latch, a START falling edge whose set-register request succeeds issues a
run request, and `use_data_latched` is still true after the step. -/
theorem start_run_keeps_latch :
    (process_snapshot (Simulator.halted_ok 0) start_pressed_latched_session).1.requests
      = [SimRequest.set_pc 64, SimRequest.exec_run] ∧
    (process_snapshot (Simulator.halted_ok 0)
      start_pressed_latched_session).1.use_data_latched = true := by
  decide

/-! ## Rotary encoder invariant -/

/-- The two-bit state is one of 0..3. -/
theorem quadrature_state_lt (a b : Bool) : quadrature_state a b < 4 := by
  cases a <;> cases b <;> decide

/-- One `add_delta` call keeps the accumulator within -4..4 when it was,
and always leaves `last_state` in 0..3 and, for a modulus of at least 1,
`position` below the modulus. -/
theorem add_delta_invariant (e : RotaryEncoder) (a b : Bool)
    (hstates : 1 ≤ e.states)
    (hlo : -4 ≤ e.accumulated_deltas) (hhi : e.accumulated_deltas ≤ 4) :
    (e.add_delta a b).states = e.states ∧
    -4 ≤ (e.add_delta a b).accumulated_deltas ∧
    (e.add_delta a b).accumulated_deltas ≤ 4 ∧
    (e.add_delta a b).last_state < 4 ∧
    (e.add_delta a b).position < e.states := by
  obtain ⟨h1, h2⟩ := step_delta_bounds e.last_state (quadrature_state a b)
  have hw := wrap_int8_of_range
    (e.accumulated_deltas + step_delta e.last_state (quadrature_state a b))
    (by omega) (by omega)
  simp only [RotaryEncoder.add_delta, SENSITIVITY, hw]
  generalize step_delta e.last_state (quadrature_state a b) = d at h1 h2
  refine ⟨trivial, ?_, ?_, quadrature_state_lt a b, Nat.mod_lt _ (by omega)⟩
  · by_cases hup : e.accumulated_deltas + d > 4
    · simp [hup]
    · by_cases hdown : e.accumulated_deltas + d < -4
      · simp [hup, hdown]
      · simp only [hup, hdown, decide_False, Bool.false_eq_true, if_false]
        omega
  · by_cases hup : e.accumulated_deltas + d > 4
    · simp [hup]
    · by_cases hdown : e.accumulated_deltas + d < -4
      · simp [hup, hdown]
      · simp only [hup, hdown, decide_False, Bool.false_eq_true, if_false]
        omega

/-- The encoder invariant along any input sequence, from any encoder that
satisfies it. -/
theorem feed_inputs_invariant (inputs : List (Bool × Bool)) (e : RotaryEncoder)
    (hstates : 1 ≤ e.states)
    (hlo : -4 ≤ e.accumulated_deltas) (hhi : e.accumulated_deltas ≤ 4)
    (hlast : e.last_state < 4) (hpos : e.position < e.states) :
    (feed_inputs e inputs).states = e.states ∧
    -4 ≤ (feed_inputs e inputs).accumulated_deltas ∧
    (feed_inputs e inputs).accumulated_deltas ≤ 4 ∧
    (feed_inputs e inputs).last_state < 4 ∧
    (feed_inputs e inputs).position < e.states := by
  induction inputs generalizing e with
  | nil => exact ⟨rfl, hlo, hhi, hlast, hpos⟩
  | cons ab rest ih =>
    obtain ⟨k0, k1, k2, k3, k4⟩ := add_delta_invariant e ab.1 ab.2 hstates hlo hhi
    have := ih (e.add_delta ab.1 ab.2) (by rw [k0]; exact hstates) k1 k2 k3
      (by rw [k0]; exact k4)
    rw [k0] at this
    exact this

/-- C25: for every modulus `states >= 1` and every sequence of `(a, b)`
inputs fed to a freshly constructed encoder, after the last call (hence
after each call, every prefix being such a sequence) the accumulator lies
within -4..4 and is what the `int8_t` holds without wrap-around,
`last_state` is in 0..3 and `position < states`. -/
theorem rotary_encoder_invariant (states : Nat) (hstates : 1 ≤ states)
    (inputs : List (Bool × Bool)) :
    -4 ≤ (feed_inputs (RotaryEncoder.fresh states) inputs).accumulated_deltas ∧
    (feed_inputs (RotaryEncoder.fresh states) inputs).accumulated_deltas ≤ 4 ∧
    (feed_inputs (RotaryEncoder.fresh states) inputs).last_state < 4 ∧
    (feed_inputs (RotaryEncoder.fresh states) inputs).position < states ∧
    (∀ (a b : Bool),
      wrap_int8 ((feed_inputs (RotaryEncoder.fresh states) inputs).accumulated_deltas +
          step_delta (feed_inputs (RotaryEncoder.fresh states) inputs).last_state
            (quadrature_state a b)) =
        (feed_inputs (RotaryEncoder.fresh states) inputs).accumulated_deltas +
          step_delta (feed_inputs (RotaryEncoder.fresh states) inputs).last_state
            (quadrature_state a b)) := by
  obtain ⟨_, k1, k2, k3, k4⟩ := feed_inputs_invariant inputs (RotaryEncoder.fresh states)
    hstates (by simp [RotaryEncoder.fresh]) (by simp [RotaryEncoder.fresh])
    (by simp [RotaryEncoder.fresh]) hstates
  refine ⟨k1, k2, k3, k4, ?_⟩
  intro a b
  obtain ⟨h1, h2⟩ := step_delta_bounds
    (feed_inputs (RotaryEncoder.fresh states) inputs).last_state (quadrature_state a b)
  exact wrap_int8_of_range _ (by omega) (by omega)

/-- C25 at modulus 3 and six clockwise quarter-steps: the fifth step resets
the accumulator and moves the position to 1, the sixth leaves the
accumulator at 1. -/
theorem rotary_encoder_invariant_witness :
    (feed_inputs (RotaryEncoder.fresh 3)
      [(false, true), (true, true), (true, false), (false, false), (false, true),
        (true, true)]).position < 3 ∧
    (feed_inputs (RotaryEncoder.fresh 3)
      [(false, true), (true, true), (true, false), (false, false), (false, true),
        (true, true)]) = RotaryEncoder.mk 3 3 1 1 :=
  ⟨(rotary_encoder_invariant 3 (by decide)
      [(false, true), (true, true), (true, false), (false, false), (false, true),
        (true, true)]).2.2.2.1, by decide⟩

/-! ## LED driver -/

/-- The rows that are high after each write of `write_state_lights`: none
after the first write, then for each row in turn none, the row alone, none,
and none after the closing column write. -/
theorem write_state_lights_high_rows (leds : LedGrid) (init : Lines) :
    (line_states init (write_state_lights leds)).map high_rows =
      [[], [], [0], [], [], [1], [], [], [2], [], [], [3], [], [], [4], [], [], [5], [],
        []] := by
  rfl

/-- An in-range read through `led` is the grid cell. -/
theorem led_eq (leds : LedGrid) (r : Fin 6) (c : Fin 12) :
    led leds r.val c.val = leds r c := by
  simp [led, r.isLt, c.isLt]

/-- Whenever a row is high after a write of `write_state_lights`, the
column lines hold the inverse of that row of the grid. -/
theorem write_state_lights_columns (leds : LedGrid) (init : Lines) (i : Nat)
    (hi : i < (line_states init (write_state_lights leds)).length) (r : Fin 6)
    (hr : ((line_states init (write_state_lights leds)).get ⟨i, hi⟩).led_rows r = true)
    (c : Fin 12) :
    ((line_states init (write_state_lights leds)).get ⟨i, hi⟩).cols c = !leds r c := by
  have hlen : (line_states init (write_state_lights leds)).length = 20 := rfl
  have hi2 : i < 20 := hlen ▸ hi
  interval_cases i <;> fin_cases r <;>
    first
    | exact absurd hr Bool.false_ne_true
    | exact congrArg not (led_eq leds ⟨0, by decide⟩ c)
    | exact congrArg not (led_eq leds ⟨1, by decide⟩ c)
    | exact congrArg not (led_eq leds ⟨2, by decide⟩ c)
    | exact congrArg not (led_eq leds ⟨3, by decide⟩ c)
    | exact congrArg not (led_eq leds ⟨4, by decide⟩ c)
    | exact congrArg not (led_eq leds ⟨5, by decide⟩ c)

/-- A row is listed by `high_rows` exactly when its line is high. -/
theorem mem_high_rows (l : Lines) (r : Fin 6) :
    r.val ∈ high_rows l ↔ l.led_rows r = true := by
  simp [high_rows, r.isLt]

/-- C24: for every grid and every initial line state, along the writes of
`write_state_lights` (every write succeeding): after each write at most one
LED row is high; the rows are switched on in the order 0..5, each once, and
the rows high after the successive writes are none, then for each row in
turn none, that row alone, none; whenever row `r` is high the column lines
hold the inverse of grid row `r`; and after the last write all six rows are
low and all twelve columns high. -/
theorem write_state_lights_sequence (leds : LedGrid) (init : Lines) :
    (∀ l ∈ line_states init (write_state_lights leds), ∀ r1 r2 : Fin 6,
      l.led_rows r1 = true → l.led_rows r2 = true → r1 = r2) ∧
    energized (write_state_lights leds) = [0, 1, 2, 3, 4, 5] ∧
    (line_states init (write_state_lights leds)).map high_rows =
      [[], [], [0], [], [], [1], [], [], [2], [], [], [3], [], [], [4], [], [], [5], [],
        []] ∧
    (∀ l ∈ line_states init (write_state_lights leds), ∀ r : Fin 6,
      l.led_rows r = true → ∀ c : Fin 12, l.cols c = !leds r c) ∧
    (∃ final, (line_states init (write_state_lights leds)).getLast? = some final ∧
      (∀ r : Fin 6, final.led_rows r = false) ∧ ∀ c : Fin 12, final.cols c = true) := by
  have hmap := write_state_lights_high_rows leds init
  refine ⟨?_, rfl, hmap, ?_, ?_⟩
  · intro l hl r1 r2 h1 h2
    have hmem : high_rows l ∈ (line_states init (write_state_lights leds)).map high_rows :=
      List.mem_map_of_mem _ hl
    rw [hmap] at hmem
    have m1 := (mem_high_rows l r1).mpr h1
    have m2 := (mem_high_rows l r2).mpr h2
    apply Fin.ext
    simp only [List.mem_cons, List.mem_singleton, List.not_mem_nil, or_false] at hmem
    rcases hmem with h | h | h | h | h | h | h | h | h | h | h | h | h | h | h | h | h |
      h | h | h <;> rw [h] at m1 m2 <;> simp at m1 m2 <;> omega
  · intro l hl r hr c
    obtain ⟨i, hi, rfl⟩ := List.getElem_of_mem hl
    exact write_state_lights_columns leds init i hi r hr c
  · refine ⟨_, rfl, ?_, ?_⟩
    · intro r
      fin_cases r <;> rfl
    · intro c
      rfl

/-- C24 on the grid with every LED lit, from lines that were all high:
after the eighth write (row 2 switched on) every column is low, and the
rows are switched on in the order 0..5. -/
theorem write_state_lights_sequence_witness :
    (∀ c : Fin 12, ((line_states Lines.all_high (write_state_lights all_lit)).get
      ⟨8, by decide⟩).cols c = false) ∧
    energized (write_state_lights all_lit) = [0, 1, 2, 3, 4, 5] :=
  ⟨fun c => (write_state_lights_sequence all_lit Lines.all_high).2.2.2.1
      ((line_states Lines.all_high (write_state_lights all_lit)).get ⟨8, by decide⟩)
      (List.get_mem _ _ _) 2 rfl c,
    (write_state_lights_sequence all_lit Lines.all_high).2.1⟩

/-! ## Edge detectors across a loop iteration -/

/-- The control flags are not written by `compute_ksu_from_psw`. -/
theorem compute_ksu_flags (psw : Nat) (p : PanelState) :
    (compute_ksu_from_psw psw p).flag_load_addr = p.flag_load_addr ∧
    (compute_ksu_from_psw psw p).flag_exam = p.flag_exam ∧
    (compute_ksu_from_psw psw p).flag_dep = p.flag_dep ∧
    (compute_ksu_from_psw psw p).flag_cont = p.flag_cont ∧
    (compute_ksu_from_psw psw p).flag_enable_halt = p.flag_enable_halt ∧
    (compute_ksu_from_psw psw p).flag_start = p.flag_start := by
  unfold compute_ksu_from_psw
  dsimp only
  repeat' (first | rfl | constructor | split)

/-- The snapshot step leaves the six console flags of the panel as the
decoder set them. -/
theorem process_snapshot_flags (sim : Simulator) (s : Session) :
    (process_snapshot sim s).1.panel.flag_load_addr = s.panel.flag_load_addr ∧
    (process_snapshot sim s).1.panel.flag_exam = s.panel.flag_exam ∧
    (process_snapshot sim s).1.panel.flag_dep = s.panel.flag_dep ∧
    (process_snapshot sim s).1.panel.flag_cont = s.panel.flag_cont ∧
    (process_snapshot sim s).1.panel.flag_enable_halt = s.panel.flag_enable_halt ∧
    (process_snapshot sim s).1.panel.flag_start = s.panel.flag_start := by
  obtain ⟨k1, k2, k3, k4, k5, k6⟩ :=
    compute_ksu_flags (console_actions sim s).2.reg_psw (console_actions sim s).2.panel
  have hp : (console_actions sim s).2.panel = s.panel := (console_actions_frame sim s).1
  rw [process_snapshot_eq]
  simp only [display_block]
  rw [hp] at k1 k2 k3 k4 k5 k6 ⊢
  exact ⟨k1, k2, k3, k4, k5, k6⟩

/-- Each block leaves in its detector the flag value it was called with;
the halted-only blocks do so only when the simulator is halted, and the
ENABLE/HALT block in either run state. -/
theorem block_detectors (sim : Simulator) (r : Bool) (pc : Nat) (t : Session) :
    (load_block false t).edge_load.previous = t.panel.flag_load_addr ∧
    (exam_block sim false t).edge_exam.previous = t.panel.flag_exam ∧
    (dep_block sim false t).edge_dep.previous = t.panel.flag_dep ∧
    (cont_block t).edge_cont.previous = t.panel.flag_cont ∧
    (enable_halt_block r t).edge_enable_halt.previous = t.panel.flag_enable_halt ∧
    (start_block sim pc t).2.edge_start.previous = t.panel.flag_start := by
  refine ⟨?_, ?_, ?_, ?_, ?_, ?_⟩
  · simp only [load_block, Bool.false_eq_true, if_false]
    repeat' (first | rfl | split)
  · simp only [exam_block, Bool.false_eq_true, if_false]
    repeat' (first | rfl | split)
  · simp only [dep_block, Bool.false_eq_true, if_false]
    repeat' (first | rfl | split)
  · unfold cont_block
    dsimp only
    repeat' (first | rfl | split)
  · unfold enable_halt_block
    dsimp only
    repeat' (first | rfl | split)
  · unfold start_block
    dsimp only
    repeat' (first | rfl | split)

/-- The six console detectors after a snapshot step: CONT, ENABLE/HALT and
START hold the flag of this step; LOAD, EXAM and DEP hold it when the
simulator is halted and are untouched when it runs. -/
theorem process_snapshot_detectors (sim : Simulator) (s : Session) :
    (process_snapshot sim s).1.edge_cont.previous = s.panel.flag_cont ∧
    (process_snapshot sim s).1.edge_enable_halt.previous = s.panel.flag_enable_halt ∧
    (process_snapshot sim s).1.edge_start.previous = s.panel.flag_start ∧
    (sim.running = false →
      (process_snapshot sim s).1.edge_load.previous = s.panel.flag_load_addr ∧
      (process_snapshot sim s).1.edge_exam.previous = s.panel.flag_exam ∧
      (process_snapshot sim s).1.edge_dep.previous = s.panel.flag_dep) ∧
    (sim.running = true →
      (process_snapshot sim s).1.edge_load = s.edge_load ∧
      (process_snapshot sim s).1.edge_exam = s.edge_exam ∧
      (process_snapshot sim s).1.edge_dep = s.edge_dep) := by
  refine ⟨?_, ?_, ?_, ?_, ?_⟩
  · simp only [process_snapshot, display_block_frame, start_block_frame,
      enable_halt_block_frame]
    rw [(block_detectors sim false 0 _).2.2.2.1]
    simp only [dep_block_frame, exam_block_frame, load_block_frame]
  · simp only [process_snapshot, display_block_frame, start_block_frame]
    rw [(block_detectors sim sim.running 0 _).2.2.2.2.1]
    simp only [cont_block_frame, dep_block_frame, exam_block_frame, load_block_frame]
  · simp only [process_snapshot, display_block_frame]
    rw [(block_detectors sim false _ _).2.2.2.2.2]
    simp only [enable_halt_block_frame, cont_block_frame, dep_block_frame,
      exam_block_frame, load_block_frame]
  · intro hr
    simp only [process_snapshot, hr, display_block_frame, start_block_frame,
      enable_halt_block_frame, cont_block_frame, dep_block_frame, exam_block_frame]
    rw [(block_detectors sim false 0 _).1, (block_detectors sim false 0 _).2.1,
      (block_detectors sim false 0 _).2.2.1]
    simp only [exam_block_frame, load_block_frame, and_self]
  · intro hr
    obtain ⟨k1, k2, k3⟩ := halted_only_blocks_skip sim { s with registers_updated := false }
    simp only [process_snapshot, hr, display_block_frame, start_block_frame,
      enable_halt_block_frame, cont_block_frame, k1, k2, k3, and_self]

/-- The scan and decode part of a pass leaves the console detectors, the
console variables and the request log alone, sets the six console flags to
the levels read on their columns, and finds `registers_updated` set
exactly when a snapshot is pending. -/
theorem scanned_frame (inp : IterationInput) (s : Session) :
    ((scanned inp s).edge_load = s.edge_load ∧
      (scanned inp s).edge_exam = s.edge_exam ∧
      (scanned inp s).edge_dep = s.edge_dep ∧
      (scanned inp s).edge_cont = s.edge_cont ∧
      (scanned inp s).edge_enable_halt = s.edge_enable_halt ∧
      (scanned inp s).edge_start = s.edge_start) ∧
    ((scanned inp s).console_address = s.console_address ∧
      (scanned inp s).data_latched = s.data_latched ∧
      (scanned inp s).use_data_latched = s.use_data_latched ∧
      (scanned inp s).requests = s.requests) ∧
    ((scanned inp s).panel.flag_load_addr = inp.col_values 2 1 ∧
      (scanned inp s).panel.flag_exam = inp.col_values 2 2 ∧
      (scanned inp s).panel.flag_dep = inp.col_values 2 3 ∧
      (scanned inp s).panel.flag_cont = inp.col_values 2 4 ∧
      (scanned inp s).panel.flag_enable_halt = inp.col_values 2 5 ∧
      (scanned inp s).panel.flag_start = inp.col_values 2 7) ∧
    (scanned inp s).registers_updated = snapshot_pending inp s := by
  cases hsnap : inp.snapshot <;>
    simp [scanned, hsnap, snapshot_pending, deliver_snapshot,
      decode_state_rotary_switches, decode_state_switches, read_state_switches, cell]

/-- A pass that does not leave the loop ends in the snapshot step applied
to the scanned session when a snapshot is pending, and in the scanned
session otherwise. -/
theorem loop_iteration_continue (inp : IterationInput) (s : Session)
    (h : (loop_iteration inp s).result = none) :
    (loop_iteration inp s).session =
      if snapshot_pending inp s = true then (process_snapshot inp.sim (scanned inp s)).1
      else scanned inp s := by
  have hreg := (scanned_frame inp s).2.2.2
  rw [← hreg]
  unfold loop_iteration at h ⊢
  dsimp only at h ⊢
  split at h
  · simp at h
  · split at h
    · simp at h
    · rename_i h1 h2
      rw [if_neg h1, if_neg h2]
      dsimp only
      unfold scanned
      dsimp only
      split <;> rfl

/-- C22 fails as stated: in a pass without a pending snapshot in which the
LOAD ADDR flag is decoded false, the LOAD detector still stores true; and
in a pass that processes a snapshot while the simulator runs, likewise. -/
theorem detectors_skipped_without_snapshot_or_running :
    ((loop_iteration (pass_with_row2 none row2_load_low (Simulator.halted_ok 0))
        idle_no_snapshot).result = none ∧
      (loop_iteration (pass_with_row2 none row2_load_low (Simulator.halted_ok 0))
        idle_no_snapshot).session.panel.flag_load_addr = false ∧
      (loop_iteration (pass_with_row2 none row2_load_low (Simulator.halted_ok 0))
        idle_no_snapshot).session.edge_load.previous = true) ∧
    ((loop_iteration (pass_with_row2 (some Registers.sample) row2_load_low
        Simulator.running_ok) idle_no_snapshot).result = none ∧
      (loop_iteration (pass_with_row2 (some Registers.sample) row2_load_low
        Simulator.running_ok) idle_no_snapshot).session.panel.flag_load_addr = false ∧
      (loop_iteration (pass_with_row2 (some Registers.sample) row2_load_low
        Simulator.running_ok) idle_no_snapshot).session.edge_load.previous = true) := by
  decide

/-- C22 as amended: after a pass through the loop body that does not leave
the loop, if a snapshot was processed the CONT, ENABLE/HALT and START
detectors store the flags decoded in that pass, and so do the LOAD, EXAM
and DEP detectors when the simulator is halted, while with the simulator
running these three keep their stored value; if no snapshot was pending all
six detectors keep their stored value. -/
theorem console_detectors_after_pass (inp : IterationInput) (s : Session)
    (h : (loop_iteration inp s).result = none) :
    (snapshot_pending inp s = true →
      ((loop_iteration inp s).session.edge_cont.previous =
          (loop_iteration inp s).session.panel.flag_cont ∧
        (loop_iteration inp s).session.edge_enable_halt.previous =
          (loop_iteration inp s).session.panel.flag_enable_halt ∧
        (loop_iteration inp s).session.edge_start.previous =
          (loop_iteration inp s).session.panel.flag_start) ∧
      (inp.sim.running = false →
        (loop_iteration inp s).session.edge_load.previous =
          (loop_iteration inp s).session.panel.flag_load_addr ∧
        (loop_iteration inp s).session.edge_exam.previous =
          (loop_iteration inp s).session.panel.flag_exam ∧
        (loop_iteration inp s).session.edge_dep.previous =
          (loop_iteration inp s).session.panel.flag_dep) ∧
      (inp.sim.running = true →
        (loop_iteration inp s).session.edge_load = s.edge_load ∧
        (loop_iteration inp s).session.edge_exam = s.edge_exam ∧
        (loop_iteration inp s).session.edge_dep = s.edge_dep)) ∧
    (snapshot_pending inp s = false →
      (loop_iteration inp s).session.edge_load = s.edge_load ∧
      (loop_iteration inp s).session.edge_exam = s.edge_exam ∧
      (loop_iteration inp s).session.edge_dep = s.edge_dep ∧
      (loop_iteration inp s).session.edge_cont = s.edge_cont ∧
      (loop_iteration inp s).session.edge_enable_halt = s.edge_enable_halt ∧
      (loop_iteration inp s).session.edge_start = s.edge_start) := by
  have hses := loop_iteration_continue inp s h
  obtain ⟨⟨e1, e2, e3, e4, e5, e6⟩, _, _, _⟩ := scanned_frame inp s
  constructor
  · intro hp
    rw [hses, if_pos hp]
    obtain ⟨d1, d2, d3, d4, d5⟩ := process_snapshot_detectors inp.sim (scanned inp s)
    obtain ⟨f1, f2, f3, f4, f5, f6⟩ := process_snapshot_flags inp.sim (scanned inp s)
    refine ⟨⟨by rw [d1, f4], by rw [d2, f5], by rw [d3, f6]⟩, ?_, ?_⟩
    · intro hr
      obtain ⟨g1, g2, g3⟩ := d4 hr
      exact ⟨by rw [g1, f1], by rw [g2, f2], by rw [g3, f3]⟩
    · intro hr
      obtain ⟨g1, g2, g3⟩ := d5 hr
      exact ⟨by rw [g1, e1], by rw [g2, e2], by rw [g3, e3]⟩
  · intro hp
    rw [hses, if_neg (by simp [hp])]
    exact ⟨e1, e2, e3, e4, e5, e6⟩

/-- C22 as amended, at a halted pass that processes a snapshot with the
LOAD ADDR column low: the LOAD detector stores the decoded flag, false. -/
theorem console_detectors_after_pass_witness :
    (loop_iteration (pass_with_row2 (some Registers.sample) row2_load_low
      (Simulator.halted_ok 0)) idle_no_snapshot).session.edge_load.previous = false :=
  (((console_detectors_after_pass
    (pass_with_row2 (some Registers.sample) row2_load_low (Simulator.halted_ok 0))
    idle_no_snapshot (by decide)).1 (by decide)).2.1 rfl).1.trans (by decide)

/-! ## 22-bit bounds along a session -/

/-- A pass that leaves the loop has not touched the console variables or
the request log. -/
theorem loop_iteration_break (inp : IterationInput) (s : Session)
    (h : (loop_iteration inp s).result ≠ none) :
    (loop_iteration inp s).session.console_address = s.console_address ∧
    (loop_iteration inp s).session.data_latched = s.data_latched ∧
    (loop_iteration inp s).session.use_data_latched = s.use_data_latched ∧
    (loop_iteration inp s).session.requests = s.requests := by
  unfold loop_iteration at h ⊢
  dsimp only at h ⊢
  split
  · cases hsnap : inp.snapshot <;> simp [deliver_snapshot]
  · split
    · cases hsnap : inp.snapshot <;> simp [deliver_snapshot]
    · rename_i h1 h2
      rw [if_neg h1, if_neg h2] at h
      exact absurd rfl h

/-- One pass through the loop body keeps the console address below `2^22`. -/
theorem loop_iteration_console_lt (inp : IterationInput) (s : Session)
    (h : s.console_address < 2 ^ 22) :
    (loop_iteration inp s).session.console_address < 2 ^ 22 := by
  have hsc : (scanned inp s).console_address = s.console_address :=
    (scanned_frame inp s).2.1.1
  cases hres : (loop_iteration inp s).result with
  | some r =>
    rw [(loop_iteration_break inp s (by rw [hres]; simp)).1]
    exact h
  | none =>
    rw [loop_iteration_continue inp s hres]
    split
    · rw [(process_snapshot_console inp.sim (scanned inp s)).1]
      exact before_start_console_lt _ _ (by rw [hsc]; exact h)
    · rw [hsc]
      exact h

/-- Any number of passes keeps the console address below `2^22`. -/
theorem run_iterations_console_lt (inputs : List IterationInput) (s : Session)
    (h : s.console_address < 2 ^ 22) :
    (run_iterations inputs s).1.console_address < 2 ^ 22 := by
  induction inputs generalizing s with
  | nil => exact h
  | cons inp rest ih =>
    unfold run_iterations
    split
    · exact loop_iteration_console_lt inp s h
    · exact ih _ (loop_iteration_console_lt inp s h)

/-- The address selected for display is below `2^22` when the local `pc`
and the console address are. -/
theorem select_display_address_lt (r1_pos pc ca : Nat) (hpc : pc < 2 ^ 22)
    (hca : ca < 2 ^ 22) : select_display_address r1_pos pc ca < 2 ^ 22 := by
  unfold select_display_address
  split
  all_goals first
    | exact hpc
    | exact hca
    | (rw [and_MASK22]; exact Nat.mod_lt _ (by decide))

/-- After a snapshot step entered with the console address below `2^22`,
the displayed address is below `2^22`. -/
theorem process_snapshot_address_lt (sim : Simulator) (s : Session)
    (h : s.console_address < 2 ^ 22) :
    (process_snapshot sim s).1.panel.address < 2 ^ 22 := by
  obtain ⟨fa, _⟩ :=
    display_block_fields sim.running (console_actions sim s).1 (console_actions sim s).2
  have hca : (console_actions sim s).2.console_address < 2 ^ 22 := by
    have := (process_snapshot_console sim s).1
    rw [process_snapshot_eq, (display_block_frame _ _ _).2.2.2.2.2.2.2.2.2.1] at this
    rw [this]
    exact before_start_console_lt sim s h
  have hpc := (console_actions_pc sim s h).2
  rw [process_snapshot_eq, fa]
  split
  · exact hca
  · exact select_display_address_lt _ _ _ hpc hca

/-- C26: from the start of a session, for every sequence of passes (switch
readings, simulator answers, raw PC values of any size), the console
address is below `2^22` before and after every pass, and after every pass
that processes a snapshot the displayed address is below `2^22`. -/
theorem session_address_bounds (panel : PanelState) (inputs : List IterationInput) :
    (run_iterations inputs (Session.start panel)).1.console_address < 2 ^ 22 ∧
    (∀ inp : IterationInput,
      (loop_iteration inp
        (run_iterations inputs (Session.start panel)).1).session.console_address
          < 2 ^ 22) ∧
    (∀ inp : IterationInput,
      (loop_iteration inp (run_iterations inputs (Session.start panel)).1).result = none →
      snapshot_pending inp (run_iterations inputs (Session.start panel)).1 = true →
      (loop_iteration inp
        (run_iterations inputs (Session.start panel)).1).session.panel.address
          < 2 ^ 22) := by
  have h0 : (Session.start panel).console_address < 2 ^ 22 := by
    simp [Session.start]
  have hreach := run_iterations_console_lt inputs (Session.start panel) h0
  refine ⟨hreach, fun inp => loop_iteration_console_lt inp _ hreach, ?_⟩
  intro inp hres hpend
  rw [loop_iteration_continue inp _ hres, if_pos hpend]
  apply process_snapshot_address_lt
  rw [(scanned_frame inp _).2.1.1]
  exact hreach

/-- C26 after one halted pass with the LOAD ADDR column low, at a pass in
which the simulator runs and the raw PC register has all 32 bits set: the
displayed address is below `2^22`. -/
theorem session_address_bounds_witness :
    (loop_iteration (pass_with_row2 (some Registers.wide_pc) row2_all_high
      Simulator.running_ok)
      (run_iterations [pass_with_row2 none row2_load_low (Simulator.halted_ok 0)]
        (Session.start PanelState.zero)).1).session.panel.address < 2 ^ 22 :=
  (session_address_bounds PanelState.zero
    [pass_with_row2 none row2_load_low (Simulator.halted_ok 0)]).2.2
    (pass_with_row2 (some Registers.wide_pc) row2_all_high Simulator.running_ok)
    (by decide) (by decide)

/-! ## Consumed edges -/

/-- A log extends itself. -/
theorem extends_with_refl (allowed : SimRequest → Bool) (l : List SimRequest) :
    extends_with allowed l l :=
  ⟨[], by simp, by simp⟩

/-- Extensions compose. -/
theorem extends_with_trans (allowed : SimRequest → Bool) (a b c : List SimRequest)
    (h1 : extends_with allowed a b) (h2 : extends_with allowed b c) :
    extends_with allowed a c := by
  obtain ⟨x, rfl, hx⟩ := h1
  obtain ⟨y, rfl, hy⟩ := h2
  refine ⟨x ++ y, by simp, ?_⟩
  intro q hq
  rcases List.mem_append.mp hq with h | h
  · exact hx q h
  · exact hy q h

/-- An extension by an explicit list of allowed requests. -/
theorem extends_with_of_eq (allowed : SimRequest → Bool) (old new extra : List SimRequest)
    (h : new = old ++ extra) (hall : ∀ q ∈ extra, allowed q = true) :
    extends_with allowed old new :=
  ⟨extra, h, hall⟩

/-- The CONT, ENABLE/HALT and START blocks append neither examine nor
deposit requests. -/
theorem late_blocks_requests (sim : Simulator) (r : Bool) (pc : Nat) (t : Session) :
    extends_with (fun q => !q.is_examine && !q.is_deposit) t.requests
      (cont_block t).requests ∧
    extends_with (fun q => !q.is_examine && !q.is_deposit) t.requests
      (enable_halt_block r t).requests ∧
    extends_with (fun q => !q.is_examine && !q.is_deposit) t.requests
      (start_block sim pc t).2.requests := by
  refine ⟨?_, ?_, ?_⟩
  · unfold cont_block
    dsimp only
    split
    · exact ⟨[SimRequest.exec_step], rfl, by simp [SimRequest.is_examine,
        SimRequest.is_deposit]⟩
    · exact extends_with_refl _ _
  · rw [(enable_halt_block_outcome r t).1]
    refine ⟨_, rfl, ?_⟩
    intro q hq
    split at hq
    · split at hq
      · simp at hq; subst hq; rfl
      · simp at hq
    · split at hq
      · simp at hq; subst hq; rfl
      · simp at hq
  · rw [(start_block_outcome sim pc t).2.2]
    refine ⟨_, rfl, ?_⟩
    intro q hq
    split at hq
    · split at hq
      · simp at hq
        rcases hq with rfl | rfl <;> rfl
      · simp at hq; subst hq; rfl
    · simp at hq

/-- Weakening the condition on the appended requests. -/
theorem extends_with_mono (p q : SimRequest → Bool) (a b : List SimRequest)
    (hpq : ∀ x, p x = true → q x = true) (h : extends_with p a b) :
    extends_with q a b := by
  obtain ⟨x, hx, hall⟩ := h
  exact ⟨x, hx, fun y hy => hpq y (hall y hy)⟩

/-- The EXAM block appends no deposit request and the DEP block no examine
request. -/
theorem halted_blocks_requests (sim : Simulator) (r : Bool) (t : Session) :
    extends_with (fun q => !q.is_deposit) t.requests (exam_block sim r t).requests ∧
    extends_with (fun q => !q.is_examine) t.requests (dep_block sim r t).requests := by
  constructor
  · unfold exam_block
    dsimp only
    split
    · exact extends_with_refl _ _
    · split
      · split
        · exact ⟨[SimRequest.mem_examine t.console_address], rfl, by
            simp [SimRequest.is_deposit]⟩
        · exact ⟨[SimRequest.mem_examine t.console_address], rfl, by
            simp [SimRequest.is_deposit]⟩
      · exact extends_with_refl _ _
  · unfold dep_block
    dsimp only
    split
    · exact extends_with_refl _ _
    · split
      · split
        · exact ⟨[SimRequest.mem_deposit t.console_address
            (t.panel.switch_state &&& 65535)], rfl, by simp [SimRequest.is_examine]⟩
        · exact ⟨[SimRequest.mem_deposit t.console_address
            (t.panel.switch_state &&& 65535)], rfl, by simp [SimRequest.is_examine]⟩
      · exact extends_with_refl _ _

/-- A LOAD ADDR, EXAM or DEP block whose detector does not fire leaves the
console variables and the request log alone, in either run state. -/
theorem halted_blocks_quiet (sim : Simulator) (r : Bool) (t : Session) :
    ((t.edge_load.falling t.panel.flag_load_addr).1 = false →
      (load_block r t).console_address = t.console_address ∧
      (load_block r t).use_data_latched = t.use_data_latched) ∧
    ((t.edge_exam.falling t.panel.flag_exam).1 = false →
      (exam_block sim r t).console_address = t.console_address ∧
      (exam_block sim r t).data_latched = t.data_latched ∧
      (exam_block sim r t).use_data_latched = t.use_data_latched ∧
      (exam_block sim r t).requests = t.requests) ∧
    ((t.edge_dep.falling t.panel.flag_dep).1 = false →
      (dep_block sim r t).console_address = t.console_address ∧
      (dep_block sim r t).data_latched = t.data_latched ∧
      (dep_block sim r t).use_data_latched = t.use_data_latched ∧
      (dep_block sim r t).requests = t.requests) := by
  refine ⟨?_, ?_, ?_⟩
  · intro h
    cases r <;> simp [load_block, h]
  · intro h
    cases r <;> simp [exam_block, h]
  · intro h
    cases r <;> simp [dep_block, h]

/-- A block issues an examine or a deposit request only when the simulator
is halted and its detector sees a falling edge: the stored value is true
and the flag is false. -/
theorem request_needs_falling_edge (sim : Simulator) (r : Bool) (t : Session) :
    ((exam_block sim r t).requests ≠ t.requests →
      r = false ∧ t.edge_exam.previous = true ∧ t.panel.flag_exam = false) ∧
    ((dep_block sim r t).requests ≠ t.requests →
      r = false ∧ t.edge_dep.previous = true ∧ t.panel.flag_dep = false) := by
  constructor
  · intro h
    cases r
    · cases hp : t.edge_exam.previous <;> cases hf : t.panel.flag_exam <;>
        simp_all [exam_block, Edge.falling]
    · exact absurd rfl h
  · intro h
    cases r
    · cases hp : t.edge_dep.previous <;> cases hf : t.panel.flag_dep <;>
        simp_all [dep_block, Edge.falling]
    · exact absurd rfl h


/-- A detector whose stored value is true only if the flag is true reports
no falling edge. -/
theorem falling_quiet (e : Edge) (c : Bool) (h : e.previous = true → c = true) :
    (e.falling c).1 = false := by
  cases hp : e.previous <;> cases c <;> simp_all [Edge.falling]

/-- A detector whose stored value is true whenever the flag is true reports
no rising edge. -/
theorem rising_quiet (e : Edge) (c : Bool) (h : c = true → e.previous = true) :
    (e.rising c).1 = false := by
  cases hp : e.previous <;> cases c <;> simp_all [Edge.rising]

/-- From the CONT block to the end of a snapshot step neither an examine
nor a deposit request is appended. -/
theorem late_chain_requests (sim : Simulator) (s : Session) :
    extends_with (fun q => !q.is_examine && !q.is_deposit) (after_dep sim s).requests
      (process_snapshot sim s).1.requests := by
  rw [(process_snapshot_console sim s).2.2.2.2.2]
  have k1 := (late_blocks_requests sim sim.running (s.reg_pc &&& MASK22)
    (after_dep sim s)).1
  have k2 := (late_blocks_requests sim sim.running (s.reg_pc &&& MASK22)
    (before_enable_halt sim s)).2.1
  have k3 := (late_blocks_requests sim sim.running (s.reg_pc &&& MASK22)
    (before_start sim s)).2.2
  exact extends_with_trans _ _ _ _ k1 (extends_with_trans _ _ _ _ k2 k3)

/-- Unless the ENABLE/HALT flag is true with its detector storing false,
from the CONT block to the end of a snapshot step the console variables are
not written. -/
theorem late_chain_console (sim : Simulator) (s : Session)
    (henable : s.panel.flag_enable_halt = true → s.edge_enable_halt.previous = true) :
    (process_snapshot sim s).1.console_address = (after_dep sim s).console_address ∧
    (process_snapshot sim s).1.data_latched = (after_dep sim s).data_latched ∧
    (process_snapshot sim s).1.use_data_latched = (after_dep sim s).use_data_latched := by
  obtain ⟨c1, c2, c3, _⟩ := process_snapshot_console sim s
  have v5 := (enable_halt_block_outcome sim.running (before_enable_halt sim s)).2
  have hrise : ¬ (sim.running = false ∧
      ((before_enable_halt sim s).edge_enable_halt.rising
        (before_enable_halt sim s).panel.flag_enable_halt).1 = true) := by
    obtain ⟨_, _, _, _, _, _, hp, he⟩ := console_actions_frame sim s
    rw [hp, he]
    intro hfire
    have hq := rising_quiet s.edge_enable_halt s.panel.flag_enable_halt henable
    rw [hq] at hfire
    exact absurd hfire.2 Bool.false_ne_true
  rw [if_neg hrise] at v5
  rw [c1, c2, c3]
  unfold before_start
  rw [v5]
  simp only [enable_halt_block_frame]
  unfold before_enable_halt
  simp only [cont_block_frame]
  exact ⟨rfl, rfl, rfl⟩

/-- The panel and the EXAM and DEP detectors on reaching the EXAM block and
the DEP block are as the step found them, the EXAM detector apart once the
EXAM block has run. -/
theorem halted_chain_frame (sim : Simulator) (s : Session) :
    (after_load sim s).panel = s.panel ∧
    (after_load sim s).edge_exam = s.edge_exam ∧
    (after_load sim s).requests = s.requests ∧
    (after_load sim s).data_latched = s.data_latched ∧
    (exam_block sim sim.running (after_load sim s)).panel = s.panel ∧
    (exam_block sim sim.running (after_load sim s)).edge_dep = s.edge_dep := by
  simp only [after_load, exam_block_frame, load_block_frame, and_self]

/-- A snapshot step entered with the EXAM detector storing false and the
EXAM flag false leaves the detector at false and appends no examine
request; if moreover the LOAD ADDR and DEP flags are released and
ENABLE/HALT is low, the console variables are unchanged. -/
theorem exam_consumed_step (sim : Simulator) (s : Session)
    (hprev : s.edge_exam.previous = false) (hflag : s.panel.flag_exam = false) :
    (process_snapshot sim s).1.edge_exam.previous = false ∧
    extends_with (fun q => !q.is_examine) s.requests (process_snapshot sim s).1.requests ∧
    (s.panel.flag_load_addr = true → s.panel.flag_dep = true →
      s.panel.flag_enable_halt = false →
      (process_snapshot sim s).1.console_address = s.console_address ∧
      (process_snapshot sim s).1.data_latched = s.data_latched ∧
      (process_snapshot sim s).1.use_data_latched = s.use_data_latched) := by
  obtain ⟨_, _, _, d4, d5⟩ := process_snapshot_detectors sim s
  obtain ⟨f1, f2, f3, f4, f5, f6⟩ := halted_chain_frame sim s
  have hq : ((after_load sim s).edge_exam.falling (after_load sim s).panel.flag_exam).1
      = false := by
    rw [f1, f2]
    simp [Edge.falling, hflag, hprev]
  have v2 := (halted_blocks_quiet sim sim.running (after_load sim s)).2.1 hq
  refine ⟨?_, ?_, ?_⟩
  · cases hr : sim.running
    · rw [(d4 hr).2.1]
      exact hflag
    · rw [(d5 hr).2.1]
      exact hprev
  · have q3 := (halted_blocks_requests sim sim.running
      (exam_block sim sim.running (after_load sim s))).2
    rw [v2.2.2.2, f3] at q3
    refine extends_with_trans _ _ _ _ q3 ?_
    apply extends_with_mono _ _ _ _ _ (late_chain_requests sim s)
    intro x hx
    simp only [Bool.and_eq_true] at hx
    exact hx.1
  · intro hload hdep henable
    obtain ⟨l1, l2, l3⟩ := late_chain_console sim s
      (fun h => absurd (henable.symm.trans h) Bool.false_ne_true)
    have hl : (({ s with registers_updated := false } : Session).edge_load.falling
        ({ s with registers_updated := false } : Session).panel.flag_load_addr).1
        = false := by
      simp [Edge.falling, hload]
    have v1 := (halted_blocks_quiet sim sim.running
      { s with registers_updated := false }).1 hl
    have hd : ((exam_block sim sim.running (after_load sim s)).edge_dep.falling
        (exam_block sim sim.running (after_load sim s)).panel.flag_dep).1 = false := by
      rw [f5]
      simp [Edge.falling, hdep]
    have v3 := (halted_blocks_quiet sim sim.running
      (exam_block sim sim.running (after_load sim s))).2.2 hd
    rw [l1, l2, l3]
    unfold after_dep
    rw [v3.1, v3.2.1, v3.2.2.1, v2.1, v2.2.1, v2.2.2.1, f4]
    exact ⟨v1.1, rfl, v1.2⟩

/-- A snapshot step entered with the DEP detector storing false and the DEP
flag false leaves the detector at false and appends no deposit request; if
moreover the LOAD ADDR and EXAM flags are released and ENABLE/HALT is low,
the console variables are unchanged. -/
theorem dep_consumed_step (sim : Simulator) (s : Session)
    (hprev : s.edge_dep.previous = false) (hflag : s.panel.flag_dep = false) :
    (process_snapshot sim s).1.edge_dep.previous = false ∧
    extends_with (fun q => !q.is_deposit) s.requests (process_snapshot sim s).1.requests ∧
    (s.panel.flag_load_addr = true → s.panel.flag_exam = true →
      s.panel.flag_enable_halt = false →
      (process_snapshot sim s).1.console_address = s.console_address ∧
      (process_snapshot sim s).1.data_latched = s.data_latched ∧
      (process_snapshot sim s).1.use_data_latched = s.use_data_latched) := by
  obtain ⟨_, _, _, d4, d5⟩ := process_snapshot_detectors sim s
  obtain ⟨f1, f2, f3, f4, f5, f6⟩ := halted_chain_frame sim s
  have hd : ((exam_block sim sim.running (after_load sim s)).edge_dep.falling
      (exam_block sim sim.running (after_load sim s)).panel.flag_dep).1 = false := by
    rw [f5, f6]
    simp [Edge.falling, hflag, hprev]
  have v3 := (halted_blocks_quiet sim sim.running
    (exam_block sim sim.running (after_load sim s))).2.2 hd
  refine ⟨?_, ?_, ?_⟩
  · cases hr : sim.running
    · rw [(d4 hr).2.2]
      exact hflag
    · rw [(d5 hr).2.2]
      exact hprev
  · have q2 := (halted_blocks_requests sim sim.running (after_load sim s)).1
    rw [f3, ← v3.2.2.2] at q2
    refine extends_with_trans _ _ _ _ q2 ?_
    apply extends_with_mono _ _ _ _ _ (late_chain_requests sim s)
    intro x hx
    simp only [Bool.and_eq_true] at hx
    exact hx.2
  · intro hload hexam henable
    obtain ⟨l1, l2, l3⟩ := late_chain_console sim s
      (fun h => absurd (henable.symm.trans h) Bool.false_ne_true)
    have hl : (({ s with registers_updated := false } : Session).edge_load.falling
        ({ s with registers_updated := false } : Session).panel.flag_load_addr).1
        = false := by
      simp [Edge.falling, hload]
    have v1 := (halted_blocks_quiet sim sim.running
      { s with registers_updated := false }).1 hl
    have hq : ((after_load sim s).edge_exam.falling (after_load sim s).panel.flag_exam).1
        = false := by
      rw [f1]
      simp [Edge.falling, hexam]
    have v2 := (halted_blocks_quiet sim sim.running (after_load sim s)).2.1 hq
    rw [l1, l2, l3]
    unfold after_dep
    rw [v3.1, v3.2.1, v3.2.2.1, v2.1, v2.2.1, v2.2.2.1, f4]
    exact ⟨v1.1, rfl, v1.2⟩

/-- A pass that leaves the loop has not called the EXAM, DEP, LOAD ADDR or
ENABLE/HALT detector. -/
theorem loop_iteration_break_detectors (inp : IterationInput) (s : Session)
    (h : (loop_iteration inp s).result ≠ none) :
    (loop_iteration inp s).session.edge_exam = s.edge_exam ∧
    (loop_iteration inp s).session.edge_dep = s.edge_dep ∧
    (loop_iteration inp s).session.edge_load = s.edge_load ∧
    (loop_iteration inp s).session.edge_enable_halt = s.edge_enable_halt := by
  unfold loop_iteration at h ⊢
  dsimp only at h ⊢
  split
  · cases hsnap : inp.snapshot <;> simp [deliver_snapshot]
  · split
    · cases hsnap : inp.snapshot <;> simp [deliver_snapshot]
    · rename_i h1 h2
      rw [if_neg h1, if_neg h2] at h
      exact absurd rfl h

/-- One pass through the loop body entered with the EXAM detector storing
false, in which the EXAM column reads low: the detector still stores false
and no examine request is appended; if moreover the LOAD ADDR and DEP
columns read high and the ENABLE/HALT column low, the console variables
are unchanged. -/
theorem exam_consumed_pass (inp : IterationInput) (s : Session)
    (hprev : s.edge_exam.previous = false) (hcol : inp.col_values 2 2 = false) :
    (loop_iteration inp s).session.edge_exam.previous = false ∧
    extends_with (fun q => !q.is_examine) s.requests
      (loop_iteration inp s).session.requests ∧
    (inp.col_values 2 1 = true → inp.col_values 2 3 = true →
      inp.col_values 2 5 = false →
      (loop_iteration inp s).session.console_address = s.console_address ∧
      (loop_iteration inp s).session.data_latched = s.data_latched ∧
      (loop_iteration inp s).session.use_data_latched = s.use_data_latched) := by
  obtain ⟨⟨_, e2, e3, _, _, _⟩, ⟨c1, c2, c3, c4⟩, ⟨g1, g2, g3, _, g5, _⟩, _⟩ :=
    scanned_frame inp s
  cases hres : (loop_iteration inp s).result with
  | some r =>
    have hne : (loop_iteration inp s).result ≠ none := by rw [hres]; simp
    obtain ⟨b1, b2, b3, b4⟩ := loop_iteration_break inp s hne
    obtain ⟨b5, b6, _, _⟩ := loop_iteration_break_detectors inp s hne
    rw [b1, b2, b3, b4, b5]
    exact ⟨hprev, extends_with_refl _ _, fun _ _ _ => ⟨rfl, rfl, rfl⟩⟩
  | none =>
    rw [loop_iteration_continue inp s hres]
    split
    · obtain ⟨k1, k2, k3⟩ := exam_consumed_step inp.sim (scanned inp s)
        (by rw [e2]; exact hprev) (by rw [g2]; exact hcol)
      rw [c4] at k2
      refine ⟨k1, k2, ?_⟩
      intro h1 h3 h5
      have := k3 (by rw [g1]; exact h1) (by rw [g3]; exact h3) (by rw [g5]; exact h5)
      rw [c1, c2, c3] at this
      exact this
    · rw [e2, c1, c2, c3, c4]
      exact ⟨hprev, extends_with_refl _ _, fun _ _ _ => ⟨rfl, rfl, rfl⟩⟩

/-- Any number of passes entered with the EXAM detector storing false, in
all of which the EXAM column reads low: the detector still stores false and
no examine request has been appended; if moreover in all of them the LOAD
ADDR and DEP columns read high and the ENABLE/HALT column low, the console
variables are unchanged. -/
theorem exam_consumed_run (inputs : List IterationInput) (s : Session)
    (hprev : s.edge_exam.previous = false)
    (hcol : ∀ inp ∈ inputs, inp.col_values 2 2 = false) :
    (run_iterations inputs s).1.edge_exam.previous = false ∧
    extends_with (fun q => !q.is_examine) s.requests (run_iterations inputs s).1.requests ∧
    ((∀ inp ∈ inputs, inp.col_values 2 1 = true ∧ inp.col_values 2 3 = true ∧
        inp.col_values 2 5 = false) →
      (run_iterations inputs s).1.console_address = s.console_address ∧
      (run_iterations inputs s).1.data_latched = s.data_latched ∧
      (run_iterations inputs s).1.use_data_latched = s.use_data_latched) := by
  induction inputs generalizing s with
  | nil => exact ⟨hprev, extends_with_refl _ _, fun _ => ⟨rfl, rfl, rfl⟩⟩
  | cons inp rest ih =>
    obtain ⟨p1, p2, p3⟩ := exam_consumed_pass inp s hprev
      (hcol inp (List.mem_cons_self _ _))
    unfold run_iterations
    split
    · refine ⟨p1, p2, fun hq => ?_⟩
      obtain ⟨q1, q3, q5⟩ := hq inp (List.mem_cons_self _ _)
      exact p3 q1 q3 q5
    · obtain ⟨i1, i2, i3⟩ := ih (loop_iteration inp s).session p1
        (fun x hx => hcol x (List.mem_cons_of_mem _ hx))
      refine ⟨i1, extends_with_trans _ _ _ _ p2 i2, fun hq => ?_⟩
      obtain ⟨q1, q3, q5⟩ := hq inp (List.mem_cons_self _ _)
      obtain ⟨r1, r2, r3⟩ := p3 q1 q3 q5
      obtain ⟨j1, j2, j3⟩ := i3 (fun x hx => hq x (List.mem_cons_of_mem _ hx))
      exact ⟨j1.trans r1, j2.trans r2, j3.trans r3⟩

/-- One pass through the loop body entered with the DEP detector storing
false, in which the DEP column reads low: the detector still stores false
and no deposit request is appended; if moreover the LOAD ADDR and EXAM
columns read high and the ENABLE/HALT column low, the console variables
are unchanged. -/
theorem dep_consumed_pass (inp : IterationInput) (s : Session)
    (hprev : s.edge_dep.previous = false) (hcol : inp.col_values 2 3 = false) :
    (loop_iteration inp s).session.edge_dep.previous = false ∧
    extends_with (fun q => !q.is_deposit) s.requests
      (loop_iteration inp s).session.requests ∧
    (inp.col_values 2 1 = true → inp.col_values 2 2 = true →
      inp.col_values 2 5 = false →
      (loop_iteration inp s).session.console_address = s.console_address ∧
      (loop_iteration inp s).session.data_latched = s.data_latched ∧
      (loop_iteration inp s).session.use_data_latched = s.use_data_latched) := by
  obtain ⟨⟨_, e2, e3, _, _, _⟩, ⟨c1, c2, c3, c4⟩, ⟨g1, g2, g3, _, g5, _⟩, _⟩ :=
    scanned_frame inp s
  cases hres : (loop_iteration inp s).result with
  | some r =>
    have hne : (loop_iteration inp s).result ≠ none := by rw [hres]; simp
    obtain ⟨b1, b2, b3, b4⟩ := loop_iteration_break inp s hne
    obtain ⟨b5, b6, _, _⟩ := loop_iteration_break_detectors inp s hne
    rw [b1, b2, b3, b4, b6]
    exact ⟨hprev, extends_with_refl _ _, fun _ _ _ => ⟨rfl, rfl, rfl⟩⟩
  | none =>
    rw [loop_iteration_continue inp s hres]
    split
    · obtain ⟨k1, k2, k3⟩ := dep_consumed_step inp.sim (scanned inp s)
        (by rw [e3]; exact hprev) (by rw [g3]; exact hcol)
      rw [c4] at k2
      refine ⟨k1, k2, ?_⟩
      intro h1 h3 h5
      have := k3 (by rw [g1]; exact h1) (by rw [g2]; exact h3) (by rw [g5]; exact h5)
      rw [c1, c2, c3] at this
      exact this
    · rw [e3, c1, c2, c3, c4]
      exact ⟨hprev, extends_with_refl _ _, fun _ _ _ => ⟨rfl, rfl, rfl⟩⟩

/-- Any number of passes entered with the DEP detector storing false, in
all of which the DEP column reads low: the detector still stores false and
no deposit request has been appended; if moreover in all of them the LOAD
ADDR and EXAM columns read high and the ENABLE/HALT column low, the console
variables are unchanged. -/
theorem dep_consumed_run (inputs : List IterationInput) (s : Session)
    (hprev : s.edge_dep.previous = false)
    (hcol : ∀ inp ∈ inputs, inp.col_values 2 3 = false) :
    (run_iterations inputs s).1.edge_dep.previous = false ∧
    extends_with (fun q => !q.is_deposit) s.requests (run_iterations inputs s).1.requests ∧
    ((∀ inp ∈ inputs, inp.col_values 2 1 = true ∧ inp.col_values 2 2 = true ∧
        inp.col_values 2 5 = false) →
      (run_iterations inputs s).1.console_address = s.console_address ∧
      (run_iterations inputs s).1.data_latched = s.data_latched ∧
      (run_iterations inputs s).1.use_data_latched = s.use_data_latched) := by
  induction inputs generalizing s with
  | nil => exact ⟨hprev, extends_with_refl _ _, fun _ => ⟨rfl, rfl, rfl⟩⟩
  | cons inp rest ih =>
    obtain ⟨p1, p2, p3⟩ := dep_consumed_pass inp s hprev
      (hcol inp (List.mem_cons_self _ _))
    unfold run_iterations
    split
    · refine ⟨p1, p2, fun hq => ?_⟩
      obtain ⟨q1, q3, q5⟩ := hq inp (List.mem_cons_self _ _)
      exact p3 q1 q3 q5
    · obtain ⟨i1, i2, i3⟩ := ih (loop_iteration inp s).session p1
        (fun x hx => hcol x (List.mem_cons_of_mem _ hx))
      refine ⟨i1, extends_with_trans _ _ _ _ p2 i2, fun hq => ?_⟩
      obtain ⟨q1, q3, q5⟩ := hq inp (List.mem_cons_self _ _)
      obtain ⟨r1, r2, r3⟩ := p3 q1 q3 q5
      obtain ⟨j1, j2, j3⟩ := i3 (fun x hx => hq x (List.mem_cons_of_mem _ hx))
      exact ⟨j1.trans r1, j2.trans r2, j3.trans r3⟩

/-- A snapshot step in which none of the LOAD ADDR, EXAM and DEP detectors
can report a falling edge and the ENABLE/HALT detector cannot report a
rising edge leaves the three console variables as they were. -/
theorem quiet_step (sim : Simulator) (s : Session)
    (hload : s.edge_load.previous = true → s.panel.flag_load_addr = true)
    (hexam : s.edge_exam.previous = true → s.panel.flag_exam = true)
    (hdep : s.edge_dep.previous = true → s.panel.flag_dep = true)
    (henable : s.panel.flag_enable_halt = true → s.edge_enable_halt.previous = true) :
    (process_snapshot sim s).1.console_address = s.console_address ∧
    (process_snapshot sim s).1.data_latched = s.data_latched ∧
    (process_snapshot sim s).1.use_data_latched = s.use_data_latched := by
  obtain ⟨f1, f2, f3, f4, f5, f6⟩ := halted_chain_frame sim s
  obtain ⟨l1, l2, l3⟩ := late_chain_console sim s henable
  have hl : (({ s with registers_updated := false } : Session).edge_load.falling
      ({ s with registers_updated := false } : Session).panel.flag_load_addr).1
      = false := falling_quiet s.edge_load s.panel.flag_load_addr hload
  have v1 := (halted_blocks_quiet sim sim.running
    { s with registers_updated := false }).1 hl
  have hq : ((after_load sim s).edge_exam.falling (after_load sim s).panel.flag_exam).1
      = false := by
    rw [f1, f2]
    exact falling_quiet _ _ hexam
  have v2 := (halted_blocks_quiet sim sim.running (after_load sim s)).2.1 hq
  have hd : ((exam_block sim sim.running (after_load sim s)).edge_dep.falling
      (exam_block sim sim.running (after_load sim s)).panel.flag_dep).1 = false := by
    rw [f5, f6]
    exact falling_quiet _ _ hdep
  have v3 := (halted_blocks_quiet sim sim.running
    (exam_block sim sim.running (after_load sim s))).2.2 hd
  rw [l1, l2, l3]
  unfold after_dep
  rw [v3.1, v3.2.1, v3.2.2.1, v2.1, v2.2.1, v2.2.2.1, f4]
  exact ⟨v1.1, rfl, v1.2⟩

/-- One pass through the loop body in which the LOAD ADDR, EXAM and DEP
columns read high whenever their detector stores true, and the ENABLE/HALT
detector stores true whenever its column reads high, leaves the three
console variables as they were. -/
theorem quiet_pass (inp : IterationInput) (s : Session)
    (hload : s.edge_load.previous = true → inp.col_values 2 1 = true)
    (hexam : s.edge_exam.previous = true → inp.col_values 2 2 = true)
    (hdep : s.edge_dep.previous = true → inp.col_values 2 3 = true)
    (henable : inp.col_values 2 5 = true → s.edge_enable_halt.previous = true) :
    (loop_iteration inp s).session.console_address = s.console_address ∧
    (loop_iteration inp s).session.data_latched = s.data_latched ∧
    (loop_iteration inp s).session.use_data_latched = s.use_data_latched := by
  obtain ⟨⟨e1, e2, e3, _, e5, _⟩, ⟨c1, c2, c3, c4⟩, ⟨g1, g2, g3, _, g5, _⟩, _⟩ :=
    scanned_frame inp s
  cases hres : (loop_iteration inp s).result with
  | some r =>
    have hne : (loop_iteration inp s).result ≠ none := by rw [hres]; simp
    obtain ⟨b1, b2, b3, _⟩ := loop_iteration_break inp s hne
    exact ⟨b1, b2, b3⟩
  | none =>
    rw [loop_iteration_continue inp s hres]
    split
    · have := quiet_step inp.sim (scanned inp s)
        (by rw [e1, g1]; exact hload) (by rw [e2, g2]; exact hexam)
        (by rw [e3, g3]; exact hdep) (by rw [e5, g5]; exact henable)
      rw [c1, c2, c3] at this
      exact this
    · exact ⟨c1, c2, c3⟩

/-- After one pass through the loop body each of the LOAD ADDR, EXAM, DEP
and ENABLE/HALT detectors stores either what it stored before or the level
read on its column in this pass. -/
theorem pass_detectors (inp : IterationInput) (s : Session) :
    ((loop_iteration inp s).session.edge_load.previous = s.edge_load.previous ∨
      (loop_iteration inp s).session.edge_load.previous = inp.col_values 2 1) ∧
    ((loop_iteration inp s).session.edge_exam.previous = s.edge_exam.previous ∨
      (loop_iteration inp s).session.edge_exam.previous = inp.col_values 2 2) ∧
    ((loop_iteration inp s).session.edge_dep.previous = s.edge_dep.previous ∨
      (loop_iteration inp s).session.edge_dep.previous = inp.col_values 2 3) ∧
    ((loop_iteration inp s).session.edge_enable_halt.previous =
        s.edge_enable_halt.previous ∨
      (loop_iteration inp s).session.edge_enable_halt.previous = inp.col_values 2 5) := by
  obtain ⟨⟨e1, e2, e3, _, e5, _⟩, _, ⟨g1, g2, g3, _, g5, _⟩, _⟩ := scanned_frame inp s
  cases hres : (loop_iteration inp s).result with
  | some r =>
    have hne : (loop_iteration inp s).result ≠ none := by rw [hres]; simp
    obtain ⟨b1, b2, b3, b4⟩ := loop_iteration_break_detectors inp s hne
    rw [b1, b2, b3, b4]
    exact ⟨Or.inl rfl, Or.inl rfl, Or.inl rfl, Or.inl rfl⟩
  | none =>
    rw [loop_iteration_continue inp s hres]
    split
    · obtain ⟨_, d2, _, d4, d5⟩ := process_snapshot_detectors inp.sim (scanned inp s)
      have henable : (process_snapshot inp.sim (scanned inp s)).1.edge_enable_halt.previous
          = inp.col_values 2 5 := by rw [d2, g5]
      cases hr : inp.sim.running
      · obtain ⟨k1, k2, k3⟩ := d4 hr
        exact ⟨Or.inr (by rw [k1, g1]), Or.inr (by rw [k2, g2]), Or.inr (by rw [k3, g3]),
          Or.inr henable⟩
      · obtain ⟨k1, k2, k3⟩ := d5 hr
        exact ⟨Or.inl (by rw [k1, e1]), Or.inl (by rw [k2, e2]), Or.inl (by rw [k3, e3]),
          Or.inr henable⟩
    · rw [e1, e2, e3, e5]
      exact ⟨Or.inl rfl, Or.inl rfl, Or.inl rfl, Or.inl rfl⟩

/-- Any number of passes over which the LOAD ADDR, EXAM and DEP columns
never go from high to low and the ENABLE/HALT column never goes from low to
high, counted from levels `l`, `x`, `d`, `e` that bound what the four
detectors store, leaves the three console variables as they were. -/
theorem quiet_run (inputs : List IterationInput) (s : Session) (l x d e : Bool)
    (h1 : s.edge_load.previous = true → l = true)
    (h2 : s.edge_exam.previous = true → x = true)
    (h3 : s.edge_dep.previous = true → d = true)
    (h4 : e = true → s.edge_enable_halt.previous = true)
    (c1 : never_falls l (row2_levels 1 inputs) = true)
    (c2 : never_falls x (row2_levels 2 inputs) = true)
    (c3 : never_falls d (row2_levels 3 inputs) = true)
    (c4 : never_rises e (row2_levels 5 inputs) = true) :
    (run_iterations inputs s).1.console_address = s.console_address ∧
    (run_iterations inputs s).1.data_latched = s.data_latched ∧
    (run_iterations inputs s).1.use_data_latched = s.use_data_latched := by
  induction inputs generalizing s l x d e with
  | nil => exact ⟨rfl, rfl, rfl⟩
  | cons inp rest ih =>
    simp only [row2_levels, List.map_cons, never_falls, never_rises, Bool.and_eq_true,
      Bool.or_eq_true, Bool.not_eq_true'] at c1 c2 c3 c4
    have q1 : s.edge_load.previous = true → inp.col_values 2 1 = true := fun h =>
      c1.1.resolve_left (by rw [h1 h]; simp)
    have q2 : s.edge_exam.previous = true → inp.col_values 2 2 = true := fun h =>
      c2.1.resolve_left (by rw [h2 h]; simp)
    have q3 : s.edge_dep.previous = true → inp.col_values 2 3 = true := fun h =>
      c3.1.resolve_left (by rw [h3 h]; simp)
    have q4 : inp.col_values 2 5 = true → s.edge_enable_halt.previous = true := fun h =>
      h4 (c4.1.resolve_right (by rw [h]; simp))
    obtain ⟨p1, p2, p3⟩ := quiet_pass inp s q1 q2 q3 q4
    obtain ⟨n1, n2, n3, n4⟩ := pass_detectors inp s
    unfold run_iterations
    split
    · exact ⟨p1, p2, p3⟩
    · obtain ⟨i1, i2, i3⟩ := ih (loop_iteration inp s).session
        (inp.col_values 2 1) (inp.col_values 2 2) (inp.col_values 2 3) (inp.col_values 2 5)
        (fun h => n1.elim (fun k => q1 (k.symm.trans h)) (fun k => k.symm.trans h))
        (fun h => n2.elim (fun k => q2 (k.symm.trans h)) (fun k => k.symm.trans h))
        (fun h => n3.elim (fun k => q3 (k.symm.trans h)) (fun k => k.symm.trans h))
        (fun h => n4.elim (fun k => k.trans (q4 h)) (fun k => k.trans h))
        c1.2 c2.2 c3.2 c4.2
      exact ⟨i1.trans p1, i2.trans p2, i3.trans p3⟩

/-- A flag that is false and stays false never goes from true to false. -/
theorem never_falls_of_all_false (levels : List Bool) (h : ∀ b ∈ levels, b = false) :
    never_falls false levels = true := by
  induction levels with
  | nil => rfl
  | cons b rest ih =>
    have hb : b = false := h b (List.mem_cons_self _ _)
    subst hb
    simp only [never_falls, Bool.not_false, Bool.true_or, Bool.true_and]
    exact ih (fun c hc => h c (List.mem_cons_of_mem _ hc))

/-- C23 fails as stated: an examine at 0100 (octal) fails while halted, so
the step logs its one examine request and leaves the console address at
0100. In the next halted snapshot pass the EXAM flag is still false and no
further request is issued, yet with LOAD ADDR pressed the console address
becomes the switch register, 0; and with DEP pressed instead, the simulator
now accepting the deposit, the console address becomes 0101 and
`use_data_latched` becomes true. -/
theorem console_variables_change_after_failed_examine :
    ((process_snapshot Simulator.halted_failing exam_pressed_session).1.requests =
        [SimRequest.mem_examine 64] ∧
      (process_snapshot Simulator.halted_failing exam_pressed_session).1.console_address
        = 64 ∧
      (process_snapshot Simulator.halted_failing exam_pressed_session).1.use_data_latched
        = false) ∧
    ((loop_iteration load_pressed_exam_held_pass
        (process_snapshot Simulator.halted_failing exam_pressed_session).1).result = none ∧
      (loop_iteration load_pressed_exam_held_pass
        (process_snapshot Simulator.halted_failing exam_pressed_session).1).session.panel.flag_exam
        = false ∧
      (loop_iteration load_pressed_exam_held_pass
        (process_snapshot Simulator.halted_failing exam_pressed_session).1).session.requests
        = [SimRequest.mem_examine 64] ∧
      (loop_iteration load_pressed_exam_held_pass
        (process_snapshot Simulator.halted_failing exam_pressed_session).1).session.console_address
        = 0) ∧
    ((loop_iteration dep_pressed_exam_held_pass
        (process_snapshot Simulator.halted_failing exam_pressed_session).1).result = none ∧
      (loop_iteration dep_pressed_exam_held_pass
        (process_snapshot Simulator.halted_failing exam_pressed_session).1).session.panel.flag_exam
        = false ∧
      (loop_iteration dep_pressed_exam_held_pass
        (process_snapshot Simulator.halted_failing exam_pressed_session).1).session.console_address
        = 65 ∧
      (loop_iteration dep_pressed_exam_held_pass
        (process_snapshot Simulator.halted_failing exam_pressed_session).1).session.use_data_latched
        = true) := by
  decide

/-- C23 as amended: when an EXAMINE (or DEPOSIT) falling edge is processed
while the simulator is halted and the simulator command fails, the block
issues that one request and changes none of `console_address`,
`data_latched`, `use_data_latched`, and the detector is left at false; over
any following passes of the loop in which that switch's flag stays false
(simulator running or halted, snapshot or not, whatever the other switches
do) no further examine (deposit) request is issued; and the three console
variables stay unchanged over those passes provided that, counted from the
flags of the failing step, the LOAD ADDR flag and the flag of the other of
the two switches never go from true to false and the ENABLE/HALT flag never
goes from false to true. A further request needs the detector to store true
again, that is the flag seen true and then false. -/
theorem failed_command_consumes_edge (sim0 : Simulator) (s : Session)
    (inputs : List IterationInput) (hhalt : sim0.running = false) :
    (s.edge_exam.previous = true → s.panel.flag_exam = false →
      sim0.mem_examine (after_load sim0 s).console_address = none →
      (∀ inp ∈ inputs, inp.col_values 2 2 = false) →
      ((exam_block sim0 false (after_load sim0 s)).requests =
          (after_load sim0 s).requests ++
            [SimRequest.mem_examine (after_load sim0 s).console_address] ∧
        (exam_block sim0 false (after_load sim0 s)).console_address =
          (after_load sim0 s).console_address ∧
        (exam_block sim0 false (after_load sim0 s)).data_latched =
          (after_load sim0 s).data_latched ∧
        (exam_block sim0 false (after_load sim0 s)).use_data_latched =
          (after_load sim0 s).use_data_latched) ∧
      (process_snapshot sim0 s).1.edge_exam.previous = false ∧
      extends_with (fun q => !q.is_examine) (process_snapshot sim0 s).1.requests
        (run_iterations inputs (process_snapshot sim0 s).1).1.requests ∧
      (never_falls s.panel.flag_load_addr (row2_levels 1 inputs) = true →
        never_falls s.panel.flag_dep (row2_levels 3 inputs) = true →
        never_rises s.panel.flag_enable_halt (row2_levels 5 inputs) = true →
        (run_iterations inputs (process_snapshot sim0 s).1).1.console_address =
          (process_snapshot sim0 s).1.console_address ∧
        (run_iterations inputs (process_snapshot sim0 s).1).1.data_latched =
          (process_snapshot sim0 s).1.data_latched ∧
        (run_iterations inputs (process_snapshot sim0 s).1).1.use_data_latched =
          (process_snapshot sim0 s).1.use_data_latched)) ∧
    (s.edge_dep.previous = true → s.panel.flag_dep = false →
      sim0.mem_deposit (exam_block sim0 false (after_load sim0 s)).console_address
        (s.panel.switch_state &&& 65535) = false →
      (∀ inp ∈ inputs, inp.col_values 2 3 = false) →
      ((after_dep sim0 s).requests =
          (exam_block sim0 false (after_load sim0 s)).requests ++
            [SimRequest.mem_deposit
              (exam_block sim0 false (after_load sim0 s)).console_address
              (s.panel.switch_state &&& 65535)] ∧
        (after_dep sim0 s).console_address =
          (exam_block sim0 false (after_load sim0 s)).console_address ∧
        (after_dep sim0 s).data_latched =
          (exam_block sim0 false (after_load sim0 s)).data_latched ∧
        (after_dep sim0 s).use_data_latched =
          (exam_block sim0 false (after_load sim0 s)).use_data_latched) ∧
      (process_snapshot sim0 s).1.edge_dep.previous = false ∧
      extends_with (fun q => !q.is_deposit) (process_snapshot sim0 s).1.requests
        (run_iterations inputs (process_snapshot sim0 s).1).1.requests ∧
      (never_falls s.panel.flag_load_addr (row2_levels 1 inputs) = true →
        never_falls s.panel.flag_exam (row2_levels 2 inputs) = true →
        never_rises s.panel.flag_enable_halt (row2_levels 5 inputs) = true →
        (run_iterations inputs (process_snapshot sim0 s).1).1.console_address =
          (process_snapshot sim0 s).1.console_address ∧
        (run_iterations inputs (process_snapshot sim0 s).1).1.data_latched =
          (process_snapshot sim0 s).1.data_latched ∧
        (run_iterations inputs (process_snapshot sim0 s).1).1.use_data_latched =
          (process_snapshot sim0 s).1.use_data_latched)) ∧
    (∀ (sim : Simulator) (r : Bool) (t : Session),
      ((exam_block sim r t).requests ≠ t.requests →
        r = false ∧ t.edge_exam.previous = true ∧ t.panel.flag_exam = false) ∧
      ((dep_block sim r t).requests ≠ t.requests →
        r = false ∧ t.edge_dep.previous = true ∧ t.panel.flag_dep = false)) := by
  obtain ⟨_, d2, _, d4, _⟩ := process_snapshot_detectors sim0 s
  obtain ⟨f1, f2, f3, f4, f5, f6⟩ := halted_chain_frame sim0 s
  obtain ⟨g1, g2, g3⟩ := d4 hhalt
  rw [hhalt] at f5 f6
  refine ⟨?_, ?_, request_needs_falling_edge⟩
  · intro hprev hflag hfail hcol
    have hstep : (process_snapshot sim0 s).1.edge_exam.previous = false := by
      rw [g2]
      exact hflag
    obtain ⟨r1, r2, _⟩ := exam_consumed_run inputs (process_snapshot sim0 s).1 hstep hcol
    refine ⟨?_, hstep, r2, ?_⟩
    · have hedge : ((after_load sim0 s).edge_exam.falling
          (after_load sim0 s).panel.flag_exam).1 = true := by
        rw [f1, f2]
        simp [Edge.falling, hprev, hflag]
      simp [exam_block, hedge, hfail]
    · intro k1 k3 k5
      have kx : never_falls false (row2_levels 2 inputs) = true := by
        apply never_falls_of_all_false
        intro b hb
        obtain ⟨inp, hmem, hval⟩ := List.mem_map.mp hb
        rw [← hval]
        exact hcol inp hmem
      exact quiet_run inputs (process_snapshot sim0 s).1
        s.panel.flag_load_addr false s.panel.flag_dep s.panel.flag_enable_halt
        (fun h => g1.symm.trans h)
        (fun h => absurd (hstep.symm.trans h) Bool.false_ne_true)
        (fun h => g3.symm.trans h) (fun h => d2.trans h) k1 kx k3 k5
  · intro hprev hflag hfail hcol
    have hstep : (process_snapshot sim0 s).1.edge_dep.previous = false := by
      rw [g3]
      exact hflag
    obtain ⟨r1, r2, _⟩ := dep_consumed_run inputs (process_snapshot sim0 s).1 hstep hcol
    refine ⟨?_, hstep, r2, ?_⟩
    · have hblock : ∀ t : Session, t.edge_dep.previous = true → t.panel.flag_dep = false →
          sim0.mem_deposit t.console_address (t.panel.switch_state &&& 65535) = false →
          (dep_block sim0 false t).requests =
              t.requests ++
                [SimRequest.mem_deposit t.console_address
                  (t.panel.switch_state &&& 65535)] ∧
            (dep_block sim0 false t).console_address = t.console_address ∧
            (dep_block sim0 false t).data_latched = t.data_latched ∧
            (dep_block sim0 false t).use_data_latched = t.use_data_latched := by
        intro t h1 h2 h3
        simp [dep_block, Edge.falling, h1, h2, h3]
      have hsw : (exam_block sim0 false (after_load sim0 s)).panel.switch_state =
          s.panel.switch_state := by rw [f5]
      have := hblock (exam_block sim0 false (after_load sim0 s))
        (by rw [f6]; exact hprev) (by rw [f5]; exact hflag) (by rw [hsw]; exact hfail)
      rw [hsw] at this
      unfold after_dep
      rw [hhalt]
      exact this
    · intro k1 k2 k5
      have kd : never_falls false (row2_levels 3 inputs) = true := by
        apply never_falls_of_all_false
        intro b hb
        obtain ⟨inp, hmem, hval⟩ := List.mem_map.mp hb
        rw [← hval]
        exact hcol inp hmem
      exact quiet_run inputs (process_snapshot sim0 s).1
        s.panel.flag_load_addr s.panel.flag_exam false s.panel.flag_enable_halt
        (fun h => g1.symm.trans h) (fun h => g2.symm.trans h)
        (fun h => absurd (hstep.symm.trans h) Bool.false_ne_true)
        (fun h => d2.trans h) k1 k2 kd k5

/-- C23 as amended, at console address 0100 (octal): an examine that fails,
followed by two halted passes with EXAM still held down against a simulator
that would now accept the command. With ENABLE/HALT lowered, and likewise
with ENABLE/HALT left at rest, the detector stays at false and the console
address is still 0100. -/
theorem failed_command_consumes_edge_witness :
    (process_snapshot Simulator.halted_failing exam_pressed_session).1.edge_exam.previous
      = false ∧
    (run_iterations exam_held_passes
      (process_snapshot Simulator.halted_failing exam_pressed_session).1).1.console_address
      = 64 ∧
    (run_iterations exam_held_at_rest_passes
      (process_snapshot Simulator.halted_failing exam_pressed_session).1).1.console_address
      = 64 :=
  ⟨((failed_command_consumes_edge Simulator.halted_failing exam_pressed_session
      exam_held_passes rfl).1 rfl rfl rfl (by decide)).2.1,
    ((((failed_command_consumes_edge Simulator.halted_failing exam_pressed_session
      exam_held_passes rfl).1 rfl rfl rfl (by decide)).2.2.2)
      (by decide) (by decide) (by decide)).1.trans (by decide),
    ((((failed_command_consumes_edge Simulator.halted_failing exam_pressed_session
      exam_held_at_rest_passes rfl).1 rfl rfl rfl (by decide)).2.2.2)
      (by decide) (by decide) (by decide)).1.trans (by decide)⟩

/-! ## Configuration reload -/

/-- C21 fails as stated: after a successful `init` that loaded an entry for
switch code 0001, a `reload` that cannot open the file (or finds only a
comment line) returns false and `find_entry 1` no longer returns the entry
it returned before. -/
theorem failed_reload_discards_entries :
    (Configuration.init one_entry_file
      (Configuration.create ("panel.conf").toList)).1 = true ∧
    loaded_configuration.find_entry 1 =
      some { switch_code := 1, directory := ("/boot1").toList,
             configuration_file := ("sys.ini").toList, boot_device := ("RL0").toList } ∧
    (Configuration.reload none loaded_configuration).1 = false ∧
    (Configuration.reload none loaded_configuration).2.find_entry 1 = none ∧
    (Configuration.reload comment_only_file loaded_configuration).1 = false ∧
    (Configuration.reload comment_only_file loaded_configuration).2.find_entry 1 = none := by
  decide

/-- The line loop of `init` collects, in order, the entries of the lines
that parse. -/
theorem init_loop_eq (lines : List (List Char)) (acc : List ConfigurationEntry) :
    lines.foldl
      (fun entries line =>
        match parse_line line with
        | some entry => entries ++ [entry]
        | none => entries)
      acc = acc ++ lines.filterMap parse_line := by
  induction lines generalizing acc with
  | nil => simp
  | cons line rest ih =>
    rw [List.foldl_cons, ih]
    cases h : parse_line line <;> simp [List.filterMap_cons, h]

/-- What `reload` returns and leaves behind, by the file it finds. -/
theorem reload_outcome (file : Option (List (List Char))) (cfg : Configuration) :
    (file = none →
      Configuration.reload file cfg =
        (false, { cfg with entries := [], initialized := false })) ∧
    (∀ lines, file = some lines → lines.filterMap parse_line = [] →
      Configuration.reload file cfg =
        (false, { cfg with entries := [], initialized := false })) ∧
    (∀ lines, file = some lines → lines.filterMap parse_line ≠ [] →
      Configuration.reload file cfg =
        (true, { cfg with entries := lines.filterMap parse_line, initialized := true })) := by
  refine ⟨?_, ?_, ?_⟩
  · intro h
    subst h
    simp [Configuration.reload, Configuration.init]
  · intro lines h hnone
    subst h
    simp [Configuration.reload, Configuration.init, init_loop_eq, hnone]
  · intro lines h hsome
    subst h
    simp [Configuration.reload, Configuration.init, init_loop_eq, hsome]

/-- C21 as amended: a failed `reload` discards the previously loaded
entries. It fails exactly when the file cannot be opened or yields no valid
entry, and then, whatever was loaded before, `find_entry` returns no entry
for every switch code and the object is no longer initialized. -/
theorem failed_reload_leaves_no_entry (file : Option (List (List Char)))
    (cfg : Configuration) :
    ((Configuration.reload file cfg).1 = false ↔
      (file = none ∨ ∃ lines, file = some lines ∧ lines.filterMap parse_line = [])) ∧
    ((Configuration.reload file cfg).1 = false →
      (∀ switch_code, (Configuration.reload file cfg).2.find_entry switch_code = none) ∧
      (Configuration.reload file cfg).2.entries = [] ∧
      (Configuration.reload file cfg).2.initialized = false) := by
  obtain ⟨o1, o2, o3⟩ := reload_outcome file cfg
  cases hfile : file with
  | none =>
    rw [hfile] at o1
    rw [o1 rfl]
    refine ⟨by simp, fun _ => ⟨fun code => ?_, rfl, rfl⟩⟩
    simp [Configuration.find_entry]
  | some lines =>
    rw [hfile] at o2 o3
    by_cases hp : lines.filterMap parse_line = []
    · rw [o2 lines rfl hp]
      refine ⟨⟨fun _ => Or.inr ⟨lines, rfl, hp⟩, fun _ => rfl⟩,
        fun _ => ⟨fun code => ?_, rfl, rfl⟩⟩
      simp [Configuration.find_entry]
    · rw [o3 lines rfl hp]
      refine ⟨⟨fun h => ?_, fun h => ?_⟩, fun h => ?_⟩
      · cases h
      · rcases h with h | ⟨l, hl, hl2⟩
        · cases h
        · cases hl
          exact absurd hl2 hp
      · cases h

/-- C21 as amended, at the configuration loaded from the one-entry file: a
reload that cannot open the file leaves no entry for switch code 0001. -/
theorem failed_reload_leaves_no_entry_witness :
    (Configuration.reload none loaded_configuration).2.find_entry 1 = none :=
  ((failed_reload_leaves_no_entry none loaded_configuration).2 (by decide)).1 1

end FrontPanel
